import Mathlib

/-!
Verification of bowtie2 `bt2_search.cpp`: option parsing, the `bowtie()` entry
point and the per-read body of `multiseedSearchWorker`.

A shallow embedding of the search driver.  Global variables of the C++ file are
the fields of the record `Globals`; functions that assign globals take and
return a `Globals`.  A C++ `throw` is the `Except.error` result.  Machine
integers are `Nat`/`Int` with the wrap-around written out (`u32`, `u64`,
`toInt32`).  Code that lives in other files of the repository (presets, the
policy-string parser, the tokenizer, the aligners and the sink) is taken as a
parameter: the fields of `Ext` for option parsing and of `ReadOracle` for the
worker.  Output to `cout`/`cerr` is not modelled.
-/

namespace Bt2Search

/-! ## Machine integers -/

/-- Values of `uint32_t`: reduction modulo 2^32. -/
def u32 (n : Nat) : Nat := n % 2 ^ 32

/-- Values of `uint64_t` and `size_t`: reduction modulo 2^64. -/
def u64 (n : Nat) : Nat := n % 2 ^ 64

/-- Conversion `(uint32_t)x` of a signed integer. -/
def toU32 (x : Int) : Nat := (x % 2 ^ 32).toNat

/-- Conversion `(size_t)x` of a signed integer. -/
def toSizeT (x : Int) : Nat := (x % 2 ^ 64).toNat

/-- Conversion `(int32_t)l` of a `long`. -/
def toInt32 (l : Int) : Int := (l + 2 ^ 31) % 2 ^ 32 - 2 ^ 31

/-- The constant `std::numeric_limits<int>::max()`. -/
def INT_MAX : Int := 2 ^ 31 - 1

/-- The constant `std::numeric_limits<int>::min()`. -/
def INT_MIN : Int := -(2 ^ 31)

/-- The constant `LONG_MAX` of a 64-bit `long`. -/
def LONG_MAX : Int := 2 ^ 63 - 1

/-- The constant `LONG_MIN` of a 64-bit `long`. -/
def LONG_MIN : Int := -(2 ^ 63)

/-! ## Exceptions -/

/-- How a call can end other than by returning: a `throw` of an `int`
(`throw 1`, `throw 0`), a `throw` of an object derived from `std::exception`,
or (`oob`) an `EList` element access past the end of the list, which is an
assertion failure in a debug build and undefined otherwise. -/
inductive Thrown where
  | int (e : Int)
  | exn
  | oob
  deriving DecidableEq, Repr

deriving instance DecidableEq for Except

/-! ## `strtol` and `parseInt` (lines 650-678) -/

/-- The C library predicate `isspace` in the "C" locale. -/
def isspace (c : Char) : Bool :=
  c = ' ' || c = '\t' || c = '\n' || c = '\r' || c.toNat = 11 || c.toNat = 12

/-- Number of leading white-space characters that `strtol` skips. -/
def spaceLen : List Char → Nat
  | [] => 0
  | c :: cs => if isspace c then spaceLen cs + 1 else 0

/-- Number of leading decimal digits. -/
def digitLen : List Char → Nat
  | [] => 0
  | c :: cs => if c.isDigit then digitLen cs + 1 else 0

/-- Value of the leading decimal digits, continuing from `acc`. -/
def digitsValue (acc : Nat) : List Char → Nat
  | [] => acc
  | c :: cs => if c.isDigit then digitsValue (acc * 10 + (c.toNat - 48)) cs else acc

/-- Result of `l = strtol(arg, &endPtr, 10)`: the value and where `endPtr`
points, as an offset into `arg` (`none` would be a NULL `endPtr`). -/
structure StrtolResult where
  l : Int
  endPtr : Option Nat
  deriving DecidableEq, Repr

/-- Length of an optional sign character. -/
def signLen : List Char → Nat
  | '-' :: _ => 1
  | '+' :: _ => 1
  | _ => 0

/-- The decimal digits that `strtol` reads from `arg`: what follows the white
space and the optional sign. -/
def strtolDigits (arg : String) : List Char :=
  let body := arg.toList.drop (spaceLen arg.toList)
  body.drop (signLen body)

/-- The C library function `strtol(arg, &endPtr, 10)`: white space, an optional
sign, decimal digits; the value saturates at `LONG_MIN`/`LONG_MAX`; without
digits the value is 0 and `endPtr` is `arg` itself. -/
def strtol (arg : String) : StrtolResult :=
  let sp := spaceLen arg.toList
  let body := arg.toList.drop sp
  let ds := strtolDigits arg
  if digitLen ds = 0 then ⟨0, some 0⟩
  else if body.head? = some '-' then
    ⟨max LONG_MIN (-(digitsValue 0 ds : Int)), some (sp + signLen body + digitLen ds)⟩
  else
    ⟨min LONG_MAX (digitsValue 0 ds : Int), some (sp + signLen body + digitLen ds)⟩

/-- Function `parseInt(lower, upper, errmsg, arg)` of lines 655-671. -/
def parseInt (lower upper : Int) (_errmsg : String) (arg : String) : Except Thrown Int :=
  let r := strtol arg
  match r.endPtr with
  | some _ =>
    if r.l < lower ∨ r.l > upper then
      -- cerr << errmsg; printUsage(cerr); throw 1
      .error (.int 1)
    else
      .ok (toInt32 r.l)
  | none =>
    -- cerr << errmsg; printUsage(cerr); throw 1
    .error (.int 1)

/-- Overload `parseInt(lower, errmsg, arg)` of lines 676-678. -/
def parseInt3 (lower : Int) (errmsg : String) (arg : String) : Except Thrown Int :=
  parseInt lower INT_MAX errmsg arg

/-! ## Option codes and the `long_options` table (lines 352-477) -/

/-- Read-file formats named in this file (the enumeration is in `formats.h`). -/
inductive FileFormat where
  | FASTA | FASTA_CONT | FASTQ | TAB_MATE5 | TAB_MATE6 | RAW | CMDLINE | QSEQ
  deriving DecidableEq, Repr

/-- Output types named in this file. -/
inductive OutputType where
  | OUTPUT_SAM
  deriving DecidableEq, Repr

/-- The value `next_option` that `parseOption` switches on: one constructor for
every `case` label of the switch (`ch_x` for the character label `'x'`, the
`ARG_` names for the codes of `opts.h`), and one for every other value that
`getopt_long` can return from `short_options` and `long_options`: the
characters `b z v o w g O E`, which have no `case` label, `'?'` (`ch_qmark`) for
an unknown option, and 0 (`zero`) for an option with a flag pointer. -/
inductive NextOption where
  | ch_1 | ch_2 | ch_f | ch_F | ch_q | ch_r | ch_c | ch_C | ch_I | ch_X | ch_s
  | ch_u | ch_Q | ch_p | ch_3 | ch_5 | ch_h | ch_M | ch_a | ch_k | ch_t | ch_x
  | ch_P | ch_N | ch_L | ch_i | ch_S | ch_U
  | ARG_ONETWO | ARG_TAB5 | ARG_TAB6 | ARG_BWA_SW_LIKE | ARG_QSEQ
  | ARG_NO_DISCORDANT | ARG_NO_MIXED | ARG_FF | ARG_RF | ARG_FR
  | ARG_USE_SPINLOCK | ARG_SHMEM | ARG_COLOR_SEQ | ARG_COLOR_EDIT | ARG_COLOR_QUAL
  | ARG_SEED_SUMM | ARG_MM | ARG_MMSWEEP | ARG_HADOOPOUT | ARG_SOLEXA_QUALS
  | ARG_INTEGER_QUALS | ARG_PHRED64 | ARG_PHRED33 | ARG_COLOR_KEEP_ENDS
  | ARG_OVERHANG | ARG_NO_CACHE | ARG_USE_CACHE | ARG_SNPPHRED | ARG_SNPFRAC
  | ARG_REFIDX | ARG_FUZZY | ARG_FULLREF | ARG_GAP_BAR | ARG_SEED | ARG_QUALS1
  | ARG_QUALS2 | ARG_CACHE_LIM | ARG_CACHE_SZ | ARG_WRAPPER | ARG_FILEPAR
  | ARG_USAGE | ARG_VERBOSE | ARG_STARTVERBOSE | ARG_QUIET | ARG_SANITY
  | ARG_METRIC_IVAL | ARG_METRIC_FILE | ARG_METRIC_STDERR | ARG_NO_FW | ARG_NO_RC
  | ARG_SAM_NO_QNAME_TRUNC | ARG_SAM_OMIT_SEC_SEQ | ARG_SAM_NOHEAD | ARG_SAM_NOSQ
  | ARG_SAM_PRINT_YI | ARG_SAM_RG | ARG_PARTITION | ARG_DPAD | ARG_ORIG
  | ARG_LOCAL | ARG_END_TO_END | ARG_SCAN_NARROWED | ARG_NO_SSE | ARG_QC_FILTER
  | ARG_NO_SCORE_PRIORITY | ARG_IGNORE_QUALS | ARG_NOISY_HPOLY
  | ARG_PRESET_VERY_FAST | ARG_PRESET_FAST | ARG_PRESET_SENSITIVE
  | ARG_PRESET_VERY_SENSITIVE | ARG_ALIGN_POLICY | ARG_MULTISEED_IVAL
  | ARG_N_CEIL | ARG_SCORE_MA | ARG_SCORE_MMP | ARG_SCORE_NP | ARG_SCORE_RDG
  | ARG_SCORE_RFG | ARG_SCORES | ARG_SCORE_MIN | ARG_DESC
  | ch_b | ch_z | ch_v | ch_o | ch_w | ch_g | ch_O | ch_E | ch_qmark | zero
  deriving DecidableEq, Repr

/-- The two globals that `long_options` hands to `getopt_long` by pointer. -/
inductive FlagVar where
  | ipause | showVersion
  deriving DecidableEq, Repr

/-- The `flag` and `val` entries of a row of `long_options`: a null flag pointer
with the code to return, or a flag pointer with the integer to store. -/
inductive RowTarget where
  | ret (val : NextOption)
  | store (flag : FlagVar) (val : Int)
  deriving DecidableEq, Repr

/-- One row `{name, has_arg, flag, val}` of `long_options`. -/
structure LongOption where
  name : String
  has_arg : Bool
  target : RowTarget
  deriving DecidableEq, Repr

/-- A row `{name, has_arg, 0, val}`. -/
def row (name : String) (has_arg : Bool) (val : NextOption) : LongOption :=
  { name := name, has_arg := has_arg, target := .ret val }

/-- A row `{name, has_arg, &flag, val}`. -/
def flagRow (name : String) (has_arg : Bool) (flag : FlagVar) (val : Int) : LongOption :=
  { name := name, has_arg := has_arg, target := .store flag val }

/-- The table `long_options` of lines 354-477, row by row. -/
def long_options : List LongOption :=
  [ row "verbose" false .ARG_VERBOSE,
    row "startverbose" false .ARG_STARTVERBOSE,
    row "quiet" false .ARG_QUIET,
    row "sanity" false .ARG_SANITY,
    flagRow "pause" false .ipause 1,
    row "orig" true .ARG_ORIG,
    row "all" false .ch_a,
    row "solexa-quals" false .ARG_SOLEXA_QUALS,
    row "integer-quals" false .ARG_INTEGER_QUALS,
    row "int-quals" false .ARG_INTEGER_QUALS,
    row "metrics" true .ARG_METRIC_IVAL,
    row "metrics-file" true .ARG_METRIC_FILE,
    row "metrics-stderr" false .ARG_METRIC_STDERR,
    row "met" true .ARG_METRIC_IVAL,
    row "met-file" true .ARG_METRIC_FILE,
    row "met-stderr" false .ARG_METRIC_STDERR,
    row "time" false .ch_t,
    row "trim3" true .ch_3,
    row "trim5" true .ch_5,
    row "seed" true .ARG_SEED,
    row "qupto" true .ch_u,
    row "upto" true .ch_u,
    row "offrate" true .ch_o,
    flagRow "version" false .showVersion 1,
    row "filepar" false .ARG_FILEPAR,
    row "help" false .ch_h,
    row "threads" true .ch_p,
    row "khits" true .ch_k,
    row "minins" true .ch_I,
    row "maxins" true .ch_X,
    row "quals" true .ch_Q,
    row "Q1" true .ARG_QUALS1,
    row "Q2" true .ARG_QUALS2,
    row "refidx" false .ARG_REFIDX,
    row "partition" true .ARG_PARTITION,
    row "nospin" false .ARG_USE_SPINLOCK,
    row "ff" false .ARG_FF,
    row "fr" false .ARG_FR,
    row "rf" false .ARG_RF,
    row "cachelim" true .ARG_CACHE_LIM,
    row "cachesz" true .ARG_CACHE_SZ,
    row "nofw" false .ARG_NO_FW,
    row "norc" false .ARG_NO_RC,
    row "skip" true .ch_s,
    row "12" true .ARG_ONETWO,
    row "tab5" true .ARG_TAB5,
    row "tab6" true .ARG_TAB6,
    row "phred33-quals" false .ARG_PHRED33,
    row "phred64-quals" false .ARG_PHRED64,
    row "phred33" false .ARG_PHRED33,
    row "phred64" false .ARG_PHRED64,
    row "solexa1.3-quals" false .ARG_PHRED64,
    row "mm" false .ARG_MM,
    row "shmem" false .ARG_SHMEM,
    row "mmsweep" false .ARG_MMSWEEP,
    row "hadoopout" false .ARG_HADOOPOUT,
    row "fuzzy" false .ARG_FUZZY,
    row "fullref" false .ARG_FULLREF,
    row "usage" false .ARG_USAGE,
    row "gaps" false .ch_g,
    row "sam-no-qname-trunc" false .ARG_SAM_NO_QNAME_TRUNC,
    row "sam-omit-sec-seq" false .ARG_SAM_OMIT_SEC_SEQ,
    row "sam-nohead" false .ARG_SAM_NOHEAD,
    row "sam-noHD" false .ARG_SAM_NOHEAD,
    row "sam-nosq" false .ARG_SAM_NOSQ,
    row "sam-noSQ" false .ARG_SAM_NOSQ,
    row "color" false .ch_C,
    row "sam-RG" true .ARG_SAM_RG,
    row "snpphred" true .ARG_SNPPHRED,
    row "snpfrac" true .ARG_SNPFRAC,
    row "col-cseq" false .ARG_COLOR_SEQ,
    row "col-cqual" false .ARG_COLOR_QUAL,
    row "col-cedit" false .ARG_COLOR_EDIT,
    row "col-keepends" false .ARG_COLOR_KEEP_ENDS,
    row "gbar" true .ARG_GAP_BAR,
    row "gopen" true .ch_O,
    row "gextend" true .ch_E,
    row "qseq" false .ARG_QSEQ,
    row "policy" true .ARG_ALIGN_POLICY,
    row "preset" true .ch_P,
    row "seed-summ" false .ARG_SEED_SUMM,
    row "seed-summary" false .ARG_SEED_SUMM,
    row "overhang" false .ARG_OVERHANG,
    row "no-cache" false .ARG_NO_CACHE,
    row "cache" false .ARG_USE_CACHE,
    row "454" false .ARG_NOISY_HPOLY,
    row "ion-torrent" false .ARG_NOISY_HPOLY,
    row "no-mixed" false .ARG_NO_MIXED,
    row "no-discordant" false .ARG_NO_DISCORDANT,
    row "local" false .ARG_LOCAL,
    row "end-to-end" false .ARG_END_TO_END,
    row "scan-narrowed" false .ARG_SCAN_NARROWED,
    row "no-sse" false .ARG_NO_SSE,
    row "qc-filter" false .ARG_QC_FILTER,
    row "bwa-sw-like" false .ARG_BWA_SW_LIKE,
    row "multiseed" true .ARG_MULTISEED_IVAL,
    row "ma" true .ARG_SCORE_MA,
    row "mp" true .ARG_SCORE_MMP,
    row "np" true .ARG_SCORE_NP,
    row "rdg" true .ARG_SCORE_RDG,
    row "rfg" true .ARG_SCORE_RFG,
    row "scores" true .ARG_SCORES,
    row "score-min" true .ARG_SCORE_MIN,
    row "min-score" true .ARG_SCORE_MIN,
    row "n-ceil" true .ARG_N_CEIL,
    row "dpad" true .ARG_DPAD,
    row "mapq-print-inputs" false .ARG_SAM_PRINT_YI,
    row "very-fast" false .ARG_PRESET_VERY_FAST,
    row "fast" false .ARG_PRESET_FAST,
    row "sensitive" false .ARG_PRESET_SENSITIVE,
    row "very-sensitive" false .ARG_PRESET_VERY_SENSITIVE,
    row "no-score-priority" false .ARG_NO_SCORE_PRIORITY,
    row "seedlen" true .ch_L,
    row "seedmms" true .ch_N,
    row "seedival" true .ch_i,
    row "ignore-quals" false .ARG_IGNORE_QUALS,
    row "index" true .ch_x,
    row "arg-desc" false .ARG_DESC,
    row "wrapper" true .ARG_WRAPPER,
    row "unpaired" true .ch_U,
    row "output" true .ch_S ]

/-- What one call of `getopt_long` hands back to the loop of `parseOptions`
before it reaches `EOF`: the variable and value it stored through a flag pointer
(if the matched row has one), the returned `next_option`, and `optarg`. -/
structure GetoptResult where
  stored : Option (FlagVar × Int)
  next_option : NextOption
  optarg : String
  deriving DecidableEq, Repr

/-- A short option, or a long option given by the code it returns. -/
def shortOpt (o : NextOption) (optarg : String) : GetoptResult := ⟨none, o, optarg⟩

/-- The C library rule of `getopt_long` for a matched row: with a flag pointer it
stores `val` there and returns 0, otherwise it returns `val`. -/
def getoptRow (r : LongOption) (optarg : String) : GetoptResult :=
  match r.target with
  | .store f v => ⟨some (f, v), .zero, optarg⟩
  | .ret val => ⟨none, val, optarg⟩

/-- Result of `getopt_long` for the long option `--name` written out in full;
an unknown name returns `'?'`. -/
def longOpt (name : String) (optarg : String) : GetoptResult :=
  match long_options.find? (fun r => r.name == name) with
  | some r => getoptRow r optarg
  | none => ⟨none, .ch_qmark, optarg⟩

/-! ## Global variables (lines 60-202, 733-736, 1294, 2784) -/

/-- The file-level variables of `bt2_search.cpp`.  The two `float` globals
`bwaSwLikeC`, `bwaSwLikeT` and the six `SimpleFunc` globals (`scoreMin`,
`scoreFloor`, `nCeil`, `msIval`, `posfrac`, `rowmult`) hold floating-point data
and are not part of the record. -/
structure Globals where
  mates1 : List String
  mates2 : List String
  mates12 : List String
  adjIdxBase : String
  gVerbose : Int
  startVerbose : Bool
  gQuiet : Int
  sanityCheck : Int
  format : FileFormat
  origString : String
  seed : Int
  timing : Int
  metricsIval : Int
  metricsFile : String
  metricsStderr : Bool
  allHits : Bool
  showVersion : Int
  ipause : Int
  qUpto : Nat
  gTrim5 : Int
  gTrim3 : Int
  offRate : Int
  solexaQuals : Bool
  phred64Quals : Bool
  integerQuals : Bool
  nthreads : Int
  outType : OutputType
  noRefNames : Bool
  khits : Nat
  mhits : Nat
  partitionSz : Int
  useSpinlock : Bool
  fileParallel : Bool
  useShmem : Bool
  useMm : Bool
  mmSweep : Bool
  gMinInsert : Int
  gMaxInsert : Int
  gMate1fw : Bool
  gMate2fw : Bool
  gFlippedMatesOK : Bool
  gDovetailMatesOK : Bool
  gContainMatesOK : Bool
  gOlapMatesOK : Bool
  gExpandToFrag : Bool
  gReportDiscordant : Bool
  gReportMixed : Bool
  cacheLimit : Nat
  cacheSize : Nat
  skipReads : Nat
  gNofw : Bool
  gNorc : Bool
  fastaContLen : Nat
  fastaContFreq : Nat
  hadoopOut : Bool
  fuzzy : Bool
  fullRef : Bool
  samTruncQname : Bool
  samOmitSecSeqQual : Bool
  samNoHead : Bool
  samNoSQ : Bool
  sam_print_as : Bool
  sam_print_xs : Bool
  sam_print_xn : Bool
  sam_print_cs : Bool
  sam_print_cq : Bool
  sam_print_x0 : Bool
  sam_print_x1 : Bool
  sam_print_xm : Bool
  sam_print_xo : Bool
  sam_print_xg : Bool
  sam_print_nm : Bool
  sam_print_md : Bool
  sam_print_yf : Bool
  sam_print_yi : Bool
  sam_print_ym : Bool
  sam_print_yp : Bool
  sam_print_yt : Bool
  sam_print_ys : Bool
  bwaSwLike : Bool
  qcFilter : Bool
  sortByScore : Bool
  gColor : Bool
  gColorExEnds : Bool
  gReportOverhangs : Bool
  rgid : String
  rgs : String
  rgs_optflag : String
  gSnpPhred : Int
  msample : Bool
  gColorSeq : Bool
  gColorEdit : Bool
  gColorQual : Bool
  gGapBarrier : Int
  gRowLow : Int
  gRowFirst : Bool
  qualities : List String
  qualities1 : List String
  qualities2 : List String
  polstr : String
  msNoCache : Bool
  bonusMatchType : Int
  bonusMatch : Int
  penMmcType : Int
  penMmc : Int
  penSnp : Int
  penNType : Int
  penN : Int
  penNCatPair : Bool
  localAlign : Bool
  noisyHpolymer : Bool
  penRdGapConst : Int
  penRfGapConst : Int
  penRdGapLinear : Int
  penRfGapLinear : Int
  multiseedMms : Int
  multiseedLen : Int
  saCountersFn : String
  saActionsFn : String
  saHitsFn : String
  seedCacheLocalMB : Nat
  seedCacheCurrentMB : Nat
  maxhalf : Nat
  seedSummaryOnly : Bool
  scanNarrowed : Bool
  noSse : Bool
  defaultPreset : String
  ignoreQuals : Bool
  wrapper : String
  queries : List String
  outfile : String
  bt2index : String
  extra_opts : List (NextOption × String)
  extra_opts_cur : Nat
  saw_M : Bool
  saw_a : Bool
  saw_k : Bool
  presetList : List String
  argv0 : Option String
  argstr : String

/-- The outputs that `SeedAlignmentPolicy::parseString` writes through its
reference parameters (lines 1167-1192), the `SimpleFunc` ones apart. -/
structure Policy where
  bonusMatchType : Int
  bonusMatch : Int
  penMmcType : Int
  penMmc : Int
  penSnp : Int
  penNType : Int
  penN : Int
  penRdGapConst : Int
  penRfGapConst : Int
  penRdGapLinear : Int
  penRfGapLinear : Int
  penNCatPair : Bool
  multiseedMms : Int
  multiseedLen : Int
  mhits : Nat
  deriving DecidableEq, Repr

/-- Result of a function that assigns globals and may throw: the globals on
return, or what was thrown together with the globals at the `throw`. -/
abbrev Res := Except (Thrown × Globals) Globals

/-- Code of the repository that this file calls and that lives in other files
(`opts.h`, `tokenize.h`, `presets.h`, `aligner_seed_policy.h`, `aln_sink.h`),
the build configuration, and the one value the C++ leaves indeterminate. -/
structure Ext where
  /-- Whether the build defines the preprocessor symbol of the same name. -/
  BOWTIE_PTHREADS : Bool
  /-- Whether the build defines the preprocessor symbol of the same name. -/
  BOWTIE_MM : Bool
  DEFAULT_MATCH_BONUS_TYPE : Int
  DEFAULT_MATCH_BONUS : Int
  DEFAULT_MM_PENALTY_TYPE : Int
  DEFAULT_MM_PENALTY : Int
  DEFAULT_SNP_PENALTY : Int
  DEFAULT_N_PENALTY_TYPE : Int
  DEFAULT_N_PENALTY : Int
  DEFAULT_N_CAT_PAIR : Bool
  DEFAULT_READ_GAP_CONST : Int
  DEFAULT_REF_GAP_CONST : Int
  DEFAULT_READ_GAP_LINEAR : Int
  DEFAULT_REF_GAP_LINEAR : Int
  DEFAULT_SEEDMMS : Int
  DEFAULT_SEEDLEN : Int
  /-- The tokens that `tokenize(s, delims, out)` appends to `out`. -/
  tokenize : String → String → List String
  /-- The template `parse<uint32_t>` (a `stringstream` extraction). -/
  parseU32 : String → Nat
  /-- The template `parse<int>`. -/
  parseIntSS : String → Int
  /-- The floating-point part of the `--snpfrac` case: `none` when
  `parse<double>(arg) <= 0.0`, else the value `(int)(log10(p) * -10 + 0.5)`. -/
  snpfracPhred : String → Option Int
  /-- The call `presets.apply(s, pol, extra_opts)` on an empty `pol`: the text
  left in `pol` and the pairs appended to `extra_opts`. -/
  presetsApply : String → String × List (NextOption × String)
  /-- The call `SeedAlignmentPolicy::parseString(polstr, localAlign,
  noisyHpolymer, ignoreQuals, ...)`: the values it leaves in its reference
  parameters, or what it throws. -/
  parseString : String → Bool → Bool → Bool → Policy → Except Thrown Policy
  /-- Content of the local `string arg` of the `ARG_SAM_RG` case, which line 943
  initialises from itself. -/
  samRgLocal : String
  /-- The constant `std::numeric_limits<THitInt>::max()`. -/
  THitInt_max : Nat
  /-- The call `driver<SString<char> >("DNA", bt2index, outfile)` of line 3198. -/
  driver : Globals → Res

/-! ## `resetOptions` (lines 206-350) -/

/-- Function `resetOptions`: every global it assigns gets its default; the
globals it does not mention (`saw_M`, `saw_a`, `saw_k`, `presetList`, `argv0`,
`argstr`) keep their value. -/
def resetOptions (ext : Ext) (g : Globals) : Globals :=
  { mates1 := []
    mates2 := []
    mates12 := []
    adjIdxBase := ""
    gVerbose := 0
    startVerbose := false
    gQuiet := 0
    sanityCheck := 0
    format := .FASTQ
    origString := ""
    seed := 0
    timing := 0
    metricsIval := 1
    metricsFile := ""
    metricsStderr := false
    allHits := false
    showVersion := 0
    ipause := 0
    qUpto := 0xffffffff
    gTrim5 := 0
    gTrim3 := 0
    offRate := -1
    solexaQuals := false
    phred64Quals := false
    integerQuals := false
    nthreads := 1
    outType := .OUTPUT_SAM
    noRefNames := false
    khits := 1
    mhits := 1
    partitionSz := 0
    useSpinlock := true
    fileParallel := false
    useShmem := false
    useMm := false
    mmSweep := false
    gMinInsert := 0
    gMaxInsert := 500
    gMate1fw := true
    gMate2fw := false
    gFlippedMatesOK := false
    gDovetailMatesOK := true
    gContainMatesOK := true
    gOlapMatesOK := true
    gExpandToFrag := true
    gReportDiscordant := true
    gReportMixed := true
    cacheLimit := 5
    cacheSize := 0
    skipReads := 0
    gNofw := false
    gNorc := false
    fastaContLen := 0
    fastaContFreq := 0
    hadoopOut := false
    fuzzy := false
    fullRef := false
    samTruncQname := true
    samOmitSecSeqQual := false
    samNoHead := false
    samNoSQ := false
    sam_print_as := true
    sam_print_xs := true
    sam_print_xn := true
    sam_print_cs := false
    sam_print_cq := false
    sam_print_x0 := true
    sam_print_x1 := true
    sam_print_xm := true
    sam_print_xo := true
    sam_print_xg := true
    sam_print_nm := true
    sam_print_md := true
    sam_print_yf := true
    sam_print_yi := false
    sam_print_ym := true
    sam_print_yp := true
    sam_print_yt := true
    sam_print_ys := true
    bwaSwLike := false
    qcFilter := false
    sortByScore := true
    gColor := false
    gColorExEnds := true
    gReportOverhangs := false
    rgid := ""
    rgs := ""
    rgs_optflag := ""
    gSnpPhred := 30
    msample := true
    gColorSeq := false
    gColorEdit := false
    gColorQual := false
    gGapBarrier := 4
    gRowLow := -1
    gRowFirst := false
    qualities := []
    qualities1 := []
    qualities2 := []
    polstr := ""
    msNoCache := true
    bonusMatchType := ext.DEFAULT_MATCH_BONUS_TYPE
    bonusMatch := ext.DEFAULT_MATCH_BONUS
    penMmcType := ext.DEFAULT_MM_PENALTY_TYPE
    penMmc := ext.DEFAULT_MM_PENALTY
    penSnp := ext.DEFAULT_SNP_PENALTY
    penNType := ext.DEFAULT_N_PENALTY_TYPE
    penN := ext.DEFAULT_N_PENALTY
    penNCatPair := ext.DEFAULT_N_CAT_PAIR
    localAlign := false
    noisyHpolymer := false
    penRdGapConst := ext.DEFAULT_READ_GAP_CONST
    penRfGapConst := ext.DEFAULT_REF_GAP_CONST
    penRdGapLinear := ext.DEFAULT_READ_GAP_LINEAR
    penRfGapLinear := ext.DEFAULT_REF_GAP_LINEAR
    multiseedMms := ext.DEFAULT_SEEDMMS
    multiseedLen := ext.DEFAULT_SEEDLEN
    saCountersFn := ""
    saActionsFn := ""
    saHitsFn := ""
    seedCacheLocalMB := 32
    seedCacheCurrentMB := 16
    maxhalf := 15
    seedSummaryOnly := false
    scanNarrowed := false
    noSse := false
    defaultPreset := "sensitive%LOCAL%"
    ignoreQuals := false
    wrapper := ""
    queries := []
    outfile := ""
    bt2index := ""
    extra_opts := []
    extra_opts_cur := 0
    saw_M := g.saw_M
    saw_a := g.saw_a
    saw_k := g.saw_k
    presetList := g.presetList
    argv0 := g.argv0
    argstr := g.argstr }

/-! ## `parseOption` (lines 745-1115) -/

/-- A `throw e` at globals `s`. -/
def throwAt (s : Globals) (e : Int) : Res := .error (.int e, s)

/-- A call that may throw, made at globals `s`. -/
def liftAt {α : Type} (s : Globals) (x : Except Thrown α) : Except (Thrown × Globals) α :=
  match x with
  | .ok a => .ok a
  | .error e => .error (e, s)

/-- Element access `args[i]` of an `EList<string>`. -/
def elemAt (s : Globals) (args : List String) (i : Nat) : Except (Thrown × Globals) String :=
  match args[i]? with
  | some a => .ok a
  | none => .error (.oob, s)

/-- Statement `polstr += (sep + args[i])`. -/
def polAdd (args : List String) (i : Nat) (sep : String) (s : Globals) : Res := do
  let a ← elemAt s args i
  pure { s with polstr := s.polstr ++ (sep ++ a) }

/-- Statement `if(args.size() > i) polstr += (sep + args[i])`. -/
def polAddIf (args : List String) (i : Nat) (sep : String) (s : Globals) : Res :=
  if args.length > i then polAdd args i sep s else pure s

/-- Function `parseOption(next_option, arg)`. -/
def parseOption (ext : Ext) (next_option : NextOption) (arg : String) (s : Globals) : Res :=
  match next_option with
  | .ch_1 => .ok { s with mates1 := s.mates1 ++ ext.tokenize arg "," }
  | .ch_2 => .ok { s with mates2 := s.mates2 ++ ext.tokenize arg "," }
  | .ARG_ONETWO => .ok { s with mates12 := s.mates12 ++ ext.tokenize arg ",", format := .TAB_MATE5 }
  | .ARG_TAB5 => .ok { s with mates12 := s.mates12 ++ ext.tokenize arg ",", format := .TAB_MATE5 }
  | .ARG_TAB6 => .ok { s with mates12 := s.mates12 ++ ext.tokenize arg ",", format := .TAB_MATE6 }
  | .ch_f => .ok { s with format := .FASTA }
  | .ch_F => do
    let s := { s with format := .FASTA_CONT }
    -- parsePair<uint32_t>(arg, ',')
    let ss := ext.tokenize arg ","
    let p0 ← elemAt s ss 0
    let p1 ← elemAt s ss 1
    pure { s with fastaContLen := ext.parseU32 p0, fastaContFreq := ext.parseU32 p1 }
  | .ARG_BWA_SW_LIKE =>
    .ok { s with bwaSwLike := true, polstr := s.polstr ++ ";MA=1;MMP=C3;RDG=5,2;RFG=5,2" }
  | .ch_q => .ok { s with format := .FASTQ }
  | .ch_r => .ok { s with format := .RAW }
  | .ch_c => .ok { s with format := .CMDLINE }
  | .ARG_QSEQ => .ok { s with format := .QSEQ }
  | .ch_C => .ok { s with gColor := true }
  | .ch_I => do
    let v ← liftAt s (parseInt3 0 "-I arg must be positive" arg)
    pure { s with gMinInsert := v }
  | .ch_X => do
    let v ← liftAt s (parseInt3 1 "-X arg must be at least 1" arg)
    pure { s with gMaxInsert := v }
  | .ARG_NO_DISCORDANT => .ok { s with gReportDiscordant := false }
  | .ARG_NO_MIXED => .ok { s with gReportMixed := false }
  | .ch_s => do
    let v ← liftAt s (parseInt3 0 "-s arg must be positive" arg)
    pure { s with skipReads := toU32 v }
  | .ARG_FF => .ok { s with gMate1fw := true, gMate2fw := true }
  | .ARG_RF => .ok { s with gMate1fw := false, gMate2fw := true }
  | .ARG_FR => .ok { s with gMate1fw := true, gMate2fw := false }
  | .ARG_USE_SPINLOCK => .ok { s with useSpinlock := false }
  | .ARG_SHMEM => .ok { s with useShmem := true }
  | .ARG_COLOR_SEQ => .ok { s with gColorSeq := true }
  | .ARG_COLOR_EDIT => .ok { s with gColorEdit := true }
  | .ARG_COLOR_QUAL => .ok { s with gColorQual := true }
  | .ARG_SEED_SUMM => .ok { s with seedSummaryOnly := true }
  | .ARG_MM =>
    if ext.BOWTIE_MM then .ok { s with useMm := true }
    else throwAt s 1
  | .ARG_MMSWEEP => .ok { s with mmSweep := true }
  | .ARG_HADOOPOUT => .ok { s with hadoopOut := true }
  | .ARG_SOLEXA_QUALS => .ok { s with solexaQuals := true }
  | .ARG_INTEGER_QUALS => .ok { s with integerQuals := true }
  | .ARG_PHRED64 => .ok { s with phred64Quals := true }
  | .ARG_PHRED33 => .ok { s with solexaQuals := false, phred64Quals := false }
  | .ARG_COLOR_KEEP_ENDS => .ok { s with gColorExEnds := false }
  | .ARG_OVERHANG => .ok { s with gReportOverhangs := true }
  | .ARG_NO_CACHE => .ok { s with msNoCache := true }
  | .ARG_USE_CACHE => .ok { s with msNoCache := false }
  | .ARG_SNPPHRED => do
    let v ← liftAt s (parseInt3 0 "--snpphred must be at least 0" arg)
    pure { s with gSnpPhred := v }
  | .ARG_SNPFRAC =>
    match ext.snpfracPhred arg with
    | none => throwAt s 1
    | some v => .ok { s with gSnpPhred := v }
  | .ARG_REFIDX => .ok { s with noRefNames := true }
  | .ARG_FUZZY => .ok { s with fuzzy := true }
  | .ARG_FULLREF => .ok { s with fullRef := true }
  | .ARG_GAP_BAR => do
    let v ← liftAt s (parseInt3 1 "--gbar must be no less than 1" arg)
    pure { s with gGapBarrier := v }
  | .ARG_SEED => do
    let v ← liftAt s (parseInt3 0 "--seed arg must be at least 0" arg)
    pure { s with seed := v }
  | .ch_u => do
    let v ← liftAt s (parseInt3 1 "-u/--qupto arg must be at least 1" arg)
    pure { s with qUpto := toU32 v }
  | .ch_Q => .ok { s with qualities := s.qualities ++ ext.tokenize arg ",", integerQuals := true }
  | .ARG_QUALS1 =>
    .ok { s with qualities1 := s.qualities1 ++ ext.tokenize arg ",", integerQuals := true }
  | .ARG_QUALS2 =>
    .ok { s with qualities2 := s.qualities2 ++ ext.tokenize arg ",", integerQuals := true }
  | .ARG_CACHE_LIM => do
    let v ← liftAt s (parseInt3 1 "--cachelim arg must be at least 1" arg)
    pure { s with cacheLimit := toU32 v }
  | .ARG_CACHE_SZ => do
    let v ← liftAt s (parseInt3 1 "--cachesz arg must be at least 1" arg)
    -- cacheSize *= (1024 * 1024)
    pure { s with cacheSize := u32 (toU32 v * (1024 * 1024)) }
  | .ARG_WRAPPER => .ok { s with wrapper := arg }
  | .ch_p =>
    if !ext.BOWTIE_PTHREADS then throwAt s 1
    else do
      let v ← liftAt s (parseInt3 1 "-p/--threads arg must be at least 1" arg)
      pure { s with nthreads := v }
  | .ARG_FILEPAR =>
    if !ext.BOWTIE_PTHREADS then throwAt s 1
    else .ok { s with fileParallel := true }
  | .ch_3 => do
    let v ← liftAt s (parseInt3 0 "-3/--trim3 arg must be at least 0" arg)
    pure { s with gTrim3 := v }
  | .ch_5 => do
    let v ← liftAt s (parseInt3 0 "-5/--trim5 arg must be at least 0" arg)
    pure { s with gTrim5 := v }
  | .ch_h => throwAt s 0
  | .ARG_USAGE => throwAt s 0
  | .ch_M =>
    .ok { s with msample := true, polstr := s.polstr ++ ";MHITS=" ++ arg, saw_M := true }
  | .ch_a =>
    .ok { s with msample := false, allHits := true, mhits := 0, saw_a := true }
  | .ch_k => do
    let s := { s with msample := false }
    let v ← liftAt s (parseInt3 1 "-k arg must be at least 1" arg)
    pure { s with khits := toU32 v, mhits := 0, saw_k := true }
  | .ARG_VERBOSE => .ok { s with gVerbose := 1 }
  | .ARG_STARTVERBOSE => .ok { s with startVerbose := true }
  | .ARG_QUIET => .ok { s with gQuiet := 1 }
  | .ARG_SANITY => .ok { s with sanityCheck := 1 }
  | .ch_t => .ok { s with timing := 1 }
  | .ARG_METRIC_IVAL =>
    if ext.BOWTIE_PTHREADS then do
      let v ← liftAt s (parseInt3 1 "--metrics arg must be at least 1" arg)
      pure { s with metricsIval := v }
    else throwAt s 1
  | .ARG_METRIC_FILE => .ok { s with metricsFile := arg }
  | .ARG_METRIC_STDERR => .ok { s with metricsStderr := true }
  | .ARG_NO_FW => .ok { s with gNofw := true }
  | .ARG_NO_RC => .ok { s with gNorc := true }
  | .ARG_SAM_NO_QNAME_TRUNC => .ok { s with samTruncQname := false }
  | .ARG_SAM_OMIT_SEC_SEQ => .ok { s with samOmitSecSeqQual := true }
  | .ARG_SAM_NOHEAD => .ok { s with samNoHead := true }
  | .ARG_SAM_NOSQ => .ok { s with samNoSQ := true }
  | .ARG_SAM_PRINT_YI => .ok { s with sam_print_yi := true }
  | .ARG_SAM_RG =>
    -- string arg = arg;  the new local hides the parameter in its own initialiser
    let arg := ext.samRgLocal
    if String.mk (arg.toList.take 3) = "ID:" then
      .ok { s with rgid := "\t" ++ arg, rgs_optflag := "RG:Z:" ++ String.mk (arg.toList.drop 3) }
    else
      .ok { s with rgs := s.rgs ++ "\t" ++ arg }
  | .ARG_PARTITION => .ok { s with partitionSz := ext.parseIntSS arg }
  | .ARG_DPAD => do
    let v ← liftAt s (parseInt3 0 "--dpad must be no less than 0" arg)
    pure { s with maxhalf := toSizeT v }
  | .ARG_ORIG =>
    if arg.length = 0 then throwAt s 1
    else .ok { s with origString := arg }
  | .ARG_LOCAL => .ok { s with localAlign := true }
  | .ARG_END_TO_END => .ok { s with localAlign := false }
  | .ARG_SCAN_NARROWED => .ok { s with scanNarrowed := true }
  | .ARG_NO_SSE => .ok { s with noSse := true }
  | .ARG_QC_FILTER => .ok { s with qcFilter := true }
  | .ARG_NO_SCORE_PRIORITY => .ok { s with sortByScore := false }
  | .ARG_IGNORE_QUALS => .ok { s with ignoreQuals := true }
  | .ARG_NOISY_HPOLY => .ok { s with noisyHpolymer := true }
  | .ch_x => .ok { s with bt2index := arg }
  | .ARG_PRESET_VERY_FAST => .ok { s with presetList := s.presetList ++ ["very-fast%LOCAL%"] }
  | .ARG_PRESET_FAST => .ok { s with presetList := s.presetList ++ ["fast%LOCAL%"] }
  | .ARG_PRESET_SENSITIVE => .ok { s with presetList := s.presetList ++ ["sensitive%LOCAL%"] }
  | .ARG_PRESET_VERY_SENSITIVE =>
    .ok { s with presetList := s.presetList ++ ["very-sensitive%LOCAL%"] }
  | .ch_P => .ok { s with presetList := s.presetList ++ [arg] }
  | .ARG_ALIGN_POLICY => .ok { s with polstr := s.polstr ++ ";" ++ arg }
  | .ch_N => .ok { s with polstr := s.polstr ++ ";SEED=" ++ arg }
  | .ch_L => .ok { s with polstr := s.polstr ++ ";SEEDLEN=" ++ arg }
  | .ch_i =>
    let args := ext.tokenize arg ","
    if args.length > 3 ∨ args.length = 0 then throwAt s 1
    else do
      let s ← polAdd args 0 ";IVAL=" s
      let s ← polAddIf args 1 "," s
      polAddIf args 2 "," s
  | .ARG_MULTISEED_IVAL =>
    let s := { s with polstr := s.polstr ++ ";" }
    let args := ext.tokenize arg ","
    if args.length > 11 ∨ args.length = 0 then throwAt s 1
    else do
      -- polstr += "SEED="; polstr += (args[0])
      let s ← polAdd args 0 "SEED=" s
      let s ← polAddIf args 1 "," s
      let s ← polAddIf args 2 ";IVAL=" s
      let s ← polAddIf args 3 "," s
      let s ← polAddIf args 4 "," s
      let s ← polAddIf args 5 ";POSF=" s
      let s ← polAddIf args 6 "," s
      let s ← polAddIf args 7 "," s
      let s ← polAddIf args 8 ";ROWM=" s
      let s ← polAddIf args 9 "," s
      polAddIf args 10 "," s
  | .ARG_N_CEIL =>
    let s := { s with polstr := s.polstr ++ ";" }
    let args := ext.tokenize arg ","
    if args.length > 2 ∨ args.length = 0 then throwAt s 1
    else do
      let s ← polAdd args 0 "NCEIL=" s
      polAddIf args 1 "," s
  | .ARG_SCORE_MA => .ok { s with polstr := s.polstr ++ ";MA=" ++ arg }
  | .ARG_SCORE_MMP => .ok { s with polstr := s.polstr ++ ";MMP=Q" ++ arg }
  | .ARG_SCORE_NP => .ok { s with polstr := s.polstr ++ ";NP=C" ++ arg }
  | .ARG_SCORE_RDG => .ok { s with polstr := s.polstr ++ ";RDG=" ++ arg }
  | .ARG_SCORE_RFG => .ok { s with polstr := s.polstr ++ ";RFG=" ++ arg }
  | .ARG_SCORES =>
    let args := ext.tokenize arg ","
    if args.length > 7 ∨ args.length = 0 then throwAt s 1
    else do
      let s ← polAddIf args 0 ";MA=" s
      let s ← polAddIf args 1 ";MMP=" s
      let s ← polAddIf args 2 ";NP=" s
      let s ← polAddIf args 3 ";RDG=" s
      let s ← polAddIf args 4 "," s
      let s ← polAddIf args 5 ";RFG=" s
      polAddIf args 6 "," s
  | .ARG_SCORE_MIN =>
    let s := { s with polstr := s.polstr ++ ";" }
    let args := ext.tokenize arg ","
    if args.length > 3 ∧ args.length = 0 then throwAt s 1
    else do
      let s ← polAdd args 0 "MIN=" s
      let s ← polAddIf args 1 "," s
      polAddIf args 2 "," s
  | .ARG_DESC => throwAt s 0
  | .ch_S => .ok { s with outfile := arg }
  | .ch_U => .ok { s with queries := s.queries ++ ext.tokenize arg "," }
  | _ =>
    -- default: printUsage(cerr); throw 1
    throwAt s 1

/-! ## `applyPreset` (lines 718-731) -/

/-- Offset of the first occurrence of `pat` in a string (`std::string::find`);
`none` is `string::npos`. -/
def findSub (pat : List Char) : List Char → Option Nat
  | [] => if pat = [] then some 0 else none
  | c :: cs =>
    if pat.isPrefixOf (c :: cs) then some 0
    else (findSub pat cs).map (· + 1)

/-- The local `s` of `applyPreset` when it is handed to `presets.apply`: the
first `%LOCAL%` of `sorig` is replaced by `-local` or by nothing. -/
def presetName (sorig : String) (localAlign : Bool) : String :=
  let str := sorig.toList
  match findSub "%LOCAL%".toList str with
  | some found =>
    String.mk (str.take found ++ (if localAlign then "-local" else "").toList
      ++ str.drop (found + "%LOCAL%".length))
  | none => sorig

/-- Function `applyPreset(sorig, presets)`: the policy text it returns, and the
globals after `presets.apply` has appended to `extra_opts`. -/
def applyPreset (ext : Ext) (sorig : String) (s : Globals) : String × Globals :=
  let r := ext.presetsApply (presetName sorig s.localAlign)
  (r.1, { s with extra_opts := s.extra_opts ++ r.2 })

/-! ## `parseOptions` (lines 1120-1292) -/

/-- The store that `getopt_long` makes through a flag pointer. -/
def storeFlag (s : Globals) : Option (FlagVar × Int) → Globals
  | none => s
  | some (.ipause, v) => { s with ipause := v }
  | some (.showVersion, v) => { s with showVersion := v }

/-- The loop of lines 1128-1143 while `getopt_long` returns options. -/
def parseOptionsGetopt (ext : Ext) : List GetoptResult → Globals → Res
  | [], s => .ok s
  | r :: rs, s => do
    let s ← parseOption ext r.next_option r.optarg (storeFlag s r.stored)
    parseOptionsGetopt ext rs s

/-- The same loop once `getopt_long` returns `EOF`: the entries of `extra_opts`
from `extra_opts_cur` on are parsed, then the loop breaks. -/
def parseOptionsEOF (ext : Ext) : List (NextOption × String) → Globals → Res
  | [], s => .ok s
  | (o, a) :: rest, s => do
    let s ← parseOption ext o a { s with extra_opts_cur := s.extra_opts_cur + 1 }
    parseOptionsEOF ext rest s

/-- Lines 1146-1154: the default preset is put in front of `polstr`, the listed
presets behind it. -/
def parseOptionsPresets (ext : Ext) (s : Globals) : Globals :=
  let s :=
    if s.defaultPreset ≠ "" then
      let r := applyPreset ext s.defaultPreset s
      { r.2 with polstr := r.1 ++ r.2.polstr }
    else s
  s.presetList.foldl
    (fun s p =>
      let r := applyPreset ext p s
      { r.2 with polstr := r.2.polstr ++ r.1 })
    s

/-- The loop of lines 1155-1159, `n` iterations left: each one parses
`extra_opts[extra_opts_cur]`; the index is not advanced. -/
def parseOptionsExtra (ext : Ext) : Nat → Globals → Res
  | 0, s => .ok s
  | n + 1, s =>
    match s.extra_opts[s.extra_opts_cur]? with
    | some (o, a) => do
      let s ← parseOption ext o a s
      parseOptionsExtra ext n s
    | none => .error (.oob, s)

/-- The loop of lines 1161-1163 on the characters of `polstr`. -/
def stripSemis : List Char → List Char
  | [] => []
  | c :: cs => if c = ';' then stripSemis cs else c :: cs

/-- The reference parameters of the `parseString` call, read from the globals. -/
def policyOf (s : Globals) : Policy :=
  { bonusMatchType := s.bonusMatchType
    bonusMatch := s.bonusMatch
    penMmcType := s.penMmcType
    penMmc := s.penMmc
    penSnp := s.penSnp
    penNType := s.penNType
    penN := s.penN
    penRdGapConst := s.penRdGapConst
    penRfGapConst := s.penRfGapConst
    penRdGapLinear := s.penRdGapLinear
    penRfGapLinear := s.penRfGapLinear
    penNCatPair := s.penNCatPair
    multiseedMms := s.multiseedMms
    multiseedLen := s.multiseedLen
    mhits := s.mhits }

/-- The reference parameters of the `parseString` call, written back. -/
def setPolicy (s : Globals) (p : Policy) : Globals :=
  { s with
    bonusMatchType := p.bonusMatchType
    bonusMatch := p.bonusMatch
    penMmcType := p.penMmcType
    penMmc := p.penMmc
    penSnp := p.penSnp
    penNType := p.penNType
    penN := p.penN
    penRdGapConst := p.penRdGapConst
    penRfGapConst := p.penRfGapConst
    penRdGapLinear := p.penRdGapLinear
    penRfGapLinear := p.penRfGapLinear
    penNCatPair := p.penNCatPair
    multiseedMms := p.multiseedMms
    multiseedLen := p.multiseedLen
    mhits := p.mhits }

/-- Lines 1193-1204: the reporting mode and `gRowLow`. -/
def parseOptionsMode (s : Globals) : Globals :=
  let s :=
    if s.saw_a || s.saw_k then { s with msample := false, mhits := 0 }
    else { s with msample := true }
  if s.localAlign then { s with gRowLow := 0 } else { s with gRowLow := -1 }

/-- Lines 1205-1252: whether one of the argument checks throws 1. -/
def parseOptionsArgError (s : Globals) : Bool :=
  decide (s.mates1.length ≠ s.mates2.length)
  || (decide (s.qualities.length ≠ 0) && decide (s.format ≠ .FASTA))
  || (decide (s.qualities.length ≠ 0) && !s.gColor)
  || (decide (s.qualities1.length ≠ 0) && decide (s.format ≠ .FASTA))
  || (decide (s.qualities1.length ≠ 0) && !s.gColor)
  || (decide (s.qualities2.length ≠ 0) && decide (s.format ≠ .FASTA))
  || (decide (s.qualities2.length ≠ 0) && !s.gColor)
  || (decide (s.qualities1.length > 0) && decide (s.mates1.length ≠ s.qualities1.length))
  || (decide (s.qualities2.length > 0) && decide (s.mates2.length ≠ s.qualities2.length))

/-- Lines 1266-1268, in 32-bit unsigned arithmetic. -/
def adjustQUpto (s : Globals) : Globals :=
  if u32 (s.qUpto + s.skipReads) > s.qUpto then { s with qUpto := u32 (s.qUpto + s.skipReads) }
  else s

/-- Lines 1269-1272. -/
def adjustMm (s : Globals) : Globals :=
  if s.useShmem ∧ s.useMm ∧ s.gQuiet = 0 then { s with useMm := false } else s

/-- Lines 1276-1283. -/
def adjustGapBarrier (s : Globals) : Globals :=
  let s := if s.gGapBarrier < 1 then { s with gGapBarrier := 1 } else s
  if s.gColor ∧ s.gColorExEnds then { s with gGapBarrier := s.gGapBarrier + 1 } else s

/-- Lines 1284-1291. -/
def adjustSeedMms (s : Globals) : Globals :=
  if s.multiseedMms ≥ s.multiseedLen then { s with multiseedMms := s.multiseedLen - 1 }
  else s

/-- Lines 1193-1292 of `parseOptions`: everything after the `parseString` call. -/
def parseOptionsChecks (s : Globals) : Res :=
  let s := parseOptionsMode s
  if parseOptionsArgError s then throwAt s 1
  else .ok (adjustSeedMms (adjustGapBarrier (adjustMm (adjustQUpto s))))

/-- Lines 1123-1126: the assignments at the head of `parseOptions`. -/
def parseOptionsInit (g : Globals) : Globals :=
  { g with saw_M := false, saw_a := false, saw_k := false, presetList := [] }

/-- Lines 1160-1163: leading semicolons are removed from `polstr`. -/
def parseOptionsStrip (s : Globals) : Globals :=
  { s with polstr := String.mk (stripSemis s.polstr.toList) }

/-- Lines 1120-1166 of `parseOptions`: up to the final policy string; `opts` are
the results of the successive `getopt_long` calls on `argv` before `EOF`. -/
def parseOptionsPre (ext : Ext) (opts : List GetoptResult) (g : Globals) : Res := do
  let s ← parseOptionsGetopt ext opts (parseOptionsInit g)
  let s ← parseOptionsEOF ext (s.extra_opts.drop s.extra_opts_cur) s
  let s ← parseOptionsExtra ext (parseOptionsPresets ext s).extra_opts.length
    (parseOptionsPresets ext s)
  pure (parseOptionsStrip s)

/-- Function `parseOptions(argc, argv)`. -/
def parseOptions (ext : Ext) (opts : List GetoptResult) (g : Globals) : Res := do
  let s ← parseOptionsPre ext opts g
  let p ← liftAt s
    (ext.parseString s.polstr s.localAlign s.noisyHpolymer s.ignoreQuals (policyOf s))
  parseOptionsChecks (setPolicy s p)

/-! ## `bowtie` (lines 3087-3214) -/

/-- A command line as `bowtie(argc, argv)` sees it: the vector itself, what the
`getopt_long` calls of `parseOptions` return for it, and the arguments from
`optind` on that are left when `parseOptions` returns. -/
structure CmdLine where
  argv : List String
  opts : List GetoptResult
  rest : List String
  deriving DecidableEq, Repr

/-- The loop of lines 3092-3095: the arguments are appended to `argstr`, with a
blank behind each one but the last. -/
def appendArgs (argstr : String) : List String → String
  | [] => argstr
  | [a] => argstr ++ a
  | a :: b :: r => appendArgs (argstr ++ a ++ " ") (b :: r)

/-- Lines 3126-3133: the index basename; `Except.error` is an early `return`. -/
def bowtieIndex (g : Globals) (rest : List String) :
    Except (Int × Globals) (Globals × List String) :=
  if g.bt2index = "" then
    match rest with
    | [] => .error (1, g)
    | a :: rest => .ok ({ g with bt2index := a }, rest)
  else .ok (g, rest)

/-- Lines 3136-3152: the query file names; `Except.error` is an early `return`. -/
def bowtieQueries (ext : Ext) (g : Globals) (rest : List String) :
    Except (Int × Globals) (Globals × List String) :=
  let got_reads := !g.queries.isEmpty || !g.mates1.isEmpty || !g.mates12.isEmpty
  match rest with
  | [] => if !got_reads then .error (1, g) else .ok (g, rest)
  | a :: rest1 =>
    if !got_reads then
      let g := { g with queries := g.queries ++ ext.tokenize a "," }
      if g.queries.isEmpty then .error (1, g) else .ok (g, rest1)
    else .ok (g, rest)

/-- Lines 3155-3157: the output file name. -/
def bowtieOutfile (g : Globals) (rest : List String) : Globals × List String :=
  match rest with
  | a :: rest1 => if g.outfile = "" then ({ g with outfile := a }, rest1) else (g, rest)
  | [] => (g, rest)

/-- Body of the `try` block of `bowtie`: the value returned, with the globals. -/
def bowtieBody (ext : Ext) (cmd : CmdLine) (g : Globals) :
    Except (Thrown × Globals) (Int × Globals) := do
  let g := resetOptions ext g
  let g := { g with argstr := appendArgs g.argstr cmd.argv }
  let g ← parseOptions ext cmd.opts g
  let g := { g with argv0 := cmd.argv.head? }
  if g.showVersion ≠ 0 then pure (0, g)
  else
    match bowtieIndex g cmd.rest with
    | .error r => pure r
    | .ok (g, rest) =>
      match bowtieQueries ext g rest with
      | .error r => pure r
      | .ok (g, rest) =>
        let r := bowtieOutfile g rest
        -- extra parameters
        if r.2 ≠ [] then .error (.int 1, r.1)
        else do
          let g ← ext.driver r.1
          pure (0, g)

/-- Function `bowtie(argc, argv)`: the value it returns (`none` when the run
ends in an out-of-range element access instead of returning) and the globals it
leaves. -/
def bowtie (ext : Ext) (cmd : CmdLine) (g : Globals) : Option Int × Globals :=
  match bowtieBody ext cmd g with
  | .ok (r, g) => (some r, g)
  | .error (.exn, g) => (some 1, g)
  | .error (.int e, g) => (some e, g)
  | .error (.oob, g) => (none, g)

/-! ## `multiseedSearchWorker` (lines 2144-2681) -/

/-- The counters of `struct OuterLoopMetrics` (lines 1331-1372), each a
`uint64_t`. -/
structure OuterLoopMetrics where
  reads : Nat
  bases : Nat
  srreads : Nat
  srbases : Nat
  freads : Nat
  fbases : Nat
  ureads : Nat
  ubases : Nat
  deriving DecidableEq, Repr

/-- Method `OuterLoopMetrics::reset`. -/
def OuterLoopMetrics.reset : OuterLoopMetrics :=
  { reads := 0, bases := 0, srreads := 0, srbases := 0,
    freads := 0, fbases := 0, ureads := 0, ubases := 0 }

/-- Method `OuterLoopMetrics::merge`, in 64-bit unsigned arithmetic. -/
def OuterLoopMetrics.merge (t m : OuterLoopMetrics) : OuterLoopMetrics :=
  { reads := u64 (t.reads + m.reads)
    bases := u64 (t.bases + m.bases)
    srreads := u64 (t.srreads + m.srreads)
    srbases := u64 (t.srbases + m.srbases)
    freads := u64 (t.freads + m.freads)
    fbases := u64 (t.fbases + m.fbases)
    ureads := u64 (t.ureads + m.ureads)
    ubases := u64 (t.ubases + m.ubases) }

/-- The arguments with which line 2202 constructs `ReportingParams rp`. -/
structure ReportingParams where
  khits : Nat
  mhits : Nat
  pengap : Nat
  msample : Bool
  discord : Bool
  mixed : Bool
  deriving DecidableEq, Repr

/-- The object `rp` of lines 2202-2208. -/
def workerRp (ext : Ext) (g : Globals) : ReportingParams :=
  { khits := if g.allHits then ext.THitInt_max else g.khits
    mhits := g.mhits
    pengap := 0
    msample := g.msample
    discord := g.gReportDiscordant
    mixed := g.gReportMixed }

/-- Paired-end orientations of `pe.h` named in lines 2248-2257. -/
inductive PePolicy where
  | PE_POLICY_FF | PE_POLICY_FR | PE_POLICY_RF | PE_POLICY_RR
  deriving DecidableEq, Repr

/-- The value `pepolFlag` of lines 2248-2257. -/
def pepolFlag (g : Globals) : PePolicy :=
  if g.gMate1fw && g.gMate2fw then .PE_POLICY_FF
  else if g.gMate1fw && !g.gMate2fw then .PE_POLICY_FR
  else if !g.gMate1fw && g.gMate2fw then .PE_POLICY_RF
  else .PE_POLICY_RR

/-- Macro `ROTL(n, x)` of line 2063, `(((x) << (n)) | ((x) >> (32-n)))`, as the
worker calls it: the first argument `n` is a `uint32_t` and the second argument
`x` a non-negative `int` constant, so `x` is what is shifted and `n` is the
shift count.  The result is `none` where the expression has no value that the
language defines: a shift count `n` or `32-n` (unsigned) that is not below 32,
or a left shift that leaves the range of `int`. -/
def ROTL (n x : Nat) : Option Nat :=
  if 1 ≤ n ∧ n < 32 ∧ x <<< n < 2 ^ 31 then some ((x <<< n) ||| (x >>> (32 - n)))
  else none

/-- A two-element array such as `bool lenfilt[2]`. -/
structure Arr2 (α : Type) where
  e0 : α
  e1 : α
  deriving DecidableEq, Repr

/-- Element `a[i]` for `i` in 0, 1. -/
def Arr2.get {α : Type} (a : Arr2 α) (i : Nat) : α := if i = 0 then a.e0 else a.e1

/-- Assignment `a[i] = v` for `i` in 0, 1. -/
def Arr2.set {α : Type} (a : Arr2 α) (i : Nat) (v : α) : Arr2 α :=
  if i = 0 then { a with e0 := v } else { a with e1 := v }

/-- What the worker reads of a `Read` buffer (`ps->bufa()`, `ps->bufb()`). -/
structure Read where
  length : Nat
  seed : Nat
  filter : Char
  deriving DecidableEq, Repr

/-- Calls that the worker makes and that the trace records. -/
inductive Event where
  | mergeMetrics
  | reportInterval
  | nextRead (patid : Nat)
  | nFilterPair
  | scoreFilter (mate : Nat)
  | printMmsSkipMsg (paired mate1 : Bool)
  | printColorLenSkipMsg (paired mate1 : Bool)
  | instantiateSeeds (mate : Nat) (interval : Int) (nofw norc : Bool)
  | searchAllSeeds (mate : Nat)
  | extendSeedsPaired (mate : Nat) (oppFilt : Bool) (interval : Int) (nofw norc : Bool)
  | extendSeeds (mate : Nat) (interval : Int)
  | finishRead (seedResults : Bool) (exhaustive nfilt scfilt lenfilt qcfilt : Arr2 Bool)
  deriving DecidableEq, Repr

/-- One read or pair as `ps->nextReadPair` delivers it, with the results of the
calls into other files that the worker makes while it handles the read.  Calls
made inside the loop over mates are indexed by the iteration `matei`. -/
structure ReadOracle where
  success : Bool
  done : Bool
  paired : Bool
  patid : Nat
  bufa : Read
  bufb : Read
  /-- Result of `time(0) - iTime >= metricsIval` should line 2314 be reached. -/
  timeElapsed : Bool
  /-- Result of `msinkwrap.nextRead(...)`. -/
  skipStages : Int
  /-- The values `sc.nFilterPair` leaves in `nfilt[0]`, `nfilt[1]`. -/
  nFilterPair : Arr2 Bool → Arr2 Bool
  /-- Result of `sc.scoreFilter(minsc[i], rdlens[i])`. -/
  scoreFilter : Nat → Bool
  /-- Result of `rnd.nextU2()` right after `rnd.init(seed)`; the argument is
  `none` when the expression for `seed` has no defined value, and the result is
  then whatever the run yields. -/
  nextU2 : Option Nat → Nat
  /-- Result of `msinkwrap.state().doneWithMate(mate == 0)` in iteration `matei`. -/
  doneWithMate : Nat → Bool → Bool
  /-- Result of `msIval.f<int>((double)len)`. -/
  msIval : Nat → Int
  /-- Result `inst` of `al.instantiateSeeds` in iteration `matei` for `mate`. -/
  instantiateSeeds : Nat → Nat → Int → Bool → Bool → Int × Int
  /-- Result of `shs[mate].empty()` after `al.searchAllSeeds` in iteration `matei`. -/
  shsEmpty : Nat → Nat → Bool
  /-- Result `done` of `sd.extendSeedsPaired` or `sd.extendSeeds` in iteration
  `matei` for `mate`, with the value left in `exhaustive[mate]`. -/
  extend : Nat → Nat → Bool → Bool × Bool

/-- Locals of `multiseedSearchWorker` that live across reads, the outer-loop
counters of the global `metrics` (`olmu`, which `MERGE_METRICS` adds to, and
the job total `metrics.olm`, here `olmJob`, which `finishReport` adds to), and
the trace of calls made. -/
structure WorkerState where
  olm : OuterLoopMetrics
  olmu : OuterLoopMetrics
  olmJob : OuterLoopMetrics
  exhaustive : Arr2 Bool
  filt : Arr2 Bool
  nfilt : Arr2 Bool
  scfilt : Arr2 Bool
  lenfilt : Arr2 Bool
  qcfilt : Arr2 Bool
  mergei : Int
  trace : List Event
  deriving DecidableEq, Repr

/-- The locals as lines 2235-2290 initialise them; `olmu` is what
`metrics.olmu` holds when the worker starts.  The job total `metrics.olm` has
the value it has in the first run of a process, zero: the constructor of the
static `metrics` (line 1380) resets it and only `finishReport` adds to it. -/
def WorkerState.init (olmu : OuterLoopMetrics) : WorkerState :=
  { olm := OuterLoopMetrics.reset
    olmu := olmu
    olmJob := OuterLoopMetrics.reset
    exhaustive := ⟨false, false⟩
    filt := ⟨true, true⟩
    nfilt := ⟨true, true⟩
    scfilt := ⟨true, true⟩
    lenfilt := ⟨true, true⟩
    qcfilt := ⟨true, true⟩
    mergei := 0
    trace := [] }

/-- Appends a call to the trace. -/
def WorkerState.log (w : WorkerState) (e : Event) : WorkerState :=
  { w with trace := w.trace ++ [e] }

/-- Macro `MERGE_METRICS` (lines 2103-2127), for the outer-loop counters. -/
def MERGE_METRICS (w : WorkerState) : WorkerState :=
  { (w.log .mergeMetrics) with olmu := w.olmu.merge w.olm, olm := OuterLoopMetrics.reset }

/-- Lines 2414-2417 and 2420-2423: the warning, unless `gQuiet`, and the flag. -/
def mmsSkip (g : Globals) (paired mate1 : Bool) (i : Nat) (w : WorkerState) : WorkerState :=
  let w := if g.gQuiet = 0 then w.log (.printMmsSkipMsg paired mate1) else w
  { w with lenfilt := w.lenfilt.set i false }

/-- Lines 2427-2428 and 2431-2432: the warning and the flag. -/
def colorLenSkip (paired mate1 : Bool) (i : Nat) (w : WorkerState) : WorkerState :=
  { (w.log (.printColorLenSkipMsg paired mate1)) with lenfilt := w.lenfilt.set i false }

/-- Lines 2412-2434: the length filter of both mates. -/
def lenfiltOf (g : Globals) (paired : Bool) (rdlens : Arr2 Nat) (w : WorkerState) : WorkerState :=
  let w := { w with lenfilt := ⟨true, true⟩ }
  let w := if rdlens.e0 ≤ toSizeT g.multiseedMms then mmsSkip g paired true 0 w else w
  let w := if rdlens.e1 ≤ toSizeT g.multiseedMms ∧ paired then mmsSkip g paired false 1 w else w
  if g.gColor ∧ g.gColorExEnds then
    let w := if rdlens.e0 < 2 then colorLenSkip paired true 0 w else w
    if rdlens.e1 < 2 ∧ paired then colorLenSkip paired false 1 w else w
  else w

/-- Lines 2403-2407: the N filter. -/
def nfiltOf (o : ReadOracle) (w : WorkerState) : WorkerState :=
  { (w.log .nFilterPair) with nfilt := o.nFilterPair w.nfilt }

/-- Lines 2410-2411: the score filter of both mates. -/
def scfiltOf (o : ReadOracle) (w : WorkerState) : WorkerState :=
  let w := { (w.log (.scoreFilter 0)) with scfilt := w.scfilt.set 0 (o.scoreFilter 0) }
  { (w.log (.scoreFilter 1)) with scfilt := w.scfilt.set 1 (o.scoreFilter 1) }

/-- Lines 2435-2439: the upstream QC filter. -/
def qcfiltOf (g : Globals) (o : ReadOracle) (w : WorkerState) : WorkerState :=
  let w := { w with qcfilt := ⟨true, true⟩ }
  if g.qcFilter then
    { w with qcfilt := ⟨decide (o.bufa.filter ≠ '0'), decide (o.bufb.filter ≠ '0')⟩ }
  else w

/-- Lines 2440-2441: a mate passes when it passes all four filters. -/
def filtOf (w : WorkerState) : WorkerState :=
  { w with filt := ⟨w.nfilt.e0 && w.scfilt.e0 && w.lenfilt.e0 && w.qcfilt.e0,
                    w.nfilt.e1 && w.scfilt.e1 && w.lenfilt.e1 && w.qcfilt.e1⟩ }

/-- Lines 2403-2441: all filters of the read, ending in `filt`. -/
def filterRead (g : Globals) (o : ReadOracle) (rdlens : Arr2 Nat) (w : WorkerState) :
    WorkerState :=
  filtOf (qcfiltOf g o (lenfiltOf g o.paired rdlens (scfiltOf o (nfiltOf o w))))

/-- Lines 2446-2453: the order in which the two mates are visited.  Line 2448
calls `ROTL((rds[0]->seed ^ rds[1]->seed), 10)`: the XOR of the seeds is the
macro's first argument (the shift count) and 10 its second (the value
shifted). -/
def matemapOf (o : ReadOracle) : Arr2 Nat :=
  if o.paired ∧ o.nextU2 (ROTL (o.bufa.seed ^^^ o.bufb.seed) 10) = 0 then ⟨1, 0⟩
  else ⟨0, 1⟩

/-- Lines 2459-2460: the mate is counted as filtered out. -/
def countFiltered (rdlens : Arr2 Nat) (mate : Nat) (w : WorkerState) : WorkerState :=
  { w with olm := { w.olm with freads := u64 (w.olm.freads + 1),
                                fbases := u64 (w.olm.fbases + rdlens.get mate) } }

/-- Lines 2463-2464: the mate is counted as passing the filters. -/
def countUnfiltered (rdlens : Arr2 Nat) (mate : Nat) (w : WorkerState) : WorkerState :=
  { w with olm := { w.olm with ureads := u64 (w.olm.ureads + 1),
                                ubases := u64 (w.olm.ubases + rdlens.get mate) } }

/-- Lines 2480-2491: the seed interval for `mate`. -/
def seedInterval (o : ReadOracle) (rdlens : Arr2 Nat) (mate : Nat) (w : WorkerState) : Int :=
  let interval :=
    if w.filt.get (mate ^^^ 1) then o.msIval (u64 (rdlens.e0 + rdlens.e1))
    else o.msIval (rdlens.get mate)
  if interval < 1 then 1 else interval

/-- Lines 2495-2508: the flag `nofw` for `mate`. -/
def mateNofw (g : Globals) (paired : Bool) (mate : Nat) : Bool :=
  if paired ∧ mate = 0 then (if g.gMate1fw then g.gNofw else g.gNorc)
  else if paired ∧ mate = 1 then (if g.gMate2fw then g.gNofw else g.gNorc)
  else g.gNofw

/-- Lines 2495-2508: the flag `norc` for `mate`. -/
def mateNorc (g : Globals) (paired : Bool) (mate : Nat) : Bool :=
  if paired ∧ mate = 0 then (if g.gMate1fw then g.gNorc else g.gNofw)
  else if paired ∧ mate = 1 then (if g.gMate2fw then g.gNorc else g.gNofw)
  else g.gNorc

/-- Lines 2549-2642: the extension driver is called for `mate`; the Boolean is
its result `done`. -/
def extendStage (o : ReadOracle) (matei mate : Nat) (interval : Int) (nofw norc : Bool)
    (w : WorkerState) : WorkerState × Bool :=
  let r := o.extend matei mate (w.exhaustive.get mate)
  let w :=
    if o.paired then
      w.log (.extendSeedsPaired mate (!w.filt.get (mate ^^^ 1)) interval nofw norc)
    else w.log (.extendSeeds mate interval)
  ({ w with exhaustive := w.exhaustive.set mate r.2 }, r.1)

/-- Lines 2509-2643: seed instantiation, seed search and extension for `mate`. -/
def seedStage (g : Globals) (o : ReadOracle) (matei mate : Nat) (interval : Int)
    (nofw norc : Bool) (w : WorkerState) : WorkerState × Bool :=
  let inst := o.instantiateSeeds matei mate interval nofw norc
  let w := w.log (.instantiateSeeds mate interval nofw norc)
  if inst.1 + inst.2 = 0 then (w, false)
  else
    let w := w.log (.searchAllSeeds mate)
    if !g.seedSummaryOnly then
      if o.shsEmpty matei mate then (w, false)
      else extendStage o matei mate interval nofw norc w
    else (w, false)

/-- Body of the loop over mates (lines 2456-2643) for iteration `matei`; the
Boolean is true when the body ends in the `break` of line 2641. -/
def mateBody (g : Globals) (o : ReadOracle) (rdlens : Arr2 Nat) (matei mate : Nat)
    (w : WorkerState) : WorkerState × Bool :=
  if !w.filt.get mate then (countFiltered rdlens mate w, false)
  else
    let w := countUnfiltered rdlens mate w
    if o.doneWithMate matei (mate == 0) then (w, false)
    else
      seedStage g o matei mate (seedInterval o rdlens mate w) (mateNofw g o.paired mate)
        (mateNorc g o.paired mate) w

/-- The loop over mates of lines 2455-2644: the mates are visited in the order
of `matemap`, and a `break` in the first iteration skips the second. -/
def mateLoop (g : Globals) (o : ReadOracle) (rdlens matemap : Arr2 Nat) (w : WorkerState) :
    WorkerState :=
  let r0 := mateBody g o rdlens 0 matemap.e0 w
  if r0.2 then r0.1 else (mateBody g o rdlens 1 matemap.e1 r0.1).1

/-- The lengths `rdlens` of lines 2329-2330 and 2366. -/
def rdlensOf (o : ReadOracle) : Arr2 Nat :=
  ⟨o.bufa.length, if o.paired then o.bufb.length else 0⟩

/-- Lines 2325-2331: the read and its bases are counted. -/
def countRead (o : ReadOracle) (w : WorkerState) : WorkerState :=
  let w := { w with olm := { w.olm with reads := u64 (w.olm.reads + 1) } }
  { w with olm := { w.olm with
      bases := u64 (w.olm.bases + u64 ((rdlensOf o).e0 + (rdlensOf o).e1)) } }

/-- The call `msinkwrap.finishRead` with the flags the worker holds;
`seedResults` is false when the seed results are passed as `NULL`. -/
def finishRead (seedResults : Bool) (w : WorkerState) : WorkerState :=
  w.log (.finishRead seedResults w.exhaustive w.nfilt w.scfilt w.lenfilt w.qcfilt)

/-- Lines 2343-2344: the read is counted as a same-read. -/
def countSameRead (o : ReadOracle) (w : WorkerState) : WorkerState :=
  { w with olm := { w.olm with
      srreads := u64 (w.olm.srreads + 1),
      srbases := u64 (w.olm.srbases + u64 ((rdlensOf o).e0 + (rdlensOf o).e1)) } }

/-- Lines 2366-2454: from the filters to the start of the loop over mates. -/
def enterMateLoop (g : Globals) (o : ReadOracle) (w : WorkerState) : WorkerState :=
  { (filterRead g o (rdlensOf o) w) with exhaustive := ⟨false, false⟩ }

/-- Body of the `while(retry)` loop (lines 2320-2668): one read or pair. -/
def alignRead (g : Globals) (o : ReadOracle) (w : WorkerState) : WorkerState :=
  let w := (countRead o w).log (.nextRead o.patid)
  if o.skipStages = -1 then finishRead false (countSameRead o w)
  else finishRead true (mateLoop g o (rdlensOf o) (matemapOf o) (enterMateLoop g o w))

/-- What the worker is started with besides the globals: its thread id and
whether `multiseed_metricsOfb` is non-null. -/
structure WorkerArgs where
  tid : Int
  metricsOfb : Bool
  deriving DecidableEq, Repr

/-- The test of line 2300. -/
def inWindow (g : Globals) (patid : Nat) : Bool :=
  decide (patid ≥ g.skipReads) && decide (patid < g.qUpto)

/-- The call `metrics.reportInterval(metricsOfb, metricsStderr, true)` of line
2315 on the outer-loop counters: the report is written (lines 1462-2005), and
the `finishReport()` of line 2006 adds `olmu` to the job total and zeroes
`olmu` (lines 2010 and 2019). -/
def reportInterval (w : WorkerState) : WorkerState :=
  { (w.log .reportInterval) with
      olmJob := w.olmJob.merge w.olmu, olmu := OuterLoopMetrics.reset }

/-- Lines 2302-2319: the periodic merge before a read is aligned
(`mergeival` is 16). -/
def mergeStep (g : Globals) (a : WorkerArgs) (o : ReadOracle) (w : WorkerState) : WorkerState :=
  if g.metricsIval > 0 ∧ (a.metricsOfb ∨ g.metricsStderr) then
    let w := { w with mergei := w.mergei + 1 }
    if w.mergei = 16 then
      let w := MERGE_METRICS w
      let w := { w with mergei := 0 }
      if a.tid = 0 ∧ o.timeElapsed then reportInterval w else w
    else w
  else w

/-- The loop `while(true)` of lines 2291-2673 over the reads that
`ps->nextReadPair` delivers, and the last `MERGE_METRICS` of line 2676. -/
def workerLoop (g : Globals) (a : WorkerArgs) : List ReadOracle → WorkerState → WorkerState
  | [], w => MERGE_METRICS w
  | o :: rest, w =>
    if !o.success && o.done then MERGE_METRICS w
    else if !o.success then workerLoop g a rest w
    else if inWindow g o.patid then
      workerLoop g a rest (alignRead g o (mergeStep g a o w))
    else if o.patid ≥ g.qUpto then MERGE_METRICS w
    else workerLoop g a rest w

/-- Function `multiseedSearchWorker` on the reads it is delivered. -/
def multiseedSearchWorker (g : Globals) (a : WorkerArgs) (reads : List ReadOracle)
    (olmu : OuterLoopMetrics) : WorkerState :=
  workerLoop g a reads (WorkerState.init olmu)

/-! ## A concrete environment

`extV0` fixes the parameters of `Ext` so that the definitions can be run on
concrete command lines. -/

/-- Modelled from the spec: `PresetsV0::apply` (`presets.cpp` is not under
`src/`).  The usage text of lines 564-575 gives each preset as the options it
is the same as; the policy text is what `parseOption` appends for those
options.  An unknown name leaves the policy text empty. -/
def presetsV0 (name : String) : String × List (NextOption × String) :=
  if name = "very-fast" then (";MHITS=1;SEED=0;SEEDLEN=22;IVAL=S,1,2.50", [])
  else if name = "fast" then (";MHITS=5;SEED=0;SEEDLEN=22;IVAL=S,1,2.50", [])
  else if name = "sensitive" then (";MHITS=5;SEED=0;SEEDLEN=22;IVAL=S,1,1.25", [])
  else if name = "very-sensitive" then (";MHITS=5;SEED=0;SEEDLEN=20;IVAL=S,1,0.50", [])
  else if name = "very-fast-local" then (";MHITS=1;SEED=0;SEEDLEN=25;IVAL=S,1,2.00", [])
  else if name = "fast-local" then (";MHITS=2;SEED=0;SEEDLEN=22;IVAL=S,1,1.75", [])
  else if name = "sensitive-local" then (";MHITS=2;SEED=0;SEEDLEN=20;IVAL=S,1,0.75", [])
  else if name = "very-sensitive-local" then (";MHITS=3;SEED=0;SEEDLEN=20;IVAL=S,1,0.50", [])
  else ("", [])

/-- Splits a character list at every `delim`. -/
def splitAt (delim : Char) : List Char → List Char → List String
  | acc, [] => [String.mk acc.reverse]
  | acc, c :: cs =>
    if c = delim then String.mk acc.reverse :: splitAt delim [] cs
    else splitAt delim (c :: acc) cs

/-- Value of `KEY=n` settings in a policy string, the last one winning:
`deflt` when no field starts with `key`. -/
def lastSetting (key : String) (deflt : Int) (polstr : String) : Int :=
  (splitAt ';' [] polstr.toList).foldl
    (fun acc f => if key.toList.isPrefixOf f.toList
      then (strtol (String.mk (f.toList.drop key.length))).l else acc)
    deflt

/-- Modelled from the spec: `SeedAlignmentPolicy::parseString`
(`aligner_seed_policy.cpp` is not under `src/`), for the three settings
`MHITS=`, `SEED=` and `SEEDLEN=`, each read as a decimal number with the last
occurrence winning; the other outputs keep their value. -/
def parseStringV0 (polstr : String) (_localAlign _noisyHpolymer _ignoreQuals : Bool)
    (p : Policy) : Except Thrown Policy :=
  .ok { p with
    mhits := (lastSetting "MHITS=" p.mhits polstr).toNat
    multiseedMms := lastSetting "SEED=" p.multiseedMms polstr
    multiseedLen := lastSetting "SEEDLEN=" p.multiseedLen polstr }

/-- The extraction `ss >> tmp` of an `unsigned int` from a `stringstream`, which
is what `parse<uint32_t>` (lines 683-689) returns, as the C++11 libraries do
it: white space is skipped, then an optional sign and decimal digits are read;
a magnitude above `UINT_MAX` gives `UINT_MAX` (the extraction saturates, it
does not wrap), a minus sign before a smaller magnitude negates modulo 2^32,
and without digits the value is 0. -/
def extractU32 (s : String) : Nat :=
  let body := s.toList.drop (spaceLen s.toList)
  let ds := strtolDigits s
  if digitLen ds = 0 then 0
  else if digitsValue 0 ds > 2 ^ 32 - 1 then 2 ^ 32 - 1
  else if body.head? = some '-' then u32 (2 ^ 32 - digitsValue 0 ds)
  else digitsValue 0 ds

/-- The extraction `ss >> tmp` of an `int` from a `stringstream`, which is what
`parse<int>` (lines 683-689) returns, as the C++11 libraries do it: white space
is skipped, then an optional sign and decimal digits are read; the value
saturates at `INT_MIN` and `INT_MAX`, and without digits it is 0. -/
def extractInt (s : String) : Int :=
  let body := s.toList.drop (spaceLen s.toList)
  let ds := strtolDigits s
  if digitLen ds = 0 then 0
  else if body.head? = some '-' then max INT_MIN (-(digitsValue 0 ds : Int))
  else min INT_MAX (digitsValue 0 ds : Int)

/-- A concrete environment: a build with threads and memory-mapped files, the
defaults of the usage text (`-N 0`, `-L 22`, `--mp 6`, `--np 1`, gap penalties
5 and 3), comma-splitting, decimal parsing, and a driver that returns. -/
def extV0 : Ext :=
  { BOWTIE_PTHREADS := true
    BOWTIE_MM := true
    DEFAULT_MATCH_BONUS_TYPE := 0
    DEFAULT_MATCH_BONUS := 0
    DEFAULT_MM_PENALTY_TYPE := 0
    DEFAULT_MM_PENALTY := 6
    DEFAULT_SNP_PENALTY := 6
    DEFAULT_N_PENALTY_TYPE := 0
    DEFAULT_N_PENALTY := 1
    DEFAULT_N_CAT_PAIR := false
    DEFAULT_READ_GAP_CONST := 5
    DEFAULT_REF_GAP_CONST := 5
    DEFAULT_READ_GAP_LINEAR := 3
    DEFAULT_REF_GAP_LINEAR := 3
    DEFAULT_SEEDMMS := 0
    DEFAULT_SEEDLEN := 22
    tokenize := fun s delims => splitAt (delims.toList.headD ',') [] s.toList
    parseU32 := extractU32
    parseIntSS := extractInt
    snpfracPhred := fun _ => some 30
    presetsApply := presetsV0
    parseString := parseStringV0
    samRgLocal := ""
    THitInt_max := 2 ^ 63 - 1
    driver := fun g => .ok g }

/-- Globals before the first call of `bowtie`: static storage is zeroed. -/
def globals0 : Globals :=
  { mates1 := [], mates2 := [], mates12 := [], adjIdxBase := "", gVerbose := 0,
    startVerbose := false, gQuiet := 0, sanityCheck := 0, format := .FASTA,
    origString := "", seed := 0, timing := 0, metricsIval := 0, metricsFile := "",
    metricsStderr := false, allHits := false, showVersion := 0, ipause := 0,
    qUpto := 0, gTrim5 := 0, gTrim3 := 0, offRate := 0, solexaQuals := false,
    phred64Quals := false, integerQuals := false, nthreads := 0,
    outType := .OUTPUT_SAM, noRefNames := false, khits := 0, mhits := 0,
    partitionSz := 0, useSpinlock := false, fileParallel := false,
    useShmem := false, useMm := false, mmSweep := false, gMinInsert := 0,
    gMaxInsert := 0, gMate1fw := false, gMate2fw := false,
    gFlippedMatesOK := false, gDovetailMatesOK := false, gContainMatesOK := false,
    gOlapMatesOK := false, gExpandToFrag := false, gReportDiscordant := false,
    gReportMixed := false, cacheLimit := 0, cacheSize := 0, skipReads := 0,
    gNofw := false, gNorc := false, fastaContLen := 0, fastaContFreq := 0,
    hadoopOut := false, fuzzy := false, fullRef := false, samTruncQname := false,
    samOmitSecSeqQual := false, samNoHead := false, samNoSQ := false,
    sam_print_as := false, sam_print_xs := false, sam_print_xn := false,
    sam_print_cs := false, sam_print_cq := false, sam_print_x0 := false,
    sam_print_x1 := false, sam_print_xm := false, sam_print_xo := false,
    sam_print_xg := false, sam_print_nm := false, sam_print_md := false,
    sam_print_yf := false, sam_print_yi := false, sam_print_ym := false,
    sam_print_yp := false, sam_print_yt := false, sam_print_ys := false,
    bwaSwLike := false, qcFilter := false, sortByScore := false, gColor := false,
    gColorExEnds := false, gReportOverhangs := false, rgid := "", rgs := "",
    rgs_optflag := "", gSnpPhred := 0, msample := false, gColorSeq := false,
    gColorEdit := false, gColorQual := false, gGapBarrier := 0, gRowLow := 0,
    gRowFirst := false, qualities := [], qualities1 := [], qualities2 := [],
    polstr := "", msNoCache := false, bonusMatchType := 0, bonusMatch := 0,
    penMmcType := 0, penMmc := 0, penSnp := 0, penNType := 0, penN := 0,
    penNCatPair := false, localAlign := false, noisyHpolymer := false,
    penRdGapConst := 0, penRfGapConst := 0, penRdGapLinear := 0,
    penRfGapLinear := 0, multiseedMms := 0, multiseedLen := 0, saCountersFn := "",
    saActionsFn := "", saHitsFn := "", seedCacheLocalMB := 0,
    seedCacheCurrentMB := 0, maxhalf := 0, seedSummaryOnly := false,
    scanNarrowed := false, noSse := false, defaultPreset := "", ignoreQuals := false,
    wrapper := "", queries := [], outfile := "", bt2index := "", extra_opts := [],
    extra_opts_cur := 0, saw_M := false, saw_a := false, saw_k := false,
    presetList := [], argv0 := none, argstr := "" }

/-! ## Notions used in the statements -/

/-- The thrown value of a result, `none` for a return. -/
def thrownOf {α : Type} (r : Except (Thrown × Globals) α) : Option Thrown :=
  match r with
  | .ok _ => none
  | .error e => some e.1

/-- The globals that a result carries: those returned, or those at the throw. -/
def globalsOf (r : Res) : Globals :=
  match r with
  | .ok g => g
  | .error e => e.2

/-- The globals `s2` are `s1` with text appended to `polstr`. -/
def PolExt (s1 s2 : Globals) : Prop := ∃ t, s2 = { s1 with polstr := s1.polstr ++ t }

/-- Options that put a preset name on `presetList`. -/
def isPresetOpt (o : NextOption) : Bool :=
  o = .ARG_PRESET_VERY_FAST || o = .ARG_PRESET_FAST || o = .ARG_PRESET_SENSITIVE
    || o = .ARG_PRESET_VERY_SENSITIVE || o = .ch_P

/-- Options that append to `polstr`. -/
def isPolicyOpt (o : NextOption) : Bool :=
  o = .ARG_BWA_SW_LIKE || o = .ch_M || o = .ARG_ALIGN_POLICY || o = .ch_N || o = .ch_L
    || o = .ch_i || o = .ARG_MULTISEED_IVAL || o = .ARG_N_CEIL || o = .ARG_SCORE_MA
    || o = .ARG_SCORE_MMP || o = .ARG_SCORE_NP || o = .ARG_SCORE_RDG || o = .ARG_SCORE_RFG
    || o = .ARG_SCORES || o = .ARG_SCORE_MIN

/-- Globals that a returning call `parseOption(o, arg)` leaves as they were. -/
structure OptFrame (o : NextOption) (s s' : Globals) : Prop where
  extra_opts : s'.extra_opts = s.extra_opts
  extra_opts_cur : s'.extra_opts_cur = s.extra_opts_cur
  defaultPreset : s'.defaultPreset = s.defaultPreset
  showVersion : s'.showVersion = s.showVersion
  multiseedMms : s'.multiseedMms = s.multiseedMms
  multiseedLen : s'.multiseedLen = s.multiseedLen
  argstr : s'.argstr = s.argstr
  skipReads : o ≠ .ch_s → s'.skipReads = s.skipReads
  qUpto : o ≠ .ch_u → s'.qUpto = s.qUpto
  localAlign : o ≠ .ARG_LOCAL → o ≠ .ARG_END_TO_END → s'.localAlign = s.localAlign
  presetList : isPresetOpt o = false → s'.presetList = s.presetList
  polstr : isPolicyOpt o = false → s'.polstr = s.polstr
  allHits : o ≠ .ch_a → s'.allHits = s.allHits
  khits : o ≠ .ch_k → s'.khits = s.khits
  saw_a : o ≠ .ch_a → s'.saw_a = s.saw_a
  saw_k : o ≠ .ch_k → s'.saw_k = s.saw_k
  saw_M : o ≠ .ch_M → s'.saw_M = s.saw_M
  gMate1fw : o ≠ .ARG_FF → o ≠ .ARG_RF → o ≠ .ARG_FR → s'.gMate1fw = s.gMate1fw
  gMate2fw : o ≠ .ARG_FF → o ≠ .ARG_RF → o ≠ .ARG_FR → s'.gMate2fw = s.gMate2fw

/-- The skip count in force after the options `opts`: the number read from the
argument of the last `-s`, and `init` without a `-s`. -/
def skipFrom (init : Nat) : List GetoptResult → Nat
  | [] => init
  | r :: rs =>
    skipFrom (if r.next_option = .ch_s then (strtol r.optarg).l.toNat else init) rs

/-- The limit in force after the options `opts`: the number read from the
argument of the last `-u`, and `init` without a `-u`. -/
def uptoFrom (init : Option Nat) : List GetoptResult → Option Nat
  | [] => init
  | r :: rs =>
    uptoFrom (if r.next_option = .ch_u then some (strtol r.optarg).l.toNat else init) rs

/-- The value S given with `-s`/`--skip` on a command line (0 when absent). -/
def skipGiven (opts : List GetoptResult) : Nat := skipFrom 0 opts

/-- The value U given with `-u`/`--upto` on a command line, if any. -/
def uptoGiven (opts : List GetoptResult) : Option Nat := uptoFrom none opts

/-- The local/end-to-end flag after the options `opts`: the last of `--local`
and `--end-to-end` decides, and `init` without either. -/
def localFrom (init : Bool) : List GetoptResult → Bool
  | [] => init
  | r :: rs =>
    localFrom (if r.next_option = .ARG_LOCAL then true
      else if r.next_option = .ARG_END_TO_END then false else init) rs

/-- The preset name that one option puts on `presetList`, if it is a preset
option. -/
def presetPushed (r : GetoptResult) : List String :=
  match r.next_option with
  | .ARG_PRESET_VERY_FAST => ["very-fast%LOCAL%"]
  | .ARG_PRESET_FAST => ["fast%LOCAL%"]
  | .ARG_PRESET_SENSITIVE => ["sensitive%LOCAL%"]
  | .ARG_PRESET_VERY_SENSITIVE => ["very-sensitive%LOCAL%"]
  | .ch_P => [r.optarg]
  | _ => []

/-- The preset names given on a command line, in order. -/
def presetsGiven (opts : List GetoptResult) : List String :=
  (opts.map presetPushed).flatten

/-- The text that `parseOption(o, arg)` appends to an empty `polstr` (empty when
the call throws). -/
def polTextOf (ext : Ext) (r : GetoptResult) : String :=
  match parseOption ext r.next_option r.optarg globals0 with
  | .ok s => s.polstr
  | .error _ => ""

/-- Concatenation of a list of strings. -/
def concatAll : List String → String
  | [] => ""
  | x :: xs => x ++ concatAll xs

/-- The policy text of the explicit flags of a command line, in order. -/
def flagsText (ext : Ext) (opts : List GetoptResult) : String :=
  concatAll (opts.map (polTextOf ext))

/-- The policy text that `presets.apply` produces for the names `l`. -/
def presetsPol (ext : Ext) (l : List String) : String :=
  concatAll (l.map fun n => (ext.presetsApply n).1)

/-- The options that `presets.apply` adds to `extra_opts` for the names `l`. -/
def presetsOpts (ext : Ext) (l : List String) : List (NextOption × String) :=
  (l.map fun n => (ext.presetsApply n).2).flatten

/-- The value of `qUpto` that goes with the limit `acc` given so far on the
command line: the default without a limit, else the limit, which `parseInt`
has accepted. -/
def UptoInv (acc : Option Nat) (q : Nat) : Prop :=
  match acc with
  | none => q = 0xffffffff
  | some U => q = U ∧ 1 ≤ U ∧ U ≤ 2 ^ 31 - 1

/-- The names that `parseOptions` hands to `presets.apply`, in order, when the
option loop has ended with globals `s`: the default preset, then the listed
ones, each with `%LOCAL%` resolved by the final `localAlign`. -/
def appliedPresets (s : Globals) : List String :=
  (if s.defaultPreset ≠ "" then [presetName s.defaultPreset s.localAlign] else [])
    ++ s.presetList.map (fun p => presetName p s.localAlign)

/-- A read as the concrete runs use it: lengths `len1`, `len2`, the result
`skipStages` of `nextRead`, and the result `done` of an extension; every filter
passes (`nfilt[1]` only for a pair), no swap of the mate order, seed interval 10,
one seed per orientation, seed hits found. -/
def oracleV0 (paired : Bool) (len1 len2 : Nat) (skipStages : Int) (done : Bool) : ReadOracle :=
  { success := true
    done := false
    paired := paired
    patid := 0
    bufa := ⟨len1, 1, '1'⟩
    bufb := ⟨len2, 2, '1'⟩
    timeElapsed := false
    skipStages := skipStages
    nFilterPair := fun _ => ⟨true, paired⟩
    scoreFilter := fun _ => true
    nextU2 := fun _ => 1
    doneWithMate := fun _ _ => false
    msIval := fun _ => 10
    instantiateSeeds := fun _ _ _ _ _ => (1, 1)
    shsEmpty := fun _ _ => false
    extend := fun _ _ _ => (done, true) }

/-- The trace of `w2` is the trace of `w1` followed by calls that all satisfy `Q`. -/
def Extends (Q : Event → Prop) (w1 w2 : WorkerState) : Prop :=
  ∃ evs, w2.trace = w1.trace ++ evs ∧ ∀ e ∈ evs, Q e

/-- Calls of the filter stage. -/
def Event.isFilterWork : Event → Bool
  | .nFilterPair => true
  | .scoreFilter _ => true
  | .printMmsSkipMsg _ _ => true
  | .printColorLenSkipMsg _ _ => true
  | _ => false

/-- What the filter stage leaves untouched: the counters and the exhaustion
flags; its calls are filter calls. -/
structure FilterFrame (w w' : WorkerState) : Prop where
  olm : w'.olm = w.olm
  olmu : w'.olmu = w.olmu
  exhaustive : w'.exhaustive = w.exhaustive
  mergei : w'.mergei = w.mergei
  trace : Extends (fun e => e.isFilterWork = true) w w'

/-- Seed-related calls of the trace that are made for mate `m`. -/
def Event.seedWorkFor (m : Nat) : Event → Bool
  | .instantiateSeeds mate _ _ _ => mate = m
  | .searchAllSeeds mate => mate = m
  | .extendSeedsPaired mate _ _ _ _ => mate = m
  | .extendSeeds mate _ => mate = m
  | _ => false

/-- What one iteration of the loop over mates for `mate` leaves untouched: the
filter flags; its seed and extension calls are for `mate`. -/
structure MateFrame (mate : Nat) (w w' : WorkerState) : Prop where
  filt : w'.filt = w.filt
  nfilt : w'.nfilt = w.nfilt
  scfilt : w'.scfilt = w.scfilt
  lenfilt : w'.lenfilt = w.lenfilt
  qcfilt : w'.qcfilt = w.qcfilt
  trace : Extends (fun e => ∀ m, m ≠ mate → Event.seedWorkFor m e = false) w w'

/-- Calls of the filter, seed and extension stages. -/
def Event.isStageWork : Event → Bool
  | .nFilterPair => true
  | .scoreFilter _ => true
  | .printMmsSkipMsg _ _ => true
  | .printColorLenSkipMsg _ _ => true
  | .instantiateSeeds _ _ _ _ => true
  | .searchAllSeeds _ => true
  | .extendSeedsPaired _ _ _ _ _ => true
  | .extendSeeds _ _ => true
  | _ => false

/-- A step of option parsing whose only dependence on the globals is to append a
fixed text to the policy string. -/
def PolUniform (f : Globals → Res) : Prop :=
  ∀ s s', f s = .ok s' → ∃ t, s'.polstr = s.polstr ++ t
    ∧ ∀ r, ∃ r', f r = .ok r' ∧ r'.polstr = r.polstr ++ t

/-! ## Worker set-up: caches and budgets (lines 2187-2222) -/

/-- What line 2194 builds `AlignmentCacheIface ca` from: the byte budget of
`scCurrent`, the byte budget of `scLocal` (`none` when `scLocal.get()` is
null), and whether the pointer to `scShared` is non-null. -/
structure CacheIface where
  scCurrent : Nat
  scLocal : Option Nat
  scShared : Bool
  deriving DecidableEq, Repr

/-- The product `mb * 1024 * 1024` of lines 2190 and 2192 on a `uint32_t`. -/
def cacheBytes (mb : Nat) : Nat := u32 (u32 (mb * 1024) * 1024)

/-- Lines 2187-2199: the caches behind the worker's cache interface. -/
def workerCaches (g : Globals) : CacheIface :=
  { scCurrent := cacheBytes g.seedCacheCurrentMB
    scLocal := if !g.msNoCache then some (cacheBytes g.seedCacheLocalMB) else none
    scShared := if g.msNoCache then false else true }

/-- The two `SimpleFunc` globals that the worker copies. -/
inductive BudgetFunc where
  | posfrac | rowmult
  deriving DecidableEq, Repr

/-- A call that changes a copy of a `SimpleFunc`: `rp.boostThresholds(...)` or
`mult(x)`. -/
inductive BudgetStep where
  | boostThresholds (rp : ReportingParams)
  | mult (x : ℚ)
  deriving DecidableEq, Repr

/-- A local `SimpleFunc` of the worker: the global it is a copy of and the
calls made on the copy, in order. -/
structure Budget where
  source : BudgetFunc
  steps : List BudgetStep
  deriving DecidableEq, Repr

/-- Lines 2214 and 2216: `myPosfrac`. -/
def myPosfrac (rp : ReportingParams) : Budget := ⟨.posfrac, [.boostThresholds rp]⟩

/-- Lines 2215 and 2216: `myRowmult`. -/
def myRowmult (rp : ReportingParams) : Budget := ⟨.rowmult, [.boostThresholds rp]⟩

/-- Lines 2218, 2220 and 2221: `myPosfracPair`. -/
def myPosfracPair (rp : ReportingParams) : Budget :=
  ⟨.posfrac, [.boostThresholds rp, .mult (1 / 2)]⟩

/-- Lines 2219, 2220 and 2222: `myRowmultPair`. -/
def myRowmultPair (rp : ReportingParams) : Budget :=
  ⟨.rowmult, [.boostThresholds rp, .mult (1 / 2)]⟩

/-- The budgets that the extension driver is called with: lines 2578-2579 for
`extendSeedsPaired`, lines 2613-2614 for `extendSeeds`. -/
def extendBudgets (ext : Ext) (g : Globals) (pair : Bool) : Budget × Budget :=
  if pair then (myPosfracPair (workerRp ext g), myRowmultPair (workerRp ext g))
  else (myPosfrac (workerRp ext g), myRowmult (workerRp ext g))

/-- The factor by which the calls on a copy have multiplied the configured
function, when `boostThresholds` multiplies by `boost rp`. -/
def Budget.factor (boost : ReportingParams → ℚ) (b : Budget) : ℚ :=
  b.steps.foldl
    (fun acc st =>
      match st with
      | .boostThresholds rp => acc * boost rp
      | .mult x => acc * x)
    1

/-- The number of alignments that a reporting policy asks for: K under `-k K`,
M under `-M M`. -/
def requestedAlignments (rp : ReportingParams) : Nat :=
  if rp.msample then rp.mhits else rp.khits

/-- Modelled from the spec: the factor of `ReportingParams::boostThresholds`
(`aln_sink.h` is not under `src/`), with the values that the comment of lines
2210-2213 gives: the number of alignments sought, K for `-k K` and M + 1 for
`-M M`. -/
def boostFactorV0 (rp : ReportingParams) : ℚ :=
  if rp.msample then rp.mhits + 1 else rp.khits

/-! ## Notions used in the statements on the worker set-up -/

/-- The globals behind the mate orientations, the strand flags and the caches. -/
structure Cfg where
  gMate1fw : Bool
  gMate2fw : Bool
  gNofw : Bool
  gNorc : Bool
  msNoCache : Bool
  seedCacheLocalMB : Nat
  seedCacheCurrentMB : Nat
  deriving DecidableEq, Repr

/-- The values of these globals. -/
def cfgOf (g : Globals) : Cfg :=
  { gMate1fw := g.gMate1fw
    gMate2fw := g.gMate2fw
    gNofw := g.gNofw
    gNorc := g.gNorc
    msNoCache := g.msNoCache
    seedCacheLocalMB := g.seedCacheLocalMB
    seedCacheCurrentMB := g.seedCacheCurrentMB }

/-- What a returning `parseOption(o, arg)` does to these globals. -/
def cfgStep (o : NextOption) (c : Cfg) : Cfg :=
  match o with
  | .ARG_FF => { c with gMate1fw := true, gMate2fw := true }
  | .ARG_RF => { c with gMate1fw := false, gMate2fw := true }
  | .ARG_FR => { c with gMate1fw := true, gMate2fw := false }
  | .ARG_NO_FW => { c with gNofw := true }
  | .ARG_NO_RC => { c with gNorc := true }
  | .ARG_NO_CACHE => { c with msNoCache := true }
  | .ARG_USE_CACHE => { c with msNoCache := false }
  | _ => c

/-- The values of these globals after the options `opts`, from `init`. -/
def cfgFrom (init : Cfg) (opts : List GetoptResult) : Cfg :=
  opts.foldl (fun c r => cfgStep r.next_option c) init

/-- The paired-end orientation named by the last of `--ff`, `--fr`, `--rf` among
the options, and `init` without any. -/
def pepolFrom (init : PePolicy) : List GetoptResult → PePolicy
  | [] => init
  | r :: rs =>
    pepolFrom
      (match r.next_option with
        | .ARG_FF => .PE_POLICY_FF
        | .ARG_FR => .PE_POLICY_FR
        | .ARG_RF => .PE_POLICY_RF
        | _ => init)
      rs

/-- Whether the last of `--no-cache`, `--use-cache` among the options is
`--no-cache`, and `init` without any. -/
def noCacheFrom (init : Bool) : List GetoptResult → Bool
  | [] => init
  | r :: rs =>
    noCacheFrom
      (match r.next_option with
        | .ARG_NO_CACHE => true
        | .ARG_USE_CACHE => false
        | _ => init)
      rs

/-- The value `pepolFlag` of lines 2248-2257 as a function of the two
orientation globals. -/
def Cfg.pepol (c : Cfg) : PePolicy :=
  if c.gMate1fw && c.gMate2fw then .PE_POLICY_FF
  else if c.gMate1fw && !c.gMate2fw then .PE_POLICY_FR
  else if !c.gMate1fw && c.gMate2fw then .PE_POLICY_RF
  else .PE_POLICY_RR

/-! ## Notions used in the statements on the worker's calls -/

/-- The seed and extension calls of a complete iteration of the loop over mates
for `mate` (lines 2509-2643), in order, from a state with the filter flags of
`w`: seed instantiation, seed search, and the extension driver. -/
def mateCalls (g : Globals) (o : ReadOracle) (rdlens : Arr2 Nat) (mate : Nat)
    (w : WorkerState) : List Event :=
  [.instantiateSeeds mate (seedInterval o rdlens mate w) (mateNofw g o.paired mate)
      (mateNorc g o.paired mate),
   .searchAllSeeds mate,
   if o.paired then
     .extendSeedsPaired mate (!w.filt.get (mate ^^^ 1)) (seedInterval o rdlens mate w)
       (mateNofw g o.paired mate) (mateNorc g o.paired mate)
   else .extendSeeds mate (seedInterval o rdlens mate w)]

/-- The flags `(nofw, norc)` of a mate in words: the globals as they are for an
unpaired read and for a mate that aligns forward (`gMate1fw` for mate 1,
`gMate2fw` for mate 2), and exchanged for a mate that aligns as reverse
complement. -/
def orientFlags (g : Globals) (paired : Bool) (mate : Nat) : Bool × Bool :=
  if paired = false then (g.gNofw, g.gNorc)
  else if (if mate = 0 then g.gMate1fw else g.gMate2fw) = true then (g.gNofw, g.gNorc)
  else (g.gNorc, g.gNofw)

/-- The mate that an extension call is made for. -/
def Event.extendMate : Event → Option Nat
  | .extendSeedsPaired mate _ _ _ _ => some mate
  | .extendSeeds mate _ => some mate
  | _ => none

/-- In the calls `evs`, made right after the call `prev`, every extension call
for a mate comes immediately after the seed search call for that mate. -/
def extendAfterSearch : Option Event → List Event → Bool
  | _, [] => true
  | prev, e :: rest =>
    (match e.extendMate with
      | some m => decide (prev = some (.searchAllSeeds m))
      | none => true)
    && extendAfterSearch (some e) rest

/-- In the calls `evs`, made after the calls `seen`, every extension call comes
after the seed search calls of both mates. -/
def extendAfterBothSearches : List Event → List Event → Bool
  | _, [] => true
  | seen, e :: rest =>
    (match e.extendMate with
      | some _ => seen.contains (.searchAllSeeds 0) && seen.contains (.searchAllSeeds 1)
      | none => true)
    && extendAfterBothSearches (seen ++ [e]) rest

/-! ## `PerfMetrics` (lines 1378-2058) -/

/-- The metric groups that other files define (`SeedSearchMetrics`,
`WalkMetrics`, `SwMetrics`, `ReportingMetrics`, `SSEMetrics`), as far as
`PerfMetrics` uses them: the value that `reset()` leaves and the value that
`x.merge(m, false)` leaves in `x`. -/
structure MetricsOps (SD WL SW RP SSE : Type) where
  sdReset : SD
  sdMerge : SD → SD → SD
  wlReset : WL
  wlMerge : WL → WL → WL
  swReset : SW
  swMerge : SW → SW → SW
  rpReset : RP
  rpMerge : RP → RP → RP
  sseReset : SSE
  sseMerge : SSE → SSE → SSE

/-- The metric groups of `struct PerfMetrics` (lines 2031-2053): the totals over
the whole job and the groups since the last update. -/
structure PerfMetrics (SD WL SW RP SSE : Type) where
  olm : OuterLoopMetrics
  sdm : SD
  wlm : WL
  swmSeed : SW
  swmMate : SW
  rpm : RP
  dpSse8Seed : SSE
  dpSse8Mate : SSE
  dpSse16Seed : SSE
  dpSse16Mate : SSE
  olmu : OuterLoopMetrics
  sdmu : SD
  wlmu : WL
  swmuSeed : SW
  swmuMate : SW
  rpmu : RP
  dpSse8uSeed : SSE
  dpSse8uMate : SSE
  dpSse16uSeed : SSE
  dpSse16uMate : SSE

/-- Method `PerfMetrics::finishReport` (lines 2009-2029). -/
def PerfMetrics.finishReport {SD WL SW RP SSE : Type} (ops : MetricsOps SD WL SW RP SSE)
    (m : PerfMetrics SD WL SW RP SSE) : PerfMetrics SD WL SW RP SSE :=
  let m := { m with olm := m.olm.merge m.olmu }
  let m := { m with sdm := ops.sdMerge m.sdm m.sdmu }
  let m := { m with wlm := ops.wlMerge m.wlm m.wlmu }
  let m := { m with swmSeed := ops.swMerge m.swmSeed m.swmuSeed }
  let m := { m with swmMate := ops.swMerge m.swmMate m.swmuMate }
  let m := { m with dpSse8Seed := ops.sseMerge m.dpSse8Seed m.dpSse8uSeed }
  let m := { m with dpSse8Mate := ops.sseMerge m.dpSse8Mate m.dpSse8uMate }
  let m := { m with dpSse16Seed := ops.sseMerge m.dpSse16Seed m.dpSse16uSeed }
  let m := { m with dpSse16Mate := ops.sseMerge m.dpSse16Mate m.dpSse16uMate }
  { m with
    olmu := OuterLoopMetrics.reset
    sdmu := ops.sdReset
    wlmu := ops.wlReset
    swmuSeed := ops.swReset
    swmuMate := ops.swReset
    rpmu := ops.rpReset
    dpSse8uSeed := ops.sseReset
    dpSse8uMate := ops.sseReset
    dpSse16uSeed := ops.sseReset
    dpSse16uMate := ops.sseReset }

/-- Modelled from the spec: a metric group of another file as one 64-bit
counter, with `reset` to zero and `merge` by addition. -/
def counterOps : MetricsOps Nat Nat Nat Nat Nat :=
  { sdReset := 0, sdMerge := fun x m => u64 (x + m)
    wlReset := 0, wlMerge := fun x m => u64 (x + m)
    swReset := 0, swMerge := fun x m => u64 (x + m)
    rpReset := 0, rpMerge := fun x m => u64 (x + m)
    sseReset := 0, sseMerge := fun x m => u64 (x + m) }

/-- A `PerfMetrics` whose totals all hold `t` and whose groups since the last
update all hold `u`, in every counter. -/
def perfV0 (t u : Nat) : PerfMetrics Nat Nat Nat Nat Nat :=
  { olm := ⟨t, t, t, t, t, t, t, t⟩, sdm := t, wlm := t, swmSeed := t, swmMate := t, rpm := t
    dpSse8Seed := t, dpSse8Mate := t, dpSse16Seed := t, dpSse16Mate := t
    olmu := ⟨u, u, u, u, u, u, u, u⟩, sdmu := u, wlmu := u, swmuSeed := u, swmuMate := u
    rpmu := u, dpSse8uSeed := u, dpSse8uMate := u, dpSse16uSeed := u, dpSse16uMate := u }

/-! ## Notions used in the statements on metrics and reporting -/

/-- Number of `MERGE_METRICS` executions that a trace records. -/
def mergesIn (t : List Event) : Nat := (t.filter (fun e => decide (e = .mergeMetrics))).length

/-- The condition of lines 2303-2304 under which the worker counts reads for
the periodic merge. -/
def mergeEnabled (g : Globals) (a : WorkerArgs) : Bool :=
  decide (g.metricsIval > 0) && (a.metricsOfb || g.metricsStderr)

/-- Whether `-a` occurs among the options. -/
def aGiven (opts : List GetoptResult) : Bool := opts.any (fun r => r.next_option = .ch_a)

/-- Whether `-k` occurs among the options. -/
def kGiven (opts : List GetoptResult) : Bool := opts.any (fun r => r.next_option = .ch_k)

/-- The number read from the argument of the last `-k` among the options, and
`init` without a `-k`. -/
def kFrom (init : Nat) : List GetoptResult → Nat
  | [] => init
  | r :: rs => kFrom (if r.next_option = .ch_k then (strtol r.optarg).l.toNat else init) rs

/-! Theorems. -/

/-! ## `parseInt` -/

theorem toInt32_of_range (l : Int) (h1 : INT_MIN ≤ l) (h2 : l ≤ INT_MAX) : toInt32 l = l := by
  unfold toInt32
  unfold INT_MIN at h1
  unfold INT_MAX at h2
  omega

theorem strtol_endPtr (arg : String) : (strtol arg).endPtr ≠ none := by
  unfold strtol
  simp only []
  split
  · simp
  · split <;> simp

theorem strtol_no_digits (arg : String) (h : digitLen (strtolDigits arg) = 0) :
    (strtol arg).l = 0 := by
  unfold strtol
  simp [h]

theorem parseInt_eq (lower upper : Int) (errmsg arg : String) :
    parseInt lower upper errmsg arg =
      if (strtol arg).l < lower ∨ (strtol arg).l > upper then .error (.int 1)
      else .ok (toInt32 (strtol arg).l) := by
  unfold parseInt
  have h := strtol_endPtr arg
  cases hE : (strtol arg).endPtr with
  | none => exact absurd hE h
  | some n => simp only [hE]

/-- C7: `parseInt(lower, upper, errmsg, arg)` throws 1 exactly when the integer
that `strtol` reads from `arg` (0 when `arg` has no digits to read) is below
`lower` or above `upper`; otherwise it returns exactly that integer, which lies
in `[lower, upper]`.  `strtol` never leaves `endPtr` null, so the error branch
after the range check is not reached, and the three-argument overload is the
call with `upper = INT_MAX`. -/
theorem C7_parseInt_range (lower upper : Int) (errmsg arg : String)
    (hl : INT_MIN ≤ lower) (hu : upper ≤ INT_MAX) :
    (strtol arg).endPtr ≠ none
    ∧ (digitLen (strtolDigits arg) = 0 → (strtol arg).l = 0)
    ∧ (parseInt lower upper errmsg arg = .error (.int 1)
        ↔ ((strtol arg).l < lower ∨ (strtol arg).l > upper))
    ∧ (¬((strtol arg).l < lower ∨ (strtol arg).l > upper) →
        parseInt lower upper errmsg arg = .ok (strtol arg).l
        ∧ lower ≤ (strtol arg).l ∧ (strtol arg).l ≤ upper)
    ∧ parseInt3 lower errmsg arg = parseInt lower INT_MAX errmsg arg := by
  refine ⟨strtol_endPtr arg, strtol_no_digits arg, ?_, ?_, rfl⟩
  · rw [parseInt_eq]
    split <;> simp_all
  · intro h
    rw [parseInt_eq, if_neg h]
    have h1 : lower ≤ (strtol arg).l := by
      by_contra hc
      exact h (Or.inl (not_le.mp hc))
    have h2 : (strtol arg).l ≤ upper := by
      by_contra hc
      exact h (Or.inr (not_le.mp hc))
    refine ⟨?_, h1, h2⟩
    rw [toInt32_of_range _ (le_trans hl h1) (le_trans h2 hu)]

theorem C7_parseInt_range_witness :
    (strtol "12abc").endPtr ≠ none
    ∧ (digitLen (strtolDigits "12abc") = 0 → (strtol "12abc").l = 0)
    ∧ (parseInt 1 100 "-k arg must be at least 1" "12abc" = .error (.int 1)
        ↔ ((strtol "12abc").l < 1 ∨ (strtol "12abc").l > 100))
    ∧ (¬((strtol "12abc").l < 1 ∨ (strtol "12abc").l > 100) →
        parseInt 1 100 "-k arg must be at least 1" "12abc" = .ok (strtol "12abc").l
        ∧ 1 ≤ (strtol "12abc").l ∧ (strtol "12abc").l ≤ 100)
    ∧ parseInt3 1 "-k arg must be at least 1" "12abc"
        = parseInt 1 INT_MAX "-k arg must be at least 1" "12abc" :=
  C7_parseInt_range 1 100 "-k arg must be at least 1" "12abc" (by decide) (by decide)

/-! ## Effect of one `parseOption` call -/

theorem liftAt_ok {α : Type} (s : Globals) (x : Except Thrown α) (a : α)
    (h : liftAt s x = .ok a) : x = .ok a := by
  cases x with
  | ok b => simpa [liftAt] using h
  | error e => simp [liftAt] at h

theorem PolExt.polRefl (s : Globals) : PolExt s s := ⟨"", by cases s; simp⟩

theorem PolExt.polTrans {s1 s2 s3 : Globals} (h1 : PolExt s1 s2) (h2 : PolExt s2 s3) :
    PolExt s1 s3 := by
  obtain ⟨t1, rfl⟩ := h1
  obtain ⟨t2, rfl⟩ := h2
  exact ⟨t1 ++ t2, by simp [String.append_assoc]⟩

theorem bind_ok {ε α β : Type} (x : Except ε α) (f : α → Except ε β) (b : β)
    (h : (x >>= f) = .ok b) : ∃ a, x = .ok a ∧ f a = .ok b := by
  cases x with
  | ok a => exact ⟨a, rfl, h⟩
  | error e => simp [bind, Except.bind] at h

theorem polAdd_ok (args : List String) (i : Nat) (sep : String) (s s' : Globals)
    (h : polAdd args i sep s = .ok s') : PolExt s s' := by
  unfold polAdd at h
  obtain ⟨a, _, h2⟩ := bind_ok _ _ _ h
  simp only [pure, Except.pure, Except.ok.injEq] at h2
  exact ⟨sep ++ a, h2.symm⟩

theorem polAddIf_ok (args : List String) (i : Nat) (sep : String) (s s' : Globals)
    (h : polAddIf args i sep s = .ok s') : PolExt s s' := by
  unfold polAddIf at h
  split at h
  · exact polAdd_ok _ _ _ _ _ h
  · simp only [pure, Except.pure, Except.ok.injEq] at h
    subst h
    exact PolExt.polRefl s

theorem PolExt.semi (s : Globals) (t : String) : PolExt s { s with polstr := s.polstr ++ t } :=
  ⟨t, rfl⟩

theorem parseOption_ch_i (ext : Ext) (a : String) (s : Globals) :
    parseOption ext .ch_i a s =
      if (ext.tokenize a ",").length > 3 ∨ (ext.tokenize a ",").length = 0 then throwAt s 1
      else (polAdd (ext.tokenize a ",") 0 ";IVAL=" s >>= fun s =>
        polAddIf (ext.tokenize a ",") 1 "," s >>= fun s =>
        polAddIf (ext.tokenize a ",") 2 "," s) := rfl

theorem parseOption_multiseed (ext : Ext) (a : String) (s : Globals) :
    parseOption ext .ARG_MULTISEED_IVAL a s =
      if (ext.tokenize a ",").length > 11 ∨ (ext.tokenize a ",").length = 0 then
        throwAt { s with polstr := s.polstr ++ ";" } 1
      else (polAdd (ext.tokenize a ",") 0 "SEED=" { s with polstr := s.polstr ++ ";" }
        >>= fun s => polAddIf (ext.tokenize a ",") 1 "," s
        >>= fun s => polAddIf (ext.tokenize a ",") 2 ";IVAL=" s
        >>= fun s => polAddIf (ext.tokenize a ",") 3 "," s
        >>= fun s => polAddIf (ext.tokenize a ",") 4 "," s
        >>= fun s => polAddIf (ext.tokenize a ",") 5 ";POSF=" s
        >>= fun s => polAddIf (ext.tokenize a ",") 6 "," s
        >>= fun s => polAddIf (ext.tokenize a ",") 7 "," s
        >>= fun s => polAddIf (ext.tokenize a ",") 8 ";ROWM=" s
        >>= fun s => polAddIf (ext.tokenize a ",") 9 "," s
        >>= fun s => polAddIf (ext.tokenize a ",") 10 "," s) := rfl

theorem parseOption_n_ceil (ext : Ext) (a : String) (s : Globals) :
    parseOption ext .ARG_N_CEIL a s =
      if (ext.tokenize a ",").length > 2 ∨ (ext.tokenize a ",").length = 0 then
        throwAt { s with polstr := s.polstr ++ ";" } 1
      else (polAdd (ext.tokenize a ",") 0 "NCEIL=" { s with polstr := s.polstr ++ ";" }
        >>= fun s => polAddIf (ext.tokenize a ",") 1 "," s) := rfl

theorem parseOption_scores (ext : Ext) (a : String) (s : Globals) :
    parseOption ext .ARG_SCORES a s =
      if (ext.tokenize a ",").length > 7 ∨ (ext.tokenize a ",").length = 0 then throwAt s 1
      else (polAddIf (ext.tokenize a ",") 0 ";MA=" s
        >>= fun s => polAddIf (ext.tokenize a ",") 1 ";MMP=" s
        >>= fun s => polAddIf (ext.tokenize a ",") 2 ";NP=" s
        >>= fun s => polAddIf (ext.tokenize a ",") 3 ";RDG=" s
        >>= fun s => polAddIf (ext.tokenize a ",") 4 "," s
        >>= fun s => polAddIf (ext.tokenize a ",") 5 ";RFG=" s
        >>= fun s => polAddIf (ext.tokenize a ",") 6 "," s) := rfl

theorem parseOption_score_min (ext : Ext) (a : String) (s : Globals) :
    parseOption ext .ARG_SCORE_MIN a s =
      if (ext.tokenize a ",").length > 3 ∧ (ext.tokenize a ",").length = 0 then
        throwAt { s with polstr := s.polstr ++ ";" } 1
      else (polAdd (ext.tokenize a ",") 0 "MIN=" { s with polstr := s.polstr ++ ";" }
        >>= fun s => polAddIf (ext.tokenize a ",") 1 "," s
        >>= fun s => polAddIf (ext.tokenize a ",") 2 "," s) := rfl

theorem throwAt_ne_ok (s s' : Globals) (e : Int) : throwAt s e ≠ .ok s' := by
  intro h
  cases h

theorem parseOption_polExt (ext : Ext) (o : NextOption) (a : String) (s s' : Globals)
    (ho : o = .ch_i ∨ o = .ARG_MULTISEED_IVAL ∨ o = .ARG_N_CEIL ∨ o = .ARG_SCORES
      ∨ o = .ARG_SCORE_MIN)
    (h : parseOption ext o a s = .ok s') : PolExt s s' := by
  rcases ho with rfl | rfl | rfl | rfl | rfl
  · rw [parseOption_ch_i] at h
    split at h
    · exact absurd h (throwAt_ne_ok _ _ _)
    · obtain ⟨s1, h1, h⟩ := bind_ok _ _ _ h
      obtain ⟨s2, h2, h⟩ := bind_ok _ _ _ h
      exact ((polAdd_ok _ _ _ _ _ h1).polTrans (polAddIf_ok _ _ _ _ _ h2)).polTrans
        (polAddIf_ok _ _ _ _ _ h)
  · rw [parseOption_multiseed] at h
    split at h
    · exact absurd h (throwAt_ne_ok _ _ _)
    · obtain ⟨s1, h1, h⟩ := bind_ok _ _ _ h
      obtain ⟨s2, h2, h⟩ := bind_ok _ _ _ h
      obtain ⟨s3, h3, h⟩ := bind_ok _ _ _ h
      obtain ⟨s4, h4, h⟩ := bind_ok _ _ _ h
      obtain ⟨s5, h5, h⟩ := bind_ok _ _ _ h
      obtain ⟨s6, h6, h⟩ := bind_ok _ _ _ h
      obtain ⟨s7, h7, h⟩ := bind_ok _ _ _ h
      obtain ⟨s8, h8, h⟩ := bind_ok _ _ _ h
      obtain ⟨s9, h9, h⟩ := bind_ok _ _ _ h
      obtain ⟨s10, h10, h⟩ := bind_ok _ _ _ h
      have e1 := polAdd_ok _ _ _ _ _ h1
      have e2 := polAddIf_ok _ _ _ _ _ h2
      have e3 := polAddIf_ok _ _ _ _ _ h3
      have e4 := polAddIf_ok _ _ _ _ _ h4
      have e5 := polAddIf_ok _ _ _ _ _ h5
      have e6 := polAddIf_ok _ _ _ _ _ h6
      have e7 := polAddIf_ok _ _ _ _ _ h7
      have e8 := polAddIf_ok _ _ _ _ _ h8
      have e9 := polAddIf_ok _ _ _ _ _ h9
      have e10 := polAddIf_ok _ _ _ _ _ h10
      have e11 := polAddIf_ok _ _ _ _ _ h
      exact (PolExt.semi s ";").polTrans (e1.polTrans (e2.polTrans (e3.polTrans
        (e4.polTrans (e5.polTrans (e6.polTrans (e7.polTrans (e8.polTrans (e9.polTrans
        (e10.polTrans e11))))))))))
  · rw [parseOption_n_ceil] at h
    split at h
    · exact absurd h (throwAt_ne_ok _ _ _)
    · obtain ⟨s1, h1, h⟩ := bind_ok _ _ _ h
      exact (PolExt.semi s ";").polTrans
        ((polAdd_ok _ _ _ _ _ h1).polTrans (polAddIf_ok _ _ _ _ _ h))
  · rw [parseOption_scores] at h
    split at h
    · exact absurd h (throwAt_ne_ok _ _ _)
    · obtain ⟨s1, h1, h⟩ := bind_ok _ _ _ h
      obtain ⟨s2, h2, h⟩ := bind_ok _ _ _ h
      obtain ⟨s3, h3, h⟩ := bind_ok _ _ _ h
      obtain ⟨s4, h4, h⟩ := bind_ok _ _ _ h
      obtain ⟨s5, h5, h⟩ := bind_ok _ _ _ h
      obtain ⟨s6, h6, h⟩ := bind_ok _ _ _ h
      have e1 := polAddIf_ok _ _ _ _ _ h1
      have e2 := polAddIf_ok _ _ _ _ _ h2
      have e3 := polAddIf_ok _ _ _ _ _ h3
      have e4 := polAddIf_ok _ _ _ _ _ h4
      have e5 := polAddIf_ok _ _ _ _ _ h5
      have e6 := polAddIf_ok _ _ _ _ _ h6
      have e7 := polAddIf_ok _ _ _ _ _ h
      exact e1.polTrans (e2.polTrans (e3.polTrans (e4.polTrans (e5.polTrans (e6.polTrans e7)))))
  · rw [parseOption_score_min] at h
    split at h
    · exact absurd h (throwAt_ne_ok _ _ _)
    · obtain ⟨s1, h1, h⟩ := bind_ok _ _ _ h
      obtain ⟨s2, h2, h⟩ := bind_ok _ _ _ h
      exact (PolExt.semi s ";").polTrans (((polAdd_ok _ _ _ _ _ h1).polTrans
        (polAddIf_ok _ _ _ _ _ h2)).polTrans (polAddIf_ok _ _ _ _ _ h))


set_option maxHeartbeats 8000000 in
theorem parseOption_frame (ext : Ext) (o : NextOption) (a : String) (s s' : Globals)
    (h : parseOption ext o a s = .ok s') : OptFrame o s s' := by
  by_cases ho : o = .ch_i ∨ o = .ARG_MULTISEED_IVAL ∨ o = .ARG_N_CEIL ∨ o = .ARG_SCORES
      ∨ o = .ARG_SCORE_MIN
  · obtain ⟨t, rfl⟩ := parseOption_polExt ext o a s s' ho h
    constructor
    all_goals first
      | rfl
      | (intros; rfl)
      | (rcases ho with rfl | rfl | rfl | rfl | rfl <;> simp [isPolicyOpt])
  · cases o <;>
    first
    | exact absurd (by decide) ho
    | (simp only [parseOption, throwAt, elemAt, bind, Except.bind, pure, Except.pure] at h
       (try split at h) <;> (try split at h) <;>
       first
       | (injection h with h; subst h; constructor <;> simp [isPresetOpt, isPolicyOpt])
       | cases h)

/-! ## The read window of `-s` and `-u` -/

theorem parseOption_ch_s (ext : Ext) (a : String) (s : Globals) :
    parseOption ext .ch_s a s =
      (liftAt s (parseInt3 0 "-s arg must be positive" a) >>= fun v =>
        pure { s with skipReads := toU32 v }) := rfl

theorem parseOption_ch_u (ext : Ext) (a : String) (s : Globals) :
    parseOption ext .ch_u a s =
      (liftAt s (parseInt3 1 "-u/--qupto arg must be at least 1" a) >>= fun v =>
        pure { s with qUpto := toU32 v }) := rfl

theorem parseInt3_ok (lower : Int) (errmsg arg : String) (v : Int) (hl : INT_MIN ≤ lower)
    (h : parseInt3 lower errmsg arg = .ok v) :
    v = (strtol arg).l ∧ lower ≤ v ∧ v ≤ INT_MAX := by
  unfold parseInt3 at h
  rw [parseInt_eq] at h
  split at h
  · cases h
  · rename_i hc
    have h1 : lower ≤ (strtol arg).l := by
      by_contra hn
      exact hc (Or.inl (not_le.mp hn))
    have h2 : (strtol arg).l ≤ INT_MAX := by
      by_contra hn
      exact hc (Or.inr (not_le.mp hn))
    rw [toInt32_of_range _ (le_trans hl h1) h2] at h
    injection h with h
    subst h
    exact ⟨rfl, h1, h2⟩

theorem toU32_of_nonneg (v : Int) (h0 : 0 ≤ v) (h1 : v ≤ INT_MAX) : toU32 v = v.toNat := by
  unfold toU32
  unfold INT_MAX at h1
  congr 1
  omega

theorem parseOption_ch_s_ok (ext : Ext) (a : String) (s s' : Globals)
    (h : parseOption ext .ch_s a s = .ok s') :
    s'.skipReads = (strtol a).l.toNat ∧ (strtol a).l.toNat ≤ 2 ^ 31 - 1 := by
  rw [parseOption_ch_s] at h
  obtain ⟨v, hv, h⟩ := bind_ok _ _ _ h
  obtain ⟨rfl, h0, h1⟩ := parseInt3_ok _ _ _ _ (by decide) (liftAt_ok _ _ _ hv)
  simp only [pure, Except.pure, Except.ok.injEq] at h
  subst h
  refine ⟨toU32_of_nonneg _ h0 h1, ?_⟩
  unfold INT_MAX at h1
  omega

theorem parseOption_ch_u_ok (ext : Ext) (a : String) (s s' : Globals)
    (h : parseOption ext .ch_u a s = .ok s') :
    s'.qUpto = (strtol a).l.toNat ∧ 1 ≤ (strtol a).l.toNat
      ∧ (strtol a).l.toNat ≤ 2 ^ 31 - 1 := by
  rw [parseOption_ch_u] at h
  obtain ⟨v, hv, h⟩ := bind_ok _ _ _ h
  obtain ⟨rfl, h0, h1⟩ := parseInt3_ok _ _ _ _ (by decide) (liftAt_ok _ _ _ hv)
  simp only [pure, Except.pure, Except.ok.injEq] at h
  subst h
  refine ⟨toU32_of_nonneg _ (by omega) h1, ?_, ?_⟩
  · omega
  · unfold INT_MAX at h1
    omega

theorem storeFlag_frame (s : Globals) (st : Option (FlagVar × Int)) :
    (storeFlag s st).skipReads = s.skipReads ∧ (storeFlag s st).qUpto = s.qUpto
    ∧ (storeFlag s st).extra_opts = s.extra_opts
    ∧ (storeFlag s st).extra_opts_cur = s.extra_opts_cur
    ∧ (storeFlag s st).localAlign = s.localAlign
    ∧ (storeFlag s st).presetList = s.presetList
    ∧ (storeFlag s st).polstr = s.polstr
    ∧ (storeFlag s st).defaultPreset = s.defaultPreset := by
  rcases st with _ | ⟨f, v⟩
  · simp [storeFlag]
  · cases f <;> simp [storeFlag]

theorem getopt_skip_upto (ext : Ext) (opts : List GetoptResult) :
    ∀ (s s' : Globals) (acc : Option Nat), parseOptionsGetopt ext opts s = .ok s' →
      s.skipReads ≤ 2 ^ 31 - 1 → UptoInv acc s.qUpto →
      s'.skipReads = skipFrom s.skipReads opts ∧ s'.skipReads ≤ 2 ^ 31 - 1
      ∧ UptoInv (uptoFrom acc opts) s'.qUpto
      ∧ s'.extra_opts = s.extra_opts ∧ s'.extra_opts_cur = s.extra_opts_cur := by
  induction opts with
  | nil =>
    intro s s' acc h hs hq
    simp only [parseOptionsGetopt, Except.ok.injEq] at h
    subst h
    exact ⟨rfl, hs, hq, rfl, rfl⟩
  | cons r rs ih =>
    intro s s' acc h hs hq
    simp only [parseOptionsGetopt] at h
    obtain ⟨s1, h1, h⟩ := bind_ok _ _ _ h
    have hf := parseOption_frame _ _ _ _ _ h1
    have hsf := storeFlag_frame s r.stored
    have hS : s1.skipReads =
        (if r.next_option = .ch_s then (strtol r.optarg).l.toNat else s.skipReads)
        ∧ s1.skipReads ≤ 2 ^ 31 - 1 := by
      by_cases hc : r.next_option = .ch_s
      · rw [hc] at h1
        have := parseOption_ch_s_ok _ _ _ _ h1
        rw [if_pos hc]
        exact ⟨this.1, this.1 ▸ this.2⟩
      · rw [if_neg hc, hf.skipReads hc, hsf.1]
        exact ⟨rfl, hs⟩
    have hU : UptoInv (if r.next_option = .ch_u then some (strtol r.optarg).l.toNat else acc)
        s1.qUpto := by
      by_cases hc : r.next_option = .ch_u
      · rw [hc] at h1
        have := parseOption_ch_u_ok _ _ _ _ h1
        rw [if_pos hc]
        exact ⟨this.1, this.2.1, this.2.2⟩
      · rw [if_neg hc, hf.qUpto hc, hsf.2.1]
        exact hq
    obtain ⟨e1, e2, e3, e4, e5⟩ := ih s1 s' _ h hS.2 hU
    refine ⟨?_, e2, ?_, ?_, ?_⟩
    · rw [e1, hS.1]
      rfl
    · exact e3
    · rw [e4, hf.extra_opts, hsf.2.2.1]
    · rw [e5, hf.extra_opts_cur, hsf.2.2.2.1]

/-! ## The presets stage and the tail of `parseOptions` -/

theorem presets_foldl (ext : Ext) (l : List String) :
    ∀ s : Globals,
      l.foldl (fun s p =>
          { (applyPreset ext p s).2 with
            polstr := (applyPreset ext p s).2.polstr ++ (applyPreset ext p s).1 }) s
        = { s with
            polstr := s.polstr ++ presetsPol ext (l.map fun p => presetName p s.localAlign)
            extra_opts := s.extra_opts
              ++ presetsOpts ext (l.map fun p => presetName p s.localAlign) } := by
  induction l with
  | nil =>
    intro s
    cases s
    simp [presetsPol, presetsOpts, concatAll]
  | cons p ps ih =>
    intro s
    rw [List.foldl_cons, ih]
    simp [applyPreset, presetsPol, presetsOpts, concatAll, String.append_assoc]

theorem parseOptionsPresets_eq (ext : Ext) (s : Globals) :
    parseOptionsPresets ext s =
      { s with
        polstr :=
          (if s.defaultPreset ≠ "" then
              (ext.presetsApply (presetName s.defaultPreset s.localAlign)).1 else "")
            ++ s.polstr
            ++ presetsPol ext (s.presetList.map fun p => presetName p s.localAlign)
        extra_opts := s.extra_opts ++ presetsOpts ext (appliedPresets s) } := by
  unfold parseOptionsPresets
  by_cases hd : s.defaultPreset = ""
  · simp only [hd, ne_eq, not_true_eq_false, ↓reduceIte]
    rw [presets_foldl]
    simp [appliedPresets, hd]
  · simp only [ne_eq, hd, not_false_eq_true, ↓reduceIte]
    rw [presets_foldl]
    simp [appliedPresets, hd, applyPreset, presetsOpts, presetsPol]

theorem parseOptionsEOF_nil (ext : Ext) (s : Globals) : parseOptionsEOF ext [] s = .ok s := rfl

theorem parseOptionsExtra_inv (ext : Ext) (I : Globals → Prop) (P : NextOption → Prop)
    (hI : ∀ o a s s', ¬ P o → parseOption ext o a s = .ok s' → I s → I s') (n : Nat) :
    ∀ (s s' : Globals), parseOptionsExtra ext n s = .ok s' →
      (∀ e ∈ s.extra_opts, ¬ P e.1) → I s → I s' := by
  induction n with
  | zero =>
    intro s s' h _ hs
    simp only [parseOptionsExtra, Except.ok.injEq] at h
    subst h
    exact hs
  | succ n ih =>
    intro s s' h hP hs
    simp only [parseOptionsExtra] at h
    split at h
    · rename_i o a hget
      obtain ⟨s1, h1, h⟩ := bind_ok _ _ _ h
      have hmem : (o, a) ∈ s.extra_opts := List.getElem?_mem hget
      have hf := parseOption_frame _ _ _ _ _ h1
      exact ih s1 s' h (by rw [hf.extra_opts]; exact hP) (hI o a s s1 (hP _ hmem) h1 hs)
    · cases h

theorem parseOptionsMode_frame (s : Globals) :
    (parseOptionsMode s).skipReads = s.skipReads ∧ (parseOptionsMode s).qUpto = s.qUpto
    ∧ (parseOptionsMode s).multiseedMms = s.multiseedMms
    ∧ (parseOptionsMode s).multiseedLen = s.multiseedLen
    ∧ (parseOptionsMode s).allHits = s.allHits ∧ (parseOptionsMode s).khits = s.khits := by
  unfold parseOptionsMode
  simp only []
  split <;> split <;> simp

theorem adjustSeedMms_frame (s : Globals) :
    (adjustSeedMms s).skipReads = s.skipReads ∧ (adjustSeedMms s).qUpto = s.qUpto
    ∧ (adjustSeedMms s).allHits = s.allHits ∧ (adjustSeedMms s).khits = s.khits
    ∧ (adjustSeedMms s).mhits = s.mhits ∧ (adjustSeedMms s).msample = s.msample := by
  unfold adjustSeedMms
  split <;> simp

theorem adjustGapBarrier_frame (s : Globals) :
    (adjustGapBarrier s).skipReads = s.skipReads ∧ (adjustGapBarrier s).qUpto = s.qUpto
    ∧ (adjustGapBarrier s).multiseedMms = s.multiseedMms
    ∧ (adjustGapBarrier s).multiseedLen = s.multiseedLen
    ∧ (adjustGapBarrier s).allHits = s.allHits ∧ (adjustGapBarrier s).khits = s.khits
    ∧ (adjustGapBarrier s).mhits = s.mhits ∧ (adjustGapBarrier s).msample = s.msample := by
  unfold adjustGapBarrier
  simp only []
  split <;> split <;> simp

theorem adjustMm_frame (s : Globals) :
    (adjustMm s).skipReads = s.skipReads ∧ (adjustMm s).qUpto = s.qUpto
    ∧ (adjustMm s).multiseedMms = s.multiseedMms
    ∧ (adjustMm s).multiseedLen = s.multiseedLen
    ∧ (adjustMm s).allHits = s.allHits ∧ (adjustMm s).khits = s.khits
    ∧ (adjustMm s).mhits = s.mhits ∧ (adjustMm s).msample = s.msample := by
  unfold adjustMm
  split <;> simp

theorem adjustQUpto_frame (s : Globals) :
    (adjustQUpto s).skipReads = s.skipReads
    ∧ (adjustQUpto s).qUpto
        = (if u32 (s.qUpto + s.skipReads) > s.qUpto then u32 (s.qUpto + s.skipReads)
            else s.qUpto)
    ∧ (adjustQUpto s).multiseedMms = s.multiseedMms
    ∧ (adjustQUpto s).multiseedLen = s.multiseedLen
    ∧ (adjustQUpto s).allHits = s.allHits ∧ (adjustQUpto s).khits = s.khits
    ∧ (adjustQUpto s).mhits = s.mhits ∧ (adjustQUpto s).msample = s.msample := by
  unfold adjustQUpto
  split <;> simp_all

theorem adjust_frame (s : Globals) :
    (adjustSeedMms (adjustGapBarrier (adjustMm (adjustQUpto s)))).skipReads = s.skipReads
    ∧ (adjustSeedMms (adjustGapBarrier (adjustMm (adjustQUpto s)))).qUpto
        = (if u32 (s.qUpto + s.skipReads) > s.qUpto then u32 (s.qUpto + s.skipReads)
            else s.qUpto) := by
  rw [(adjustSeedMms_frame _).1, (adjustSeedMms_frame _).2.1, (adjustGapBarrier_frame _).1,
    (adjustGapBarrier_frame _).2.1, (adjustMm_frame _).1, (adjustMm_frame _).2.1,
    (adjustQUpto_frame _).1, (adjustQUpto_frame _).2.1]
  exact ⟨rfl, rfl⟩

theorem parseOptionsChecks_window (s s' : Globals) (h : parseOptionsChecks s = .ok s') :
    s'.skipReads = s.skipReads
    ∧ s'.qUpto = (if u32 (s.qUpto + s.skipReads) > s.qUpto then u32 (s.qUpto + s.skipReads)
        else s.qUpto) := by
  unfold parseOptionsChecks at h
  simp only [] at h
  split at h
  · exact absurd h (throwAt_ne_ok _ _ _)
  · injection h with h
    subst h
    have := adjust_frame (parseOptionsMode s)
    have hm := parseOptionsMode_frame s
    rw [hm.1, hm.2.1] at this
    exact this

theorem window_some (S U p : Nat) (hS : S ≤ 2 ^ 31 - 1) (hU1 : 1 ≤ U) (hU : U ≤ 2 ^ 31 - 1) :
    (S ≤ p ∧ p < (if u32 (U + S) > U then u32 (U + S) else U)) ↔ (S ≤ p ∧ p < S + U) := by
  unfold u32
  have h : (U + S) % 2 ^ 32 = U + S := Nat.mod_eq_of_lt (by omega)
  rw [h]
  split <;> omega

theorem window_none (S p : Nat) :
    (S ≤ p ∧ p < (if u32 (0xffffffff + S) > 0xffffffff then u32 (0xffffffff + S)
      else 0xffffffff)) ↔ (S ≤ p ∧ p < 2 ^ 32 - 1) := by
  unfold u32
  have h : ¬ ((0xffffffff + S) % 2 ^ 32 > 0xffffffff) := by omega
  rw [if_neg h]
  omega

theorem mem_presetsOpts (ext : Ext) (l : List String) (e : NextOption × String)
    (h : e ∈ presetsOpts ext l) : ∃ n, e ∈ (ext.presetsApply n).2 := by
  unfold presetsOpts at h
  rw [List.mem_flatten] at h
  obtain ⟨x, hx, he⟩ := h
  rw [List.mem_map] at hx
  obtain ⟨n, _, rfl⟩ := hx
  exact ⟨n, he⟩

theorem parseOptionsInit_fields (g : Globals) :
    (parseOptionsInit g).skipReads = g.skipReads ∧ (parseOptionsInit g).qUpto = g.qUpto
    ∧ (parseOptionsInit g).extra_opts = g.extra_opts
    ∧ (parseOptionsInit g).extra_opts_cur = g.extra_opts_cur
    ∧ (parseOptionsInit g).localAlign = g.localAlign
    ∧ (parseOptionsInit g).presetList = []
    ∧ (parseOptionsInit g).polstr = g.polstr
    ∧ (parseOptionsInit g).defaultPreset = g.defaultPreset := by
  simp [parseOptionsInit]

theorem parseOptionsPre_window (ext : Ext) (opts : List GetoptResult) (g s : Globals)
    (hx : ∀ n, ∀ e ∈ (ext.presetsApply n).2, e.1 ≠ .ch_s ∧ e.1 ≠ .ch_u)
    (h : parseOptionsPre ext opts (resetOptions ext g) = .ok s) :
    s.skipReads = skipGiven opts ∧ s.skipReads ≤ 2 ^ 31 - 1
    ∧ UptoInv (uptoGiven opts) s.qUpto := by
  unfold parseOptionsPre at h
  obtain ⟨s1, h1, h⟩ := bind_ok _ _ _ h
  have hi := parseOptionsInit_fields (resetOptions ext g)
  obtain ⟨e1, e2, e3, e4, e5⟩ := getopt_skip_upto ext opts _ s1 none h1
    (by rw [hi.1]; simp [resetOptions]) (by rw [hi.2.1]; simp [UptoInv, resetOptions])
  have hnil : s1.extra_opts = [] := by rw [e4, hi.2.2.1]; rfl
  rw [hnil, List.drop_nil, parseOptionsEOF_nil] at h
  obtain ⟨s2, h2, h⟩ := bind_ok _ _ _ h
  simp only [Except.ok.injEq] at h2
  subst h2
  obtain ⟨s3, h3, h⟩ := bind_ok _ _ _ h
  simp only [pure, Except.pure, Except.ok.injEq] at h
  subst h
  have hI := parseOptionsExtra_inv ext
    (fun t => t.skipReads = s1.skipReads ∧ t.qUpto = s1.qUpto)
    (fun o => o = .ch_s ∨ o = .ch_u)
    (by
      intro o a t t' hP ht hIt
      have hf := parseOption_frame _ _ _ _ _ ht
      rw [hf.skipReads (fun hc => hP (Or.inl hc)), hf.qUpto (fun hc => hP (Or.inr hc))]
      exact hIt)
    _ _ s3 h3
    (by
      intro e he
      rw [parseOptionsPresets_eq] at he
      simp only [hnil, List.nil_append] at he
      obtain ⟨n, hn⟩ := mem_presetsOpts _ _ _ he
      have := hx n e hn
      intro hc
      rcases hc with hc | hc
      · exact this.1 hc
      · exact this.2 hc)
    (by rw [parseOptionsPresets_eq]; exact ⟨rfl, rfl⟩)
  have k1 : (parseOptionsStrip s3).skipReads = s3.skipReads := rfl
  have k2 : (parseOptionsStrip s3).qUpto = s3.qUpto := rfl
  rw [k1, k2, hI.1, hI.2]
  refine ⟨?_, e2, ?_⟩
  · rw [e1, hi.1]
    rfl
  · exact e3

/-- C1: the read window of `-s`/`-u`.  For every command line that
`parseOptions` accepts, with S the number given with the last `-s` (0 without
`-s`; `parseInt` has accepted it, so S <= 2^31-1): when a limit U is given with
`-u` (then 1 <= U <= 2^31-1) the test of line 2300 holds for the read id `p`
exactly when S <= p < S+U, and without `-u` exactly when S <= p < 2^32-1.  A
read that the worker is delivered is aligned when the test holds and is not
aligned when it fails.  The presets are assumed not to add `-s` or `-u`
options of their own. -/
theorem C1_read_window (ext : Ext) (opts : List GetoptResult) (g g' : Globals) (p : Nat)
    (hx : ∀ n, ∀ e ∈ (ext.presetsApply n).2, e.1 ≠ .ch_s ∧ e.1 ≠ .ch_u)
    (h : parseOptions ext opts (resetOptions ext g) = .ok g') :
    skipGiven opts ≤ 2 ^ 31 - 1
    ∧ (match uptoGiven opts with
      | some U => 1 ≤ U ∧ U ≤ 2 ^ 31 - 1
          ∧ (inWindow g' p = true ↔ skipGiven opts ≤ p ∧ p < skipGiven opts + U)
      | none => (inWindow g' p = true ↔ skipGiven opts ≤ p ∧ p < 2 ^ 32 - 1))
    ∧ (∀ (a : WorkerArgs) (o : ReadOracle) (rest : List ReadOracle) (w : WorkerState),
        o.success = true → o.patid = p →
        workerLoop g' a (o :: rest) w =
          if inWindow g' p then workerLoop g' a rest (alignRead g' o (mergeStep g' a o w))
          else if p ≥ g'.qUpto then MERGE_METRICS w
          else workerLoop g' a rest w) := by
  unfold parseOptions at h
  obtain ⟨s, hs, h⟩ := bind_ok _ _ _ h
  obtain ⟨pol, _, h⟩ := bind_ok _ _ _ h
  obtain ⟨w1, w2, w3⟩ := parseOptionsPre_window ext opts g s hx hs
  obtain ⟨c1, c2⟩ := parseOptionsChecks_window _ _ h
  have k1 : (setPolicy s pol).skipReads = s.skipReads := rfl
  have k2 : (setPolicy s pol).qUpto = s.qUpto := rfl
  rw [k1, k2] at c2
  rw [k1] at c1
  have hin : inWindow g' p = true ↔ (g'.skipReads ≤ p ∧ p < g'.qUpto) := by
    simp [inWindow]
  refine ⟨w1 ▸ w2, ?_, ?_⟩
  · rw [hin, c1, c2, w1] at *
    cases hU : uptoGiven opts with
    | none =>
      rw [hU] at w3
      simp only [UptoInv] at w3
      simp only []
      rw [w3]
      exact window_none _ _
    | some U =>
      rw [hU] at w3
      simp only [UptoInv] at w3
      obtain ⟨q1, q2, q3⟩ := w3
      simp only []
      rw [q1]
      exact ⟨q2, q3, window_some _ _ _ w2 q2 q3⟩
  · intro a o rest w hsucc hp
    subst hp
    simp [workerLoop, hsucc]

theorem ok_of_thrownOf_none (r : Res) (h : thrownOf r = none) : r = .ok (globalsOf r) := by
  cases r with
  | ok g => rfl
  | error e => simp [thrownOf] at h

theorem presetsV0_no_opts (n : String) : (presetsV0 n).2 = [] := by
  unfold presetsV0
  repeat' split
  all_goals rfl

theorem C1_read_window_witness :
    thrownOf (parseOptions extV0 [shortOpt .ch_s "3", shortOpt .ch_u "5"]
      (resetOptions extV0 globals0)) = none
    ∧ skipGiven [shortOpt .ch_s "3", shortOpt .ch_u "5"] ≤ 2 ^ 31 - 1
    ∧ (match uptoGiven [shortOpt .ch_s "3", shortOpt .ch_u "5"] with
      | some U => 1 ≤ U ∧ U ≤ 2 ^ 31 - 1
          ∧ (inWindow (globalsOf (parseOptions extV0 [shortOpt .ch_s "3", shortOpt .ch_u "5"]
                (resetOptions extV0 globals0))) 4 = true
              ↔ skipGiven [shortOpt .ch_s "3", shortOpt .ch_u "5"] ≤ 4
                ∧ 4 < skipGiven [shortOpt .ch_s "3", shortOpt .ch_u "5"] + U)
      | none => (inWindow (globalsOf (parseOptions extV0 [shortOpt .ch_s "3", shortOpt .ch_u "5"]
                (resetOptions extV0 globals0))) 4 = true
              ↔ skipGiven [shortOpt .ch_s "3", shortOpt .ch_u "5"] ≤ 4 ∧ 4 < 2 ^ 32 - 1)) :=
  have h : thrownOf (parseOptions extV0 [shortOpt .ch_s "3", shortOpt .ch_u "5"]
      (resetOptions extV0 globals0)) = none := by decide
  have c := C1_read_window extV0 [shortOpt .ch_s "3", shortOpt .ch_u "5"] globals0
    (globalsOf (parseOptions extV0 [shortOpt .ch_s "3", shortOpt .ch_u "5"]
      (resetOptions extV0 globals0))) 4
    (by
      intro n e he
      have : (extV0.presetsApply n).2 = [] := presetsV0_no_opts n
      rw [this] at he
      cases he)
    (ok_of_thrownOf_none _ h)
  ⟨h, c.1, c.2.1⟩

/-! ## Reporting options -/

/-- C2: the reporting options are not last-wins in the code.  On `-k 3 -M 5`
the worker builds top-3 parameters (`msample = false`, `mhits = 0`, hit limit 3)
although `-M` is last; on `-a -k 3` the hit limit is the maximum `THitInt`
although `-k 3` is last; on `-a -M 5` the parameters are those of `-a`. -/
theorem C2_reporting_not_last_wins :
    (parseOptions extV0 [shortOpt .ch_k "3", shortOpt .ch_M "5"]
        (resetOptions extV0 globals0)).toOption.map (workerRp extV0)
      = some { khits := 3, mhits := 0, pengap := 0, msample := false,
               discord := true, mixed := true }
    ∧ (parseOptions extV0 [shortOpt .ch_a "", shortOpt .ch_k "3"]
        (resetOptions extV0 globals0)).toOption.map (workerRp extV0)
      = some { khits := 2 ^ 63 - 1, mhits := 0, pengap := 0, msample := false,
               discord := true, mixed := true }
    ∧ (parseOptions extV0 [shortOpt .ch_a "", shortOpt .ch_M "5"]
        (resetOptions extV0 globals0)).toOption.map (workerRp extV0)
      = some { khits := 2 ^ 63 - 1, mhits := 0, pengap := 0, msample := false,
               discord := true, mixed := true } := by
  decide

/-! ## Seed mismatches against seed length -/

theorem adjustSeedMms_seed (s : Globals) :
    (adjustSeedMms s).multiseedLen = s.multiseedLen
    ∧ (adjustSeedMms s).multiseedMms =
        (if s.multiseedMms ≥ s.multiseedLen then s.multiseedLen - 1 else s.multiseedMms) := by
  unfold adjustSeedMms
  split <;> simp

/-- C6: `bowtie` does not return 0 for `--version`.  The row of `long_options`
has a flag pointer, so `getopt_long` stores 1 in `showVersion` and returns 0;
`parseOption` has no `case` for 0, its `default` throws 1, and `bowtie` returns
1 before it looks at `showVersion`.  This holds for every environment, argument
vector and prior state of the globals. -/
theorem C6_version_exit_code (ext : Ext) (argv rest : List String) (g : Globals) :
    longOpt "version" "" = ⟨some (.showVersion, 1), .zero, ""⟩
    ∧ (bowtie ext ⟨argv, [longOpt "version" ""], rest⟩ g).1 = some 1 := by
  constructor
  · decide
  · have h : longOpt "version" "" = ⟨some (.showVersion, 1), .zero, ""⟩ := by decide
    rw [h]
    rfl

/-! ## The worker: same-read short-circuit and length filter -/

/-- C10: when `msinkwrap.nextRead` returns -1 the worker adds 1 to `reads` and
`srreads` and the total length of the read or pair to `bases` and `srbases` (in
64-bit unsigned arithmetic), leaves the filtered and unfiltered counters, the
filter flags and the exhaustion flags as they were, makes no call of the filter,
seed or extension stages, and calls `finishRead` with the flags left by the
previous read. -/
theorem C10_same_read_short_circuit (g : Globals) (o : ReadOracle) (w : WorkerState)
    (h : o.skipStages = -1) :
    alignRead g o w =
      { w with
        olm := { w.olm with
          reads := u64 (w.olm.reads + 1)
          bases := u64 (w.olm.bases + u64 ((rdlensOf o).e0 + (rdlensOf o).e1))
          srreads := u64 (w.olm.srreads + 1)
          srbases := u64 (w.olm.srbases + u64 ((rdlensOf o).e0 + (rdlensOf o).e1)) }
        trace := w.trace ++ [.nextRead o.patid,
          .finishRead false w.exhaustive w.nfilt w.scfilt w.lenfilt w.qcfilt] }
    ∧ (rdlensOf o).e0 + (rdlensOf o).e1
        = o.bufa.length + (if o.paired then o.bufb.length else 0)
    ∧ (alignRead g o w).olm.freads = w.olm.freads
    ∧ (alignRead g o w).olm.fbases = w.olm.fbases
    ∧ (alignRead g o w).olm.ureads = w.olm.ureads
    ∧ (alignRead g o w).olm.ubases = w.olm.ubases
    ∧ Extends (fun e => e.isStageWork = false) w (alignRead g o w) := by
  have e : alignRead g o w =
      { w with
        olm := { w.olm with
          reads := u64 (w.olm.reads + 1)
          bases := u64 (w.olm.bases + u64 ((rdlensOf o).e0 + (rdlensOf o).e1))
          srreads := u64 (w.olm.srreads + 1)
          srbases := u64 (w.olm.srbases + u64 ((rdlensOf o).e0 + (rdlensOf o).e1)) }
        trace := w.trace ++ [.nextRead o.patid,
          .finishRead false w.exhaustive w.nfilt w.scfilt w.lenfilt w.qcfilt] } := by
    unfold alignRead
    simp [h, finishRead, countRead, countSameRead, WorkerState.log]
  refine ⟨e, rfl, ?_, ?_, ?_, ?_, ?_⟩
  · rw [e]
  · rw [e]
  · rw [e]
  · rw [e]
  · refine ⟨[.nextRead o.patid,
      .finishRead false w.exhaustive w.nfilt w.scfilt w.lenfilt w.qcfilt], ?_, ?_⟩
    · rw [e]
    · intro x hx
      simp only [List.mem_cons, List.mem_singleton, List.not_mem_nil, or_false] at hx
      rcases hx with rfl | rfl <;> rfl

theorem C10_same_read_short_circuit_witness :
    (oracleV0 false 30 0 (-1) false).skipStages = -1
    ∧ (alignRead (resetOptions extV0 globals0) (oracleV0 false 30 0 (-1) false)
        (WorkerState.init OuterLoopMetrics.reset)).olm.freads
        = (WorkerState.init OuterLoopMetrics.reset).olm.freads
    ∧ Extends (fun e => e.isStageWork = false) (WorkerState.init OuterLoopMetrics.reset)
        (alignRead (resetOptions extV0 globals0) (oracleV0 false 30 0 (-1) false)
          (WorkerState.init OuterLoopMetrics.reset)) :=
  have c := C10_same_read_short_circuit (resetOptions extV0 globals0)
    (oracleV0 false 30 0 (-1) false) (WorkerState.init OuterLoopMetrics.reset) (by decide)
  ⟨by decide, c.2.2.1, c.2.2.2.2.2.2⟩

theorem Extends.extRefl (Q : Event → Prop) (w : WorkerState) : Extends Q w w :=
  ⟨[], by simp, by simp⟩

theorem Extends.extTrans {Q : Event → Prop} {w1 w2 w3 : WorkerState}
    (h1 : Extends Q w1 w2) (h2 : Extends Q w2 w3) : Extends Q w1 w3 := by
  obtain ⟨e1, t1, q1⟩ := h1
  obtain ⟨e2, t2, q2⟩ := h2
  refine ⟨e1 ++ e2, by rw [t2, t1, List.append_assoc], ?_⟩
  intro e he
  rcases List.mem_append.mp he with h | h
  · exact q1 e h
  · exact q2 e h

theorem Extends.extLog (Q : Event → Prop) (w : WorkerState) (e : Event) (h : Q e) :
    Extends Q w (w.log e) :=
  ⟨[e], rfl, by simpa using h⟩

theorem Extends.of_trace {Q : Event → Prop} {w1 w2 w3 : WorkerState}
    (h : Extends Q w1 w2) (ht : w3.trace = w2.trace) : Extends Q w1 w3 := by
  obtain ⟨e1, t1, q1⟩ := h
  exact ⟨e1, by rw [ht, t1], q1⟩

theorem Extends.mono {Q R : Event → Prop} {w1 w2 : WorkerState} (h : Extends Q w1 w2)
    (hQR : ∀ e, Q e → R e) : Extends R w1 w2 := by
  obtain ⟨e1, t1, q1⟩ := h
  exact ⟨e1, t1, fun e he => hQR e (q1 e he)⟩

theorem FilterFrame.ffRefl (w : WorkerState) : FilterFrame w w :=
  ⟨rfl, rfl, rfl, rfl, Extends.extRefl _ w⟩

theorem FilterFrame.ffTrans {w1 w2 w3 : WorkerState} (h1 : FilterFrame w1 w2)
    (h2 : FilterFrame w2 w3) : FilterFrame w1 w3 :=
  ⟨h2.olm.trans h1.olm, h2.olmu.trans h1.olmu, h2.exhaustive.trans h1.exhaustive,
    h2.mergei.trans h1.mergei, h1.trace.extTrans h2.trace⟩

theorem mmsSkip_spec (g : Globals) (paired mate1 : Bool) (i : Nat) (w : WorkerState) :
    (mmsSkip g paired mate1 i w).lenfilt = w.lenfilt.set i false
    ∧ FilterFrame w (mmsSkip g paired mate1 i w) := by
  unfold mmsSkip
  simp only []
  split
  · exact ⟨rfl, rfl, rfl, rfl, rfl, [.printMmsSkipMsg paired mate1], rfl,
      by simp [Event.isFilterWork]⟩
  · exact ⟨rfl, rfl, rfl, rfl, rfl, [], by simp, by simp⟩

theorem colorLenSkip_spec (paired mate1 : Bool) (i : Nat) (w : WorkerState) :
    (colorLenSkip paired mate1 i w).lenfilt = w.lenfilt.set i false
    ∧ FilterFrame w (colorLenSkip paired mate1 i w) :=
  ⟨rfl, rfl, rfl, rfl, rfl, [.printColorLenSkipMsg paired mate1], rfl,
    by simp [Event.isFilterWork]⟩

theorem ite_skip_spec (c : Prop) [Decidable c] (f : WorkerState → WorkerState) (i : Nat)
    (hf : ∀ w, (f w).lenfilt = w.lenfilt.set i false ∧ FilterFrame w (f w))
    (w : WorkerState) :
    (if c then f w else w).lenfilt = (if c then w.lenfilt.set i false else w.lenfilt)
    ∧ FilterFrame w (if c then f w else w) := by
  split
  · exact hf w
  · exact ⟨rfl, FilterFrame.ffRefl w⟩

theorem lenfiltOf_spec (g : Globals) (paired : Bool) (rdlens : Arr2 Nat) (w : WorkerState) :
    (lenfiltOf g paired rdlens w).lenfilt =
      ⟨!decide (rdlens.e0 ≤ toSizeT g.multiseedMms
          ∨ (g.gColor = true ∧ g.gColorExEnds = true ∧ rdlens.e0 < 2)),
       !decide (paired = true ∧ (rdlens.e1 ≤ toSizeT g.multiseedMms
          ∨ (g.gColor = true ∧ g.gColorExEnds = true ∧ rdlens.e1 < 2)))⟩
    ∧ FilterFrame w (lenfiltOf g paired rdlens w) := by
  unfold lenfiltOf
  simp only []
  have f0 : FilterFrame w { w with lenfilt := ⟨true, true⟩ } :=
    ⟨rfl, rfl, rfl, rfl, [], by simp, by simp⟩
  have s1 := ite_skip_spec (rdlens.e0 ≤ toSizeT g.multiseedMms) (mmsSkip g paired true 0) 0
    (mmsSkip_spec g paired true 0) { w with lenfilt := ⟨true, true⟩ }
  have s2 := ite_skip_spec (rdlens.e1 ≤ toSizeT g.multiseedMms ∧ paired = true)
    (mmsSkip g paired false 1) 1 (mmsSkip_spec g paired false 1)
    (if rdlens.e0 ≤ toSizeT g.multiseedMms then
      mmsSkip g paired true 0 { w with lenfilt := ⟨true, true⟩ }
     else { w with lenfilt := ⟨true, true⟩ })
  split
  · have s3 := fun v => ite_skip_spec (rdlens.e0 < 2) (colorLenSkip paired true 0) 0
      (colorLenSkip_spec paired true 0) v
    have s4 := fun v => ite_skip_spec (rdlens.e1 < 2 ∧ paired = true)
      (colorLenSkip paired false 1) 1 (colorLenSkip_spec paired false 1) v
    refine ⟨?_, f0.ffTrans (s1.2.ffTrans (s2.2.ffTrans ((s3 _).2.ffTrans (s4 _).2)))⟩
    rw [(s4 _).1, (s3 _).1, s2.1, s1.1]
    rename_i hc
    by_cases c1 : rdlens.e0 ≤ toSizeT g.multiseedMms <;>
      by_cases c2 : rdlens.e1 ≤ toSizeT g.multiseedMms <;>
      by_cases c3 : rdlens.e0 < 2 <;> by_cases c4 : rdlens.e1 < 2 <;>
      cases paired <;> simp [Arr2.set, c1, c2, c3, c4, hc.1, hc.2]
  · refine ⟨?_, f0.ffTrans (s1.2.ffTrans s2.2)⟩
    rw [s2.1, s1.1]
    rename_i hc
    clear s1 s2 f0
    have hc2 : ¬ (g.gColor = true ∧ g.gColorExEnds = true) := hc
    have k0 : ¬ (g.gColor = true ∧ g.gColorExEnds = true ∧ rdlens.e0 < 2) :=
      fun h => hc2 ⟨h.1, h.2.1⟩
    have k1 : ¬ (g.gColor = true ∧ g.gColorExEnds = true ∧ rdlens.e1 < 2) :=
      fun h => hc2 ⟨h.1, h.2.1⟩
    by_cases c1 : rdlens.e0 ≤ toSizeT g.multiseedMms <;>
      by_cases c2 : rdlens.e1 ≤ toSizeT g.multiseedMms <;>
      cases paired <;> simp [Arr2.set, c1, c2, k0, k1]

theorem filterRead_spec (g : Globals) (o : ReadOracle) (rdlens : Arr2 Nat) (w : WorkerState) :
    (filterRead g o rdlens w).lenfilt = (lenfiltOf g o.paired rdlens w).lenfilt
    ∧ (filterRead g o rdlens w).filt =
        ⟨(filterRead g o rdlens w).nfilt.e0 && (filterRead g o rdlens w).scfilt.e0
            && (filterRead g o rdlens w).lenfilt.e0 && (filterRead g o rdlens w).qcfilt.e0,
         (filterRead g o rdlens w).nfilt.e1 && (filterRead g o rdlens w).scfilt.e1
            && (filterRead g o rdlens w).lenfilt.e1 && (filterRead g o rdlens w).qcfilt.e1⟩
    ∧ FilterFrame w (filterRead g o rdlens w) := by
  have l1 := fun v => lenfiltOf_spec g o.paired rdlens v
  have a1 : FilterFrame w (nfiltOf o w) :=
    ⟨rfl, rfl, rfl, rfl, [.nFilterPair], rfl, by simp [Event.isFilterWork]⟩
  have a2 : ∀ v, FilterFrame v (scfiltOf o v) :=
    fun v => ⟨rfl, rfl, rfl, rfl, [.scoreFilter 0, .scoreFilter 1],
      by simp [scfiltOf, WorkerState.log], by simp [Event.isFilterWork]⟩
  have a3 : ∀ v, FilterFrame v (qcfiltOf g o v) ∧ (qcfiltOf g o v).lenfilt = v.lenfilt := by
    intro v
    unfold qcfiltOf
    simp only []
    split
    · exact ⟨⟨rfl, rfl, rfl, rfl, Extends.extRefl _ _⟩, rfl⟩
    · exact ⟨⟨rfl, rfl, rfl, rfl, Extends.extRefl _ _⟩, rfl⟩
  have a4 : ∀ v, FilterFrame v (filtOf v) :=
    fun v => ⟨rfl, rfl, rfl, rfl, Extends.extRefl _ _⟩
  refine ⟨?_, rfl, ?_⟩
  · show (qcfiltOf g o (lenfiltOf g o.paired rdlens (scfiltOf o (nfiltOf o w)))).lenfilt = _
    rw [(a3 _).2, (l1 _).1, (l1 w).1]
  · exact a1.ffTrans ((a2 _).ffTrans ((l1 _).2.ffTrans ((a3 _).1.ffTrans (a4 _))))

theorem mateBody_filtered (g : Globals) (o : ReadOracle) (rdlens : Arr2 Nat) (matei mate : Nat)
    (w : WorkerState) (h : w.filt.get mate = false) :
    mateBody g o rdlens matei mate w = (countFiltered rdlens mate w, false) := by
  unfold mateBody
  rw [if_pos (by simp [h])]

theorem seedWorkFor_ne (mate m : Nat) (h : m ≠ mate) (e : Event)
    (he : (∃ i a b, e = .instantiateSeeds mate i a b) ∨ e = .searchAllSeeds mate
      ∨ (∃ f i a b, e = .extendSeedsPaired mate f i a b) ∨ (∃ i, e = .extendSeeds mate i)) :
    e.seedWorkFor m = false := by
  rcases he with ⟨i, a, b, rfl⟩ | rfl | ⟨f, i, a, b, rfl⟩ | ⟨i, rfl⟩ <;>
    simp [Event.seedWorkFor, Ne.symm h]

theorem MateFrame.mfRefl (mate : Nat) (w : WorkerState) : MateFrame mate w w :=
  ⟨rfl, rfl, rfl, rfl, rfl, Extends.extRefl _ w⟩

theorem MateFrame.mfTrans {mate : Nat} {w1 w2 w3 : WorkerState} (h1 : MateFrame mate w1 w2)
    (h2 : MateFrame mate w2 w3) : MateFrame mate w1 w3 :=
  ⟨h2.filt.trans h1.filt, h2.nfilt.trans h1.nfilt, h2.scfilt.trans h1.scfilt,
    h2.lenfilt.trans h1.lenfilt, h2.qcfilt.trans h1.qcfilt, h1.trace.extTrans h2.trace⟩

theorem MateFrame.mfLog (mate : Nat) (w : WorkerState) (e : Event)
    (he : (∃ i a b, e = .instantiateSeeds mate i a b) ∨ e = .searchAllSeeds mate
      ∨ (∃ f i a b, e = .extendSeedsPaired mate f i a b) ∨ (∃ i, e = .extendSeeds mate i)) :
    MateFrame mate w (w.log e) :=
  ⟨rfl, rfl, rfl, rfl, rfl,
    Extends.extLog _ w e (fun m hm => seedWorkFor_ne mate m hm e he)⟩

theorem extendStage_frame (o : ReadOracle) (matei mate : Nat) (interval : Int)
    (nofw norc : Bool) (w : WorkerState) :
    MateFrame mate w (extendStage o matei mate interval nofw norc w).1 := by
  unfold extendStage
  simp only []
  split
  · have h := MateFrame.mfLog mate w
      (.extendSeedsPaired mate (!w.filt.get (mate ^^^ 1)) interval nofw norc)
      (Or.inr (Or.inr (Or.inl ⟨_, _, _, _, rfl⟩)))
    exact ⟨h.filt, h.nfilt, h.scfilt, h.lenfilt, h.qcfilt, h.trace.of_trace rfl⟩
  · have h := MateFrame.mfLog mate w (.extendSeeds mate interval)
      (Or.inr (Or.inr (Or.inr ⟨_, rfl⟩)))
    exact ⟨h.filt, h.nfilt, h.scfilt, h.lenfilt, h.qcfilt, h.trace.of_trace rfl⟩

theorem seedStage_frame (g : Globals) (o : ReadOracle) (matei mate : Nat) (interval : Int)
    (nofw norc : Bool) (w : WorkerState) :
    MateFrame mate w (seedStage g o matei mate interval nofw norc w).1 := by
  have h1 := MateFrame.mfLog mate w (.instantiateSeeds mate interval nofw norc)
    (Or.inl ⟨_, _, _, rfl⟩)
  have h2 := MateFrame.mfLog mate (w.log (.instantiateSeeds mate interval nofw norc))
    (.searchAllSeeds mate) (Or.inr (Or.inl rfl))
  unfold seedStage
  simp only []
  split
  · exact h1
  · split
    · split
      · exact h1.mfTrans h2
      · exact (h1.mfTrans h2).mfTrans (extendStage_frame o matei mate interval nofw norc _)
    · exact h1.mfTrans h2

theorem mateBody_frame (g : Globals) (o : ReadOracle) (rdlens : Arr2 Nat) (matei mate : Nat)
    (w : WorkerState) : MateFrame mate w (mateBody g o rdlens matei mate w).1 := by
  have c0 : MateFrame mate w (countUnfiltered rdlens mate w) :=
    ⟨rfl, rfl, rfl, rfl, rfl, (Extends.extRefl _ w).of_trace rfl⟩
  unfold mateBody
  split
  · exact ⟨rfl, rfl, rfl, rfl, rfl, (Extends.extRefl _ w).of_trace rfl⟩
  · simp only []
    split
    · exact c0
    · exact c0.mfTrans (seedStage_frame g o matei mate _ _ _ _)

theorem alignRead_eq (g : Globals) (o : ReadOracle) (w : WorkerState) (h : o.skipStages ≠ -1) :
    alignRead g o w =
      finishRead true (mateLoop g o (rdlensOf o) (matemapOf o)
        (enterMateLoop g o ((countRead o w).log (.nextRead o.patid)))) := by
  unfold alignRead
  simp only []
  rw [if_neg h]

theorem matemapOf_cases (o : ReadOracle) :
    (matemapOf o = ⟨0, 1⟩ ∨ (o.paired = true ∧ matemapOf o = ⟨1, 0⟩)) := by
  unfold matemapOf
  split
  · rename_i hc
    exact Or.inr ⟨hc.1, rfl⟩
  · exact Or.inl rfl

theorem mateLoop_frame (g : Globals) (o : ReadOracle) (rdlens matemap : Arr2 Nat)
    (w : WorkerState) :
    (mateLoop g o rdlens matemap w).lenfilt = w.lenfilt
    ∧ (mateLoop g o rdlens matemap w).filt = w.filt
    ∧ (mateLoop g o rdlens matemap w).nfilt = w.nfilt
    ∧ (mateLoop g o rdlens matemap w).scfilt = w.scfilt
    ∧ (mateLoop g o rdlens matemap w).qcfilt = w.qcfilt := by
  have f0 := mateBody_frame g o rdlens 0 matemap.e0 w
  have f1 := mateBody_frame g o rdlens 1 matemap.e1 (mateBody g o rdlens 0 matemap.e0 w).1
  unfold mateLoop
  simp only []
  split
  · exact ⟨f0.lenfilt, f0.filt, f0.nfilt, f0.scfilt, f0.qcfilt⟩
  · exact ⟨f1.lenfilt.trans f0.lenfilt, f1.filt.trans f0.filt, f1.nfilt.trans f0.nfilt,
      f1.scfilt.trans f0.scfilt, f1.qcfilt.trans f0.qcfilt⟩

theorem alignRead_lenfilt (g : Globals) (o : ReadOracle) (w : WorkerState)
    (h : o.skipStages ≠ -1) :
    (alignRead g o w).lenfilt = (lenfiltOf g o.paired (rdlensOf o) w).lenfilt
    ∧ (alignRead g o w).filt =
        (filterRead g o (rdlensOf o) ((countRead o w).log (.nextRead o.patid))).filt := by
  rw [alignRead_eq g o w h]
  have e1 : ∀ v, (finishRead true v).lenfilt = v.lenfilt ∧ (finishRead true v).filt = v.filt :=
    fun v => ⟨rfl, rfl⟩
  have e2 := mateLoop_frame g o (rdlensOf o) (matemapOf o)
    (enterMateLoop g o ((countRead o w).log (.nextRead o.patid)))
  have e3 : ∀ v, (enterMateLoop g o v).lenfilt = (filterRead g o (rdlensOf o) v).lenfilt
      ∧ (enterMateLoop g o v).filt = (filterRead g o (rdlensOf o) v).filt :=
    fun v => ⟨rfl, rfl⟩
  rw [(e1 _).1, (e1 _).2, e2.1, e2.2.1, (e3 _).1, (e3 _).2, (filterRead_spec g o _ _).1,
    (lenfiltOf_spec g o.paired _ _).1, (lenfiltOf_spec g o.paired _ w).1]
  exact ⟨rfl, rfl⟩

theorem not_decide_eq_false (P : Prop) [Decidable P] : (!decide P) = false ↔ P := by
  by_cases h : P <;> simp [h]

theorem mateLoop_first (g : Globals) (o : ReadOracle) (rdlens matemap : Arr2 Nat)
    (m : Nat) (w : WorkerState) (hf : w.filt.get m = false) (hm : matemap.e0 = m) :
    mateLoop g o rdlens matemap w
      = (mateBody g o rdlens 1 matemap.e1 (countFiltered rdlens m w)).1 := by
  unfold mateLoop
  simp only []
  rw [hm, mateBody_filtered g o rdlens 0 m w hf]
  simp

theorem mateLoop_second (g : Globals) (o : ReadOracle) (rdlens matemap : Arr2 Nat)
    (m : Nat) (w : WorkerState) (hf : w.filt.get m = false) (hm : matemap.e1 = m)
    (hb : (mateBody g o rdlens 0 matemap.e0 w).2 = false) :
    mateLoop g o rdlens matemap w
      = countFiltered rdlens m (mateBody g o rdlens 0 matemap.e0 w).1 := by
  unfold mateLoop
  simp only []
  rw [hb]
  simp only [Bool.false_eq_true, ↓reduceIte]
  rw [hm, mateBody_filtered g o rdlens 1 m _
    (by rw [(mateBody_frame g o rdlens 0 matemap.e0 w).filt]; exact hf)]

theorem mateLoop_trace (g : Globals) (o : ReadOracle) (rdlens : Arr2 Nat) (a b m : Nat)
    (w : WorkerState) (hab : a ≠ b) (hm : m = a ∨ m = b) (hf : w.filt.get m = false) :
    Extends (fun e => e.seedWorkFor m = false) w (mateLoop g o rdlens ⟨a, b⟩ w) := by
  have f0 := mateBody_frame g o rdlens 0 a w
  rcases hm with rfl | rfl
  · rw [mateLoop_first g o rdlens ⟨m, b⟩ m w hf rfl]
    obtain ⟨evs, ht, hq⟩ := (mateBody_frame g o rdlens 1 b (countFiltered rdlens m w)).trace
    exact ⟨evs, ht, fun e he => hq e he m hab⟩
  · by_cases hb : (mateBody g o rdlens 0 a w).2 = true
    · unfold mateLoop
      simp only [hb, ↓reduceIte]
      exact f0.trace.mono (fun e he => he m (Ne.symm hab))
    · have hb2 : (mateBody g o rdlens 0 a w).2 = false := by
        cases hx : (mateBody g o rdlens 0 a w).2
        · rfl
        · exact absurd hx hb
      rw [mateLoop_second g o rdlens ⟨a, m⟩ m w hf rfl hb2]
      exact (f0.trace.mono (fun e he => he m (Ne.symm hab))).of_trace rfl

theorem isFilterWork_not_seedWork (m : Nat) (e : Event) (h : e.isFilterWork = true) :
    e.seedWorkFor m = false := by
  cases e <;> simp_all [Event.isFilterWork, Event.seedWorkFor]

theorem filt_of_lenfilt (g : Globals) (o : ReadOracle) (rdlens : Arr2 Nat) (w : WorkerState)
    (m : Nat) (h : (filterRead g o rdlens w).lenfilt.get m = false) :
    (filterRead g o rdlens w).filt.get m = false := by
  rw [(filterRead_spec g o rdlens w).2.1]
  unfold Arr2.get at h ⊢
  split
  · rename_i hm
    rw [if_pos hm] at h
    simp [h]
  · rename_i hm
    rw [if_neg hm] at h
    simp [h]

/-- C4 (as stated) fails for the counters.  With one seed mismatch allowed, an
unpaired read of length 1 that follows an identical read is short-circuited as
a same-read: `reads` goes from 1 to 2 while `freads` and `fbases` keep the value
the first read left.  And in a pair whose mate 2 has length 1, when mate 1 is
visited first and its extension reports `done`, the loop over mates breaks:
mate 2 has `lenfilt = false` but `freads` and `fbases` stay 0. -/
theorem C4_counterexample :
    ((oracleV0 false 1 0 (-1) false).bufa.length
        ≤ toSizeT ({ resetOptions extV0 globals0 with multiseedMms := 1 }).multiseedMms
      ∧ (alignRead { resetOptions extV0 globals0 with multiseedMms := 1 }
          (oracleV0 false 1 0 (-1) false)
          (alignRead { resetOptions extV0 globals0 with multiseedMms := 1 }
            (oracleV0 false 1 0 0 false) (WorkerState.init OuterLoopMetrics.reset))).olm.reads
        = 2
      ∧ (alignRead { resetOptions extV0 globals0 with multiseedMms := 1 }
          (oracleV0 false 1 0 (-1) false)
          (alignRead { resetOptions extV0 globals0 with multiseedMms := 1 }
            (oracleV0 false 1 0 0 false) (WorkerState.init OuterLoopMetrics.reset))).olm.freads
        = (alignRead { resetOptions extV0 globals0 with multiseedMms := 1 }
            (oracleV0 false 1 0 0 false) (WorkerState.init OuterLoopMetrics.reset)).olm.freads
      ∧ (alignRead { resetOptions extV0 globals0 with multiseedMms := 1 }
          (oracleV0 false 1 0 (-1) false)
          (alignRead { resetOptions extV0 globals0 with multiseedMms := 1 }
            (oracleV0 false 1 0 0 false) (WorkerState.init OuterLoopMetrics.reset))).olm.fbases
        = (alignRead { resetOptions extV0 globals0 with multiseedMms := 1 }
            (oracleV0 false 1 0 0 false) (WorkerState.init OuterLoopMetrics.reset)).olm.fbases)
    ∧ ((oracleV0 true 30 1 0 true).bufb.length
        ≤ toSizeT ({ resetOptions extV0 globals0 with multiseedMms := 1 }).multiseedMms
      ∧ (alignRead { resetOptions extV0 globals0 with multiseedMms := 1 }
          (oracleV0 true 30 1 0 true) (WorkerState.init OuterLoopMetrics.reset)).lenfilt.e1
        = false
      ∧ (alignRead { resetOptions extV0 globals0 with multiseedMms := 1 }
          (oracleV0 true 30 1 0 true) (WorkerState.init OuterLoopMetrics.reset)).olm.freads
        = 0
      ∧ (alignRead { resetOptions extV0 globals0 with multiseedMms := 1 }
          (oracleV0 true 30 1 0 true) (WorkerState.init OuterLoopMetrics.reset)).olm.fbases
        = 0) := by
  decide

/-- C4 (amended): for a read that is not a same-read short-circuit, a mate `m`
(mate 1, or mate 2 of a pair) whose length is `<= multiseedMms` gets
`lenfilt = false` and `filt = false`, and no seed instantiation, seed search or
extension call is made for it while the read is handled.  An iteration of the
loop over mates that visits it counts it as filtered (`freads + 1`,
`fbases + length`) and does nothing else.  The loop visits it when it is first in
the mate order, as mate 1 of an unpaired read always is, and when it is second
and the first iteration did not end in `break`. -/
theorem C4_short_mate_filtered (g : Globals) (o : ReadOracle) (w : WorkerState) (m : Nat)
    (h : o.skipStages ≠ -1)
    (hm : m = 0 ∨ (m = 1 ∧ o.paired = true))
    (hlen : (rdlensOf o).get m ≤ toSizeT g.multiseedMms) :
    (alignRead g o w).lenfilt.get m = false
    ∧ (alignRead g o w).filt.get m = false
    ∧ Extends (fun e => e.seedWorkFor m = false) w (alignRead g o w)
    ∧ (∀ matei w1, w1.filt.get m = false →
        mateBody g o (rdlensOf o) matei m w1 =
          ({ w1 with olm := { w1.olm with
              freads := u64 (w1.olm.freads + 1)
              fbases := u64 (w1.olm.fbases + (rdlensOf o).get m) } }, false))
    ∧ (∀ w2, w2.filt.get m = false → (matemapOf o).e0 = m →
        mateLoop g o (rdlensOf o) (matemapOf o) w2
          = (mateBody g o (rdlensOf o) 1 (matemapOf o).e1
              (countFiltered (rdlensOf o) m w2)).1)
    ∧ (∀ w2, w2.filt.get m = false → (matemapOf o).e1 = m →
        (mateBody g o (rdlensOf o) 0 (matemapOf o).e0 w2).2 = false →
        mateLoop g o (rdlensOf o) (matemapOf o) w2
          = countFiltered (rdlensOf o) m (mateBody g o (rdlensOf o) 0 (matemapOf o).e0 w2).1)
    ∧ (o.paired = false → (matemapOf o).e0 = 0) := by
  have hl := (alignRead_lenfilt g o w h).1
  have hfl := (alignRead_lenfilt g o w h).2
  have hlf : (alignRead g o w).lenfilt.get m = false := by
    rw [hl, (lenfiltOf_spec g o.paired _ w).1]
    rcases hm with rfl | ⟨rfl, hp⟩
    · show (!decide _) = false
      rw [not_decide_eq_false]
      exact Or.inl hlen
    · show (!decide _) = false
      rw [not_decide_eq_false]
      exact ⟨hp, Or.inl hlen⟩
  have hff : (filterRead g o (rdlensOf o) ((countRead o w).log (.nextRead o.patid))).filt.get m
      = false := by
    apply filt_of_lenfilt
    rw [(filterRead_spec g o _ _).1, (lenfiltOf_spec g o.paired _ _).1,
      ← (lenfiltOf_spec g o.paired _ w).1, ← hl]
    exact hlf
  refine ⟨hlf, ?_, ?_, ?_, ?_, ?_, ?_⟩
  · rw [hfl]
    exact hff
  · rw [alignRead_eq g o w h]
    have t1 : Extends (fun e => e.seedWorkFor m = false) w
        ((countRead o w).log (.nextRead o.patid)) :=
      ⟨[.nextRead o.patid], rfl, by simp [Event.seedWorkFor]⟩
    have t2 : Extends (fun e => e.seedWorkFor m = false)
        ((countRead o w).log (.nextRead o.patid))
        (enterMateLoop g o ((countRead o w).log (.nextRead o.patid))) :=
      ((filterRead_spec g o (rdlensOf o) _).2.2.trace.mono
        (fun e he => isFilterWork_not_seedWork m e he)).of_trace rfl
    have hab : (matemapOf o = ⟨0, 1⟩ ∨ matemapOf o = ⟨1, 0⟩) := by
      rcases matemapOf_cases o with hc | hc
      · exact Or.inl hc
      · exact Or.inr hc.2
    have hm2 : m = 0 ∨ m = 1 := by
      rcases hm with hm | hm
      · exact Or.inl hm
      · exact Or.inr hm.1
    have t3 : Extends (fun e => e.seedWorkFor m = false)
        (enterMateLoop g o ((countRead o w).log (.nextRead o.patid)))
        (mateLoop g o (rdlensOf o) (matemapOf o)
          (enterMateLoop g o ((countRead o w).log (.nextRead o.patid)))) := by
      rcases hab with hc | hc
      · rw [hc]
        exact mateLoop_trace g o _ 0 1 m _ (by decide) hm2 hff
      · rw [hc]
        exact mateLoop_trace g o _ 1 0 m _ (by decide) (Or.symm hm2) hff
    have t4 : ∀ v, Extends (fun e => e.seedWorkFor m = false) v (finishRead true v) :=
      fun v => ⟨[_], rfl, by simp [Event.seedWorkFor]⟩
    exact t1.extTrans (t2.extTrans (t3.extTrans (t4 _)))
  · intro matei w1 hw1
    exact mateBody_filtered g o _ matei m w1 hw1
  · intro w2 hw2 he
    exact mateLoop_first g o _ _ m w2 hw2 he
  · intro w2 hw2 he hb
    exact mateLoop_second g o _ _ m w2 hw2 he hb
  · intro hp
    unfold matemapOf
    simp [hp]

theorem C4_short_mate_filtered_witness :
    (oracleV0 true 30 1 0 false).skipStages ≠ -1
    ∧ ((1 : Nat) = 0 ∨ ((1 : Nat) = 1 ∧ (oracleV0 true 30 1 0 false).paired = true))
    ∧ (rdlensOf (oracleV0 true 30 1 0 false)).get 1
        ≤ toSizeT ({ resetOptions extV0 globals0 with multiseedMms := 1 }).multiseedMms
    ∧ (alignRead { resetOptions extV0 globals0 with multiseedMms := 1 }
        (oracleV0 true 30 1 0 false) (WorkerState.init OuterLoopMetrics.reset)).lenfilt.get 1
        = false
    ∧ Extends (fun e => e.seedWorkFor 1 = false) (WorkerState.init OuterLoopMetrics.reset)
        (alignRead { resetOptions extV0 globals0 with multiseedMms := 1 }
          (oracleV0 true 30 1 0 false) (WorkerState.init OuterLoopMetrics.reset)) :=
  have c := C4_short_mate_filtered { resetOptions extV0 globals0 with multiseedMms := 1 }
    (oracleV0 true 30 1 0 false) (WorkerState.init OuterLoopMetrics.reset) 1
    (by decide) (by decide) (by decide)
  ⟨by decide, by decide, by decide, c.1, c.2.2.1⟩

/-! ## Presets: the `%LOCAL%` substitution -/

theorem findSub_marker (name : List Char) (h : '%' ∉ name) :
    findSub "%LOCAL%".toList (name ++ "%LOCAL%".toList) = some name.length := by
  induction name with
  | nil => decide
  | cons c cs ih =>
    have hc : c ≠ '%' := fun e => h (by rw [e]; exact List.mem_cons_self _ _)
    have hcs : '%' ∉ cs := fun e => h (List.mem_cons_of_mem _ e)
    have hp : ("%LOCAL%".toList).isPrefixOf (c :: (cs ++ "%LOCAL%".toList)) = false := by
      show (('%' :: "LOCAL%".toList).isPrefixOf (c :: (cs ++ "%LOCAL%".toList))) = false
      simp [List.isPrefixOf, Ne.symm hc]
    show findSub "%LOCAL%".toList (c :: (cs ++ "%LOCAL%".toList)) = _
    unfold findSub
    rw [hp, ih hcs]
    rfl

theorem presetName_marker (name : String) (l : Bool) (h : '%' ∉ name.toList) :
    presetName (name ++ "%LOCAL%") l = name ++ (if l then "-local" else "") := by
  unfold presetName
  have e : (name ++ "%LOCAL%").toList = name.toList ++ "%LOCAL%".toList := by
    simp [String.toList]
  simp only [e, findSub_marker name.toList h]
  have e2 : "%LOCAL%".length = 7 := by decide
  have e3 : ("%LOCAL%".toList).length = 7 := by decide
  rw [e2, List.take_left' rfl]
  have e4 : List.drop (name.toList.length + 7) (name.toList ++ "%LOCAL%".toList) = [] := by
    apply List.drop_eq_nil_of_le
    rw [List.length_append, e3]
  rw [e4, List.append_nil]
  apply String.ext
  simp [String.toList]

theorem parseOption_local (ext : Ext) (a : String) (s : Globals) :
    parseOption ext .ARG_LOCAL a s = .ok { s with localAlign := true } := rfl

theorem parseOption_end_to_end (ext : Ext) (a : String) (s : Globals) :
    parseOption ext .ARG_END_TO_END a s = .ok { s with localAlign := false } := rfl

theorem parseOption_presetList (ext : Ext) (r : GetoptResult) (s s' : Globals)
    (h : parseOption ext r.next_option r.optarg s = .ok s') :
    s'.presetList = s.presetList ++ presetPushed r := by
  by_cases hp : isPresetOpt r.next_option = true
  · unfold isPresetOpt at hp
    simp only [Bool.or_eq_true, decide_eq_true_eq] at hp
    unfold presetPushed
    rcases hp with (((hc | hc) | hc) | hc) | hc <;> rw [hc] at h ⊢ <;>
      (injection h with h; subst h; rfl)
  · have hf := parseOption_frame _ _ _ _ _ h
    have hn : isPresetOpt r.next_option = false := by
      cases hx : isPresetOpt r.next_option
      · rfl
      · exact absurd hx hp
    rw [hf.presetList hn]
    have : presetPushed r = [] := by
      unfold presetPushed
      unfold isPresetOpt at hn
      simp only [Bool.or_eq_false_iff, decide_eq_false_iff_not] at hn
      split <;> simp_all
    rw [this, List.append_nil]

theorem parseOption_localAlign (ext : Ext) (r : GetoptResult) (s s' : Globals)
    (h : parseOption ext r.next_option r.optarg s = .ok s') :
    s'.localAlign = (if r.next_option = .ARG_LOCAL then true
      else if r.next_option = .ARG_END_TO_END then false else s.localAlign) := by
  by_cases h1 : r.next_option = .ARG_LOCAL
  · rw [h1, parseOption_local] at h
    injection h with h
    subst h
    rw [if_pos h1]
  · by_cases h2 : r.next_option = .ARG_END_TO_END
    · rw [h2, parseOption_end_to_end] at h
      injection h with h
      subst h
      rw [if_neg h1, if_pos h2]
    · rw [if_neg h1, if_neg h2]
      exact (parseOption_frame _ _ _ _ _ h).localAlign h1 h2

theorem getopt_presets (ext : Ext) (opts : List GetoptResult) :
    ∀ (s s' : Globals), parseOptionsGetopt ext opts s = .ok s' →
      s'.localAlign = localFrom s.localAlign opts
      ∧ s'.presetList = s.presetList ++ presetsGiven opts
      ∧ s'.defaultPreset = s.defaultPreset
      ∧ s'.extra_opts = s.extra_opts ∧ s'.extra_opts_cur = s.extra_opts_cur := by
  induction opts with
  | nil =>
    intro s s' h
    simp only [parseOptionsGetopt, Except.ok.injEq] at h
    subst h
    simp [localFrom, presetsGiven]
  | cons r rs ih =>
    intro s s' h
    simp only [parseOptionsGetopt] at h
    obtain ⟨s1, h1, h⟩ := bind_ok _ _ _ h
    have hf := parseOption_frame _ _ _ _ _ h1
    have hsf := storeFlag_frame s r.stored
    have hl := parseOption_localAlign _ _ _ _ h1
    have hp := parseOption_presetList _ _ _ _ h1
    obtain ⟨e1, e2, e3, e4, e5⟩ := ih s1 s' h
    rw [hsf.2.2.2.2.1] at hl
    rw [hsf.2.2.2.2.2.1] at hp
    refine ⟨?_, ?_, ?_, ?_, ?_⟩
    · rw [e1, hl]
      rfl
    · rw [e2, hp]
      simp [presetsGiven]
    · rw [e3, hf.defaultPreset, hsf.2.2.2.2.2.2.2]
    · rw [e4, hf.extra_opts, hsf.2.2.1]
    · rw [e5, hf.extra_opts_cur, hsf.2.2.2.1]

/-- C9: `applyPreset` replaces the `%LOCAL%` marker of a preset name by `-local`
under local alignment and by nothing otherwise, and the flag it reads is the one
left by the whole option loop.  When the loop over the options `opts` ends with
globals `s1`, `localAlign` is what the last of `--local`/`--end-to-end` says
(false without either), and `presets.apply` is called on the default preset
`sensitive%LOCAL%` and then on the presets given, in order, each resolved with
that final flag.  So `--very-fast --local` and `--local --very-fast` both select
`sensitive-local` and then `very-fast-local`; without `--local` the default is
`sensitive`. -/
theorem C9_local_substitution (ext : Ext) (opts : List GetoptResult) (g s1 : Globals)
    (h : parseOptionsGetopt ext opts (parseOptionsInit (resetOptions ext g)) = .ok s1) :
    (∀ (name : String) (l : Bool), '%' ∉ name.toList →
        presetName (name ++ "%LOCAL%") l = name ++ (if l then "-local" else ""))
    ∧ s1.localAlign = localFrom false opts
    ∧ appliedPresets s1 =
        presetName "sensitive%LOCAL%" (localFrom false opts)
          :: (presetsGiven opts).map (fun p => presetName p (localFrom false opts))
    ∧ parseOptionsPresets ext s1 =
        { s1 with
          polstr := (ext.presetsApply (presetName "sensitive%LOCAL%" (localFrom false opts))).1
            ++ s1.polstr
            ++ presetsPol ext
                ((presetsGiven opts).map fun p => presetName p (localFrom false opts))
          extra_opts := s1.extra_opts ++ presetsOpts ext (appliedPresets s1) }
    ∧ (localFrom false [longOpt "very-fast" "", longOpt "local" ""] = true
        ∧ presetsGiven [longOpt "very-fast" "", longOpt "local" ""] = ["very-fast%LOCAL%"]
        ∧ localFrom false [longOpt "local" "", longOpt "very-fast" ""] = true
        ∧ presetsGiven [longOpt "local" "", longOpt "very-fast" ""] = ["very-fast%LOCAL%"]
        ∧ presetName "very-fast%LOCAL%" true = "very-fast-local"
        ∧ presetName "sensitive%LOCAL%" true = "sensitive-local"
        ∧ presetName "sensitive%LOCAL%" false = "sensitive") := by
  obtain ⟨e1, e2, e3, _, _⟩ := getopt_presets ext opts _ s1 h
  have hi := parseOptionsInit_fields (resetOptions ext g)
  have d1 : s1.defaultPreset = "sensitive%LOCAL%" := by rw [e3, hi.2.2.2.2.2.2.2]; rfl
  have d2 : s1.localAlign = localFrom false opts := by rw [e1, hi.2.2.2.2.1]; rfl
  have d3 : s1.presetList = presetsGiven opts := by rw [e2, hi.2.2.2.2.2.1]; rfl
  refine ⟨presetName_marker, d2, ?_, ?_, by decide⟩
  · unfold appliedPresets
    rw [d1, d2, d3]
    rfl
  · rw [parseOptionsPresets_eq, d1, d2, d3]
    rfl

theorem C9_local_substitution_witness :
    thrownOf (parseOptionsGetopt extV0 [longOpt "very-fast" "", longOpt "local" ""]
      (parseOptionsInit (resetOptions extV0 globals0))) = none
    ∧ appliedPresets (globalsOf (parseOptionsGetopt extV0
        [longOpt "very-fast" "", longOpt "local" ""]
        (parseOptionsInit (resetOptions extV0 globals0))))
      = ["sensitive-local", "very-fast-local"] :=
  have h : thrownOf (parseOptionsGetopt extV0 [longOpt "very-fast" "", longOpt "local" ""]
      (parseOptionsInit (resetOptions extV0 globals0))) = none := by decide
  have c := C9_local_substitution extV0 [longOpt "very-fast" "", longOpt "local" ""]
    globals0 _ (ok_of_thrownOf_none _ h)
  ⟨h, c.2.2.1.trans (by decide)⟩

/-! ## Presets and explicit flags -/

theorem PolUniform.bind {f k : Globals → Res} (hf : PolUniform f) (hk : PolUniform k) :
    PolUniform (fun s => f s >>= k) := by
  intro s s' h
  obtain ⟨s1, h1, h2⟩ := bind_ok _ _ _ h
  obtain ⟨t1, e1, u1⟩ := hf s s1 h1
  obtain ⟨t2, e2, u2⟩ := hk s1 s' h2
  refine ⟨t1 ++ t2, by rw [e2, e1, String.append_assoc], fun r => ?_⟩
  obtain ⟨r1, a1, b1⟩ := u1 r
  obtain ⟨r2, a2, b2⟩ := u2 r1
  refine ⟨r2, ?_, by rw [b2, b1, String.append_assoc]⟩
  show (f r >>= k) = _
  rw [a1]
  exact a2

theorem PolUniform.guard {f : Globals → Res} (c : Prop) [Decidable c] (hf : PolUniform f) :
    PolUniform (fun s => if c then throwAt s 1 else f s) := by
  intro s s' h
  by_cases hc : c
  · simp only [if_pos hc] at h
    exact absurd h (throwAt_ne_ok _ _ _)
  · simp only [if_neg hc] at h ⊢
    exact hf s s' h

theorem PolUniform.pre {f : Globals → Res} (x : String) (hf : PolUniform f) :
    PolUniform (fun s => f { s with polstr := s.polstr ++ x }) := by
  intro s s' h
  obtain ⟨t, e, u⟩ := hf _ s' h
  refine ⟨x ++ t, by rw [e, String.append_assoc], fun r => ?_⟩
  obtain ⟨r', a, b⟩ := u { r with polstr := r.polstr ++ x }
  exact ⟨r', a, by rw [b, String.append_assoc]⟩

theorem PolUniform.add (args : List String) (i : Nat) (sep : String) :
    PolUniform (polAdd args i sep) := by
  intro s s' h
  unfold polAdd at h
  cases ha : args[i]? with
  | none =>
    simp only [elemAt, ha] at h
    exact absurd h (by intro e; cases e)
  | some a =>
    simp only [elemAt, ha] at h
    injection h with h
    subst h
    refine ⟨sep ++ a, rfl, fun r => ⟨{ r with polstr := r.polstr ++ (sep ++ a) }, ?_, rfl⟩⟩
    unfold polAdd
    simp only [elemAt, ha]
    rfl

theorem PolUniform.addIf (args : List String) (i : Nat) (sep : String) :
    PolUniform (polAddIf args i sep) := by
  by_cases hc : args.length > i
  · have e : polAddIf args i sep = polAdd args i sep := by
      funext s
      simp [polAddIf, hc]
    rw [e]
    exact PolUniform.add args i sep
  · intro s s' h
    simp only [polAddIf, if_neg hc, pure, Except.pure, Except.ok.injEq] at h
    subst h
    refine ⟨"", by simp, fun r => ⟨r, ?_, by simp⟩⟩
    simp [polAddIf, hc, pure, Except.pure]

theorem PolUniform.simple (upd : Globals → Globals) (x : String)
    (h : ∀ s, (upd s).polstr = s.polstr ++ x) : PolUniform (fun s => .ok (upd s)) := by
  intro s s' hs
  injection hs with hs
  subst hs
  exact ⟨x, h s, fun r => ⟨_, rfl, h r⟩⟩

theorem parseOption_uniform (ext : Ext) (o : NextOption) (a : String)
    (ho : isPolicyOpt o = true) : PolUniform (parseOption ext o a) := by
  unfold isPolicyOpt at ho
  simp only [Bool.or_eq_true, decide_eq_true_eq] at ho
  rcases ho with
    (((((((((((((rfl | rfl) | rfl) | rfl) | rfl) | rfl) | rfl) | rfl) | rfl) | rfl) | rfl)
      | rfl) | rfl) | rfl) | rfl
  · exact PolUniform.simple
      (fun s => { s with bwaSwLike := true, polstr := s.polstr ++ ";MA=1;MMP=C3;RDG=5,2;RFG=5,2" })
      _ (fun _ => rfl)
  · exact PolUniform.simple
      (fun s => { s with msample := true, polstr := s.polstr ++ ";MHITS=" ++ a, saw_M := true })
      (";MHITS=" ++ a) (fun s => String.append_assoc _ _ _)
  · exact PolUniform.simple (fun s => { s with polstr := s.polstr ++ ";" ++ a })
      (";" ++ a) (fun s => String.append_assoc _ _ _)
  · exact PolUniform.simple (fun s => { s with polstr := s.polstr ++ ";SEED=" ++ a })
      (";SEED=" ++ a) (fun s => String.append_assoc _ _ _)
  · exact PolUniform.simple (fun s => { s with polstr := s.polstr ++ ";SEEDLEN=" ++ a })
      (";SEEDLEN=" ++ a) (fun s => String.append_assoc _ _ _)
  · have e : parseOption ext .ch_i a = fun s =>
        if (ext.tokenize a ",").length > 3 ∨ (ext.tokenize a ",").length = 0 then throwAt s 1
        else (polAdd (ext.tokenize a ",") 0 ";IVAL=" s >>= fun s =>
          polAddIf (ext.tokenize a ",") 1 "," s >>= fun s =>
          polAddIf (ext.tokenize a ",") 2 "," s) := rfl
    rw [e]
    exact PolUniform.guard _ ((PolUniform.add _ _ _).bind
      ((PolUniform.addIf _ _ _).bind (PolUniform.addIf _ _ _)))
  · have e : parseOption ext .ARG_MULTISEED_IVAL a = fun s =>
        (fun s => if (ext.tokenize a ",").length > 11 ∨ (ext.tokenize a ",").length = 0 then
          throwAt s 1
        else (polAdd (ext.tokenize a ",") 0 "SEED=" s
          >>= fun s => polAddIf (ext.tokenize a ",") 1 "," s
          >>= fun s => polAddIf (ext.tokenize a ",") 2 ";IVAL=" s
          >>= fun s => polAddIf (ext.tokenize a ",") 3 "," s
          >>= fun s => polAddIf (ext.tokenize a ",") 4 "," s
          >>= fun s => polAddIf (ext.tokenize a ",") 5 ";POSF=" s
          >>= fun s => polAddIf (ext.tokenize a ",") 6 "," s
          >>= fun s => polAddIf (ext.tokenize a ",") 7 "," s
          >>= fun s => polAddIf (ext.tokenize a ",") 8 ";ROWM=" s
          >>= fun s => polAddIf (ext.tokenize a ",") 9 "," s
          >>= fun s => polAddIf (ext.tokenize a ",") 10 "," s))
          { s with polstr := s.polstr ++ ";" } := rfl
    rw [e]
    exact PolUniform.pre ";" (PolUniform.guard _ ((PolUniform.add _ _ _).bind
      ((PolUniform.addIf _ _ _).bind ((PolUniform.addIf _ _ _).bind
      ((PolUniform.addIf _ _ _).bind ((PolUniform.addIf _ _ _).bind
      ((PolUniform.addIf _ _ _).bind ((PolUniform.addIf _ _ _).bind
      ((PolUniform.addIf _ _ _).bind ((PolUniform.addIf _ _ _).bind
      ((PolUniform.addIf _ _ _).bind (PolUniform.addIf _ _ _))))))))))))
  · have e : parseOption ext .ARG_N_CEIL a = fun s =>
        (fun s => if (ext.tokenize a ",").length > 2 ∨ (ext.tokenize a ",").length = 0 then
          throwAt s 1
        else (polAdd (ext.tokenize a ",") 0 "NCEIL=" s
          >>= fun s => polAddIf (ext.tokenize a ",") 1 "," s))
          { s with polstr := s.polstr ++ ";" } := rfl
    rw [e]
    exact PolUniform.pre ";" (PolUniform.guard _ ((PolUniform.add _ _ _).bind
      (PolUniform.addIf _ _ _)))
  · exact PolUniform.simple (fun s => { s with polstr := s.polstr ++ ";MA=" ++ a })
      (";MA=" ++ a) (fun s => String.append_assoc _ _ _)
  · exact PolUniform.simple (fun s => { s with polstr := s.polstr ++ ";MMP=Q" ++ a })
      (";MMP=Q" ++ a) (fun s => String.append_assoc _ _ _)
  · exact PolUniform.simple (fun s => { s with polstr := s.polstr ++ ";NP=C" ++ a })
      (";NP=C" ++ a) (fun s => String.append_assoc _ _ _)
  · exact PolUniform.simple (fun s => { s with polstr := s.polstr ++ ";RDG=" ++ a })
      (";RDG=" ++ a) (fun s => String.append_assoc _ _ _)
  · exact PolUniform.simple (fun s => { s with polstr := s.polstr ++ ";RFG=" ++ a })
      (";RFG=" ++ a) (fun s => String.append_assoc _ _ _)
  · have e : parseOption ext .ARG_SCORES a = fun s =>
        if (ext.tokenize a ",").length > 7 ∨ (ext.tokenize a ",").length = 0 then throwAt s 1
        else (polAddIf (ext.tokenize a ",") 0 ";MA=" s
          >>= fun s => polAddIf (ext.tokenize a ",") 1 ";MMP=" s
          >>= fun s => polAddIf (ext.tokenize a ",") 2 ";NP=" s
          >>= fun s => polAddIf (ext.tokenize a ",") 3 ";RDG=" s
          >>= fun s => polAddIf (ext.tokenize a ",") 4 "," s
          >>= fun s => polAddIf (ext.tokenize a ",") 5 ";RFG=" s
          >>= fun s => polAddIf (ext.tokenize a ",") 6 "," s) := rfl
    rw [e]
    exact PolUniform.guard _ ((PolUniform.addIf _ _ _).bind
      ((PolUniform.addIf _ _ _).bind ((PolUniform.addIf _ _ _).bind
      ((PolUniform.addIf _ _ _).bind ((PolUniform.addIf _ _ _).bind
      ((PolUniform.addIf _ _ _).bind (PolUniform.addIf _ _ _)))))))
  · have e : parseOption ext .ARG_SCORE_MIN a = fun s =>
        (fun s => if (ext.tokenize a ",").length > 3 ∧ (ext.tokenize a ",").length = 0 then
          throwAt s 1
        else (polAdd (ext.tokenize a ",") 0 "MIN=" s
          >>= fun s => polAddIf (ext.tokenize a ",") 1 "," s
          >>= fun s => polAddIf (ext.tokenize a ",") 2 "," s))
          { s with polstr := s.polstr ++ ";" } := rfl
    rw [e]
    exact PolUniform.pre ";" (PolUniform.guard _ ((PolUniform.add _ _ _).bind
      ((PolUniform.addIf _ _ _).bind (PolUniform.addIf _ _ _))))

theorem parseOption_polstr (ext : Ext) (r : GetoptResult) (s s' : Globals)
    (h : parseOption ext r.next_option r.optarg s = .ok s') :
    s'.polstr = s.polstr ++ polTextOf ext r := by
  cases ho : isPolicyOpt r.next_option
  · rw [(parseOption_frame _ _ _ _ _ h).polstr ho]
    have e : polTextOf ext r = "" := by
      unfold polTextOf
      cases hr : parseOption ext r.next_option r.optarg globals0 with
      | error e => rfl
      | ok t =>
        show t.polstr = ""
        rw [(parseOption_frame _ _ _ _ _ hr).polstr ho]
        rfl
    rw [e]
    simp
  · obtain ⟨t, e, u⟩ := parseOption_uniform ext r.next_option r.optarg ho s s' h
    obtain ⟨r', a, b⟩ := u globals0
    have e2 : polTextOf ext r = t := by
      unfold polTextOf
      rw [a]
      show r'.polstr = t
      rw [b]
      show "" ++ t = t
      simp
    rw [e, e2]

theorem getopt_polstr (ext : Ext) (opts : List GetoptResult) :
    ∀ (s s' : Globals), parseOptionsGetopt ext opts s = .ok s' →
      s'.polstr = s.polstr ++ flagsText ext opts := by
  induction opts with
  | nil =>
    intro s s' h
    simp only [parseOptionsGetopt, Except.ok.injEq] at h
    subst h
    simp [flagsText, concatAll]
  | cons r rs ih =>
    intro s s' h
    simp only [parseOptionsGetopt] at h
    obtain ⟨s1, h1, h⟩ := bind_ok _ _ _ h
    rw [ih s1 s' h, parseOption_polstr ext r _ s1 h1, (storeFlag_frame s r.stored).2.2.2.2.2.2.1,
      String.append_assoc]
    rfl

theorem polTextOf_preset (ext : Ext) (r : GetoptResult) (h : isPresetOpt r.next_option = true) :
    polTextOf ext r = "" := by
  unfold isPresetOpt at h
  simp only [Bool.or_eq_true, decide_eq_true_eq] at h
  unfold polTextOf
  rcases h with (((hc | hc) | hc) | hc) | hc <;> rw [hc] <;> rfl

theorem parseOptionsPre_polstr (ext : Ext) (opts : List GetoptResult) (g s : Globals)
    (hx : ∀ n, ∀ e ∈ (ext.presetsApply n).2, isPolicyOpt e.1 = false)
    (h : parseOptionsPre ext opts (resetOptions ext g) = .ok s) :
    s.polstr = String.mk (stripSemis
      ((ext.presetsApply (presetName "sensitive%LOCAL%" (localFrom false opts))).1
        ++ flagsText ext opts
        ++ presetsPol ext
            ((presetsGiven opts).map fun p => presetName p (localFrom false opts))).toList) := by
  unfold parseOptionsPre at h
  obtain ⟨s1, h1, h⟩ := bind_ok _ _ _ h
  have hi := parseOptionsInit_fields (resetOptions ext g)
  obtain ⟨e1, e2, e3, e4, _⟩ := getopt_presets ext opts _ s1 h1
  have ep := getopt_polstr ext opts _ s1 h1
  have d1 : s1.defaultPreset = "sensitive%LOCAL%" := by rw [e3, hi.2.2.2.2.2.2.2]; rfl
  have d2 : s1.localAlign = localFrom false opts := by rw [e1, hi.2.2.2.2.1]; rfl
  have d3 : s1.presetList = presetsGiven opts := by rw [e2, hi.2.2.2.2.2.1]; rfl
  have d4 : s1.polstr = flagsText ext opts := by
    rw [ep, hi.2.2.2.2.2.2.1]
    show "" ++ flagsText ext opts = _
    simp
  have hnil : s1.extra_opts = [] := by rw [e4, hi.2.2.1]; rfl
  rw [hnil, List.drop_nil, parseOptionsEOF_nil] at h
  obtain ⟨s2, h2, h⟩ := bind_ok _ _ _ h
  simp only [Except.ok.injEq] at h2
  subst h2
  obtain ⟨s3, h3, h⟩ := bind_ok _ _ _ h
  simp only [pure, Except.pure, Except.ok.injEq] at h
  subst h
  have hI := parseOptionsExtra_inv ext
    (fun t => t.polstr = (parseOptionsPresets ext s1).polstr)
    (fun o => isPolicyOpt o = true)
    (by
      intro o a t t' hP ht hIt
      have hn : isPolicyOpt o = false := by
        cases hc : isPolicyOpt o
        · rfl
        · exact absurd hc hP
      rw [(parseOption_frame _ _ _ _ _ ht).polstr hn]
      exact hIt)
    _ _ s3 h3
    (by
      intro e he
      rw [parseOptionsPresets_eq] at he
      simp only [hnil, List.nil_append] at he
      obtain ⟨n, hn⟩ := mem_presetsOpts _ _ _ he
      show ¬ (isPolicyOpt e.1 = true)
      rw [hx n e hn]
      exact Bool.false_ne_true)
    rfl
  show String.mk (stripSemis s3.polstr.toList) = _
  rw [hI, parseOptionsPresets_eq]
  show String.mk (stripSemis
    ((if s1.defaultPreset ≠ "" then
        (ext.presetsApply (presetName s1.defaultPreset s1.localAlign)).1 else "")
      ++ s1.polstr
      ++ presetsPol ext (s1.presetList.map fun p => presetName p s1.localAlign)).toList) = _
  rw [d1, d2, d3, d4]
  rfl

/-- C8 (counterexample): a preset is not equivalent to its expansion at the
position where it is given.  With the V0 presets, `--very-fast -N 1` yields the
policy string in which the explicit `SEED=1` comes before the expansion of
`very-fast`, whose `SEED=0` is the later setting; giving that expansion as
explicit flags `-M 1 -N 0 -L 22 -i S,1,2.50` followed by `-N 1` yields a
different policy string, in which `SEED=1` is last. -/
theorem C8_counterexample :
    (parseOptionsPre extV0 [longOpt "very-fast" "", shortOpt .ch_N "1"]
        (resetOptions extV0 globals0)).toOption.map (fun s => s.polstr)
      = some ("MHITS=5;SEED=0;SEEDLEN=22;IVAL=S,1,1.25"
          ++ ";SEED=1" ++ ";MHITS=1;SEED=0;SEEDLEN=22;IVAL=S,1,2.50")
    ∧ (parseOptionsPre extV0
        [shortOpt .ch_M "1", shortOpt .ch_N "0", shortOpt .ch_L "22",
          shortOpt .ch_i "S,1,2.50", shortOpt .ch_N "1"]
        (resetOptions extV0 globals0)).toOption.map (fun s => s.polstr)
      = some ("MHITS=5;SEED=0;SEEDLEN=22;IVAL=S,1,1.25"
          ++ ";MHITS=1;SEED=0;SEEDLEN=22;IVAL=S,1,2.50" ++ ";SEED=1")
    ∧ (parseOptions extV0 [longOpt "very-fast" "", shortOpt .ch_N "1"]
        (resetOptions extV0 globals0)).toOption.map (fun s => s.multiseedMms) = some 0
    ∧ (parseOptions extV0
        [shortOpt .ch_M "1", shortOpt .ch_N "0", shortOpt .ch_L "22",
          shortOpt .ch_i "S,1,2.50", shortOpt .ch_N "1"]
        (resetOptions extV0 globals0)).toOption.map (fun s => s.multiseedMms) = some 1 := by
  decide

/-- C8 (amended): the policy text of the presets is not placed where the preset
option stands.  For every command line on which `parseOptions` reaches the
`parseString` call, the policy string handed to it is, after removal of leading
semicolons, the expansion of the default preset, then the text of the explicit
flags in command-line order (a preset option contributes nothing there), then
the expansions of the given presets in the order given, each resolved with the
final local/end-to-end flag.  The presets are assumed to add no policy options
to `extra_opts`. -/
theorem C8_presets_after_flags (ext : Ext) (opts : List GetoptResult) (g s : Globals)
    (hx : ∀ n, ∀ e ∈ (ext.presetsApply n).2, isPolicyOpt e.1 = false)
    (h : parseOptionsPre ext opts (resetOptions ext g) = .ok s) :
    s.polstr = String.mk (stripSemis
      ((ext.presetsApply (presetName "sensitive%LOCAL%" (localFrom false opts))).1
        ++ flagsText ext opts
        ++ presetsPol ext
            ((presetsGiven opts).map fun p => presetName p (localFrom false opts))).toList)
    ∧ (∀ r, isPresetOpt r.next_option = true → polTextOf ext r = "")
    ∧ (∀ a, polTextOf ext (shortOpt .ch_N a) = ";SEED=" ++ a)
    ∧ (∀ a, polTextOf ext (shortOpt .ch_L a) = ";SEEDLEN=" ++ a) := by
  refine ⟨parseOptionsPre_polstr ext opts g s hx h, polTextOf_preset ext, ?_, ?_⟩
  · intro a
    show ("" ++ ";SEED=" ++ a : String) = _
    simp
  · intro a
    show ("" ++ ";SEEDLEN=" ++ a : String) = _
    simp

theorem C8_presets_after_flags_witness :
    thrownOf (parseOptionsPre extV0 [longOpt "very-fast" "", shortOpt .ch_N "1"]
      (resetOptions extV0 globals0)) = none
    ∧ (globalsOf (parseOptionsPre extV0 [longOpt "very-fast" "", shortOpt .ch_N "1"]
        (resetOptions extV0 globals0))).polstr
      = "MHITS=5;SEED=0;SEEDLEN=22;IVAL=S,1,1.25;SEED=1;MHITS=1;SEED=0;SEEDLEN=22;IVAL=S,1,2.50" :=
  have h : thrownOf (parseOptionsPre extV0 [longOpt "very-fast" "", shortOpt .ch_N "1"]
      (resetOptions extV0 globals0)) = none := by decide
  have c := C8_presets_after_flags extV0 [longOpt "very-fast" "", shortOpt .ch_N "1"]
    globals0 _
    (by
      intro n e he
      have : (extV0.presetsApply n).2 = [] := presetsV0_no_opts n
      rw [this] at he
      cases he)
    (ok_of_thrownOf_none _ h)
  ⟨h, c.1.trans (by decide)⟩

/-! ## Orientation, strand and cache globals through `parseOptions` -/

set_option maxHeartbeats 8000000 in
theorem parseOption_cfg (ext : Ext) (o : NextOption) (a : String) (s s' : Globals)
    (h : parseOption ext o a s = .ok s') : cfgOf s' = cfgStep o (cfgOf s) := by
  by_cases ho : o = .ch_i ∨ o = .ARG_MULTISEED_IVAL ∨ o = .ARG_N_CEIL ∨ o = .ARG_SCORES
      ∨ o = .ARG_SCORE_MIN
  · obtain ⟨t, rfl⟩ := parseOption_polExt ext o a s s' ho h
    rcases ho with rfl | rfl | rfl | rfl | rfl <;> rfl
  · cases o <;>
    first
    | exact absurd (by decide) ho
    | (simp only [parseOption, throwAt, elemAt, bind, Except.bind, pure, Except.pure] at h
       (try split at h) <;> (try split at h) <;>
       first
       | (injection h with h; subst h; rfl)
       | cases h)

theorem storeFlag_cfg (s : Globals) (st : Option (FlagVar × Int)) :
    cfgOf (storeFlag s st) = cfgOf s := by
  rcases st with _ | ⟨f, v⟩
  · rfl
  · cases f <;> rfl

theorem getopt_cfg (ext : Ext) (opts : List GetoptResult) :
    ∀ (s s' : Globals), parseOptionsGetopt ext opts s = .ok s' →
      cfgOf s' = cfgFrom (cfgOf s) opts := by
  induction opts with
  | nil =>
    intro s s' h
    simp only [parseOptionsGetopt, Except.ok.injEq] at h
    subst h
    rfl
  | cons r rs ih =>
    intro s s' h
    simp only [parseOptionsGetopt] at h
    obtain ⟨s1, h1, h⟩ := bind_ok _ _ _ h
    rw [ih s1 s' h, parseOption_cfg ext _ _ _ s1 h1, storeFlag_cfg]
    rfl

theorem parseOptionsChecks_cfg (s s' : Globals) (h : parseOptionsChecks s = .ok s') :
    cfgOf s' = cfgOf s := by
  unfold parseOptionsChecks at h
  simp only [] at h
  split at h
  · exact absurd h (throwAt_ne_ok _ _ _)
  · injection h with h
    subst h
    have e1 : ∀ v, cfgOf (adjustSeedMms v) = cfgOf v := by
      intro v
      unfold adjustSeedMms
      split <;> rfl
    have e2 : ∀ v, cfgOf (adjustGapBarrier v) = cfgOf v := by
      intro v
      unfold adjustGapBarrier
      simp only []
      split <;> split <;> rfl
    have e3 : ∀ v, cfgOf (adjustMm v) = cfgOf v := by
      intro v
      unfold adjustMm
      split <;> rfl
    have e4 : ∀ v, cfgOf (adjustQUpto v) = cfgOf v := by
      intro v
      unfold adjustQUpto
      split <;> rfl
    have e5 : ∀ v, cfgOf (parseOptionsMode v) = cfgOf v := by
      intro v
      unfold parseOptionsMode
      simp only []
      split <;> split <;> rfl
    rw [e1, e2, e3, e4, e5]

/-- The stages of a returning `parseOptions` call on reset globals: the option
loop ends in `s1`, the presets add options that the second loop parses to reach
`s3`, and the rest leaves the orientation, strand and cache globals alone. -/
theorem parseOptions_stages (ext : Ext) (opts : List GetoptResult) (g g' : Globals)
    (h : parseOptions ext opts (resetOptions ext g) = .ok g') :
    ∃ s1 s3, parseOptionsGetopt ext opts (parseOptionsInit (resetOptions ext g)) = .ok s1
      ∧ parseOptionsExtra ext (parseOptionsPresets ext s1).extra_opts.length
          (parseOptionsPresets ext s1) = .ok s3
      ∧ (∀ e ∈ (parseOptionsPresets ext s1).extra_opts, ∃ n, e ∈ (ext.presetsApply n).2)
      ∧ cfgOf (parseOptionsPresets ext s1) = cfgOf s1
      ∧ cfgOf g' = cfgOf s3 := by
  unfold parseOptions at h
  obtain ⟨s, hs, h⟩ := bind_ok _ _ _ h
  obtain ⟨pol, _, h⟩ := bind_ok _ _ _ h
  unfold parseOptionsPre at hs
  obtain ⟨s1, h1, hs⟩ := bind_ok _ _ _ hs
  have hi := parseOptionsInit_fields (resetOptions ext g)
  obtain ⟨_, _, _, e4, _⟩ := getopt_presets ext opts _ s1 h1
  have hnil : s1.extra_opts = [] := by rw [e4, hi.2.2.1]; rfl
  rw [hnil, List.drop_nil, parseOptionsEOF_nil] at hs
  obtain ⟨s2, h2, hs⟩ := bind_ok _ _ _ hs
  simp only [Except.ok.injEq] at h2
  subst h2
  obtain ⟨s3, h3, hs⟩ := bind_ok _ _ _ hs
  simp only [pure, Except.pure, Except.ok.injEq] at hs
  subst hs
  refine ⟨s1, s3, h1, h3, ?_, ?_, ?_⟩
  · intro e he
    rw [parseOptionsPresets_eq] at he
    simp only [hnil, List.nil_append] at he
    exact mem_presetsOpts _ _ _ he
  · rw [parseOptionsPresets_eq]
    rfl
  · rw [parseOptionsChecks_cfg _ _ h]
    rfl

/-! ## Paired-end orientation -/

theorem pepol_cfgFrom (opts : List GetoptResult) :
    ∀ c : Cfg, (cfgFrom c opts).pepol = pepolFrom c.pepol opts := by
  induction opts with
  | nil => intro c; rfl
  | cons r rs ih =>
    intro c
    show (cfgFrom (cfgStep r.next_option c) rs).pepol = _
    rw [ih]
    show pepolFrom _ rs = pepolFrom _ rs
    congr 1
    cases r.next_option <;> rfl

theorem pepolFrom_ne_rr (opts : List GetoptResult) :
    ∀ p : PePolicy, p ≠ .PE_POLICY_RR → pepolFrom p opts ≠ .PE_POLICY_RR := by
  induction opts with
  | nil => intro p hp; exact hp
  | cons r rs ih =>
    intro p hp
    show pepolFrom _ rs ≠ _
    apply ih
    split <;> first | exact hp | decide

theorem cfgStep_orient (o : NextOption) (c : Cfg) (h : c.pepol ≠ .PE_POLICY_RR) :
    (cfgStep o c).pepol ≠ .PE_POLICY_RR := by
  cases o <;> first | exact h | simp [cfgStep, Cfg.pepol]

theorem cfgStep_pepol (o : NextOption) (c : Cfg)
    (h : o ≠ .ARG_FF ∧ o ≠ .ARG_FR ∧ o ≠ .ARG_RF) : (cfgStep o c).pepol = c.pepol := by
  cases o <;>
    first | rfl | exact absurd rfl h.1 | exact absurd rfl h.2.1 | exact absurd rfl h.2.2

/-- C14: the paired-end orientation that the worker hands to `PairedEndPolicy`
is FR after `resetOptions`; for every command line that `parseOptions`
accepts it is never RR, and it is the orientation named by the last of `--ff`,
`--fr`, `--rf` (FR without any), which is one of FF, FR, RF.  For the last-wins
part the presets are assumed not to add orientation options of their own. -/
theorem C14_pe_orientation (ext : Ext) (opts : List GetoptResult) (g g' : Globals)
    (h : parseOptions ext opts (resetOptions ext g) = .ok g') :
    pepolFlag (resetOptions ext g) = .PE_POLICY_FR
    ∧ pepolFlag g' ≠ .PE_POLICY_RR
    ∧ ((∀ n, ∀ e ∈ (ext.presetsApply n).2,
          e.1 ≠ .ARG_FF ∧ e.1 ≠ .ARG_FR ∧ e.1 ≠ .ARG_RF) →
        pepolFlag g' = pepolFrom .PE_POLICY_FR opts)
    ∧ (pepolFrom .PE_POLICY_FR opts = .PE_POLICY_FF
        ∨ pepolFrom .PE_POLICY_FR opts = .PE_POLICY_FR
        ∨ pepolFrom .PE_POLICY_FR opts = .PE_POLICY_RF) := by
  obtain ⟨s1, s3, h1, h3, hm, e1, e2⟩ := parseOptions_stages ext opts g g' h
  have k0 : ∀ v : Globals, pepolFlag v = (cfgOf v).pepol := fun _ => rfl
  have k1 : (cfgOf s1).pepol = pepolFrom .PE_POLICY_FR opts := by
    rw [getopt_cfg ext opts _ s1 h1, pepol_cfgFrom]
    rfl
  have k2 : pepolFrom .PE_POLICY_FR opts ≠ .PE_POLICY_RR :=
    pepolFrom_ne_rr opts _ (by decide)
  refine ⟨rfl, ?_, ?_, ?_⟩
  · rw [k0, e2]
    exact parseOptionsExtra_inv ext (fun t => (cfgOf t).pepol ≠ .PE_POLICY_RR)
      (fun _ => False)
      (by
        intro o a t t' _ ht hIt
        show (cfgOf t').pepol ≠ _
        rw [parseOption_cfg ext o a t t' ht]
        exact cfgStep_orient o _ hIt)
      _ _ s3 h3 (fun _ _ hc => hc)
      (by
        show (cfgOf (parseOptionsPresets ext s1)).pepol ≠ _
        rw [e1, k1]
        exact k2)
  · intro hx
    rw [k0, e2, ← k1, ← e1]
    exact parseOptionsExtra_inv ext
      (fun t => (cfgOf t).pepol = (cfgOf (parseOptionsPresets ext s1)).pepol)
      (fun o => ¬ (o ≠ .ARG_FF ∧ o ≠ .ARG_FR ∧ o ≠ .ARG_RF))
      (by
        intro o a t t' hP ht hIt
        show (cfgOf t').pepol = _
        rw [parseOption_cfg ext o a t t' ht, cfgStep_pepol o _ (not_not.mp hP)]
        exact hIt)
      _ _ s3 h3
      (by
        intro e he
        obtain ⟨n, hn⟩ := hm e he
        exact not_not.mpr (hx n e hn))
      rfl
  · cases hp : pepolFrom .PE_POLICY_FR opts with
    | PE_POLICY_FF => exact Or.inl rfl
    | PE_POLICY_FR => exact Or.inr (Or.inl rfl)
    | PE_POLICY_RF => exact Or.inr (Or.inr rfl)
    | PE_POLICY_RR => exact absurd hp k2

theorem C14_pe_orientation_witness :
    thrownOf (parseOptions extV0 [longOpt "ff" "", longOpt "rf" ""]
      (resetOptions extV0 globals0)) = none
    ∧ pepolFlag (globalsOf (parseOptions extV0 [longOpt "ff" "", longOpt "rf" ""]
        (resetOptions extV0 globals0))) = .PE_POLICY_RF :=
  have h : thrownOf (parseOptions extV0 [longOpt "ff" "", longOpt "rf" ""]
      (resetOptions extV0 globals0)) = none := by decide
  have c := C14_pe_orientation extV0 [longOpt "ff" "", longOpt "rf" ""] globals0 _
    (ok_of_thrownOf_none _ h)
  ⟨h, (c.2.2.1 (by
      intro n e he
      have : (extV0.presetsApply n).2 = [] := presetsV0_no_opts n
      rw [this] at he
      cases he)).trans (by decide)⟩

/-! ## The `-s`/`-u` overflow guard -/

/-- C19 (as stated) fails: with `-s 1` and no `-u`, `qUpto` is 0xffffffff and
`skipReads` is 1 > 0; the 32-bit sum wraps to 0, the comparison of line 1266 is
false, and `qUpto += skipReads` is not executed: `qUpto` stays 0xffffffff. -/
theorem C19_counterexample :
    (parseOptionsPre extV0 [shortOpt .ch_s "1"] (resetOptions extV0 globals0)).toOption.map
        (fun s => (s.skipReads, s.qUpto)) = some (1, 0xffffffff)
    ∧ u32 (0xffffffff + 1) = 0
    ∧ decide (u32 (0xffffffff + 1) > 0xffffffff) = false
    ∧ (parseOptions extV0 [shortOpt .ch_s "1"] (resetOptions extV0 globals0)).toOption.map
        (fun s => (s.skipReads, s.qUpto)) = some (1, 0xffffffff) := by
  decide

/-- C19 (amended): for 32-bit values with `skipReads > 0`, the comparison
`qUpto + skipReads > qUpto` of line 1266 is true exactly when the sum does not
wrap, that is when `qUpto + skipReads <= 2^32 - 1`; `qUpto += skipReads` is executed
in that case and prevented otherwise.  With the default `qUpto = 0xffffffff` the
guard prevents the addition for every such `skipReads`. -/
theorem C19_guard_blocks_wrap (s : Globals) (hq : s.qUpto < 2 ^ 32)
    (hs : s.skipReads < 2 ^ 32) (hpos : 0 < s.skipReads) :
    (u32 (s.qUpto + s.skipReads) > s.qUpto ↔ s.qUpto + s.skipReads ≤ 2 ^ 32 - 1)
    ∧ (adjustQUpto s).qUpto =
        (if s.qUpto + s.skipReads ≤ 2 ^ 32 - 1 then s.qUpto + s.skipReads else s.qUpto)
    ∧ (s.qUpto = 0xffffffff → (adjustQUpto s).qUpto = 0xffffffff) := by
  have k : (u32 (s.qUpto + s.skipReads) > s.qUpto ↔ s.qUpto + s.skipReads ≤ 2 ^ 32 - 1) := by
    unfold u32
    constructor
    · intro h
      by_contra hc
      have : (s.qUpto + s.skipReads) % 2 ^ 32 = s.qUpto + s.skipReads - 2 ^ 32 := by
        omega
      omega
    · intro h
      have : (s.qUpto + s.skipReads) % 2 ^ 32 = s.qUpto + s.skipReads := by
        omega
      omega
  have e := (adjustQUpto_frame s).2.1
  refine ⟨k, ?_, ?_⟩
  · rw [e]
    by_cases hc : s.qUpto + s.skipReads ≤ 2 ^ 32 - 1
    · rw [if_pos (k.mpr hc), if_pos hc]
      unfold u32
      omega
    · rw [if_neg (fun h => hc (k.mp h)), if_neg hc]
  · intro h0
    rw [e, if_neg (fun h => by have := k.mp h; omega)]
    exact h0

theorem C19_guard_blocks_wrap_witness :
    (0 : Nat) < ({ globals0 with qUpto := 5, skipReads := 3 }).skipReads
    ∧ (adjustQUpto { globals0 with qUpto := 5, skipReads := 3 }).qUpto = 8 :=
  ⟨by decide,
    (C19_guard_blocks_wrap { globals0 with qUpto := 5, skipReads := 3 }
      (by decide) (by decide) (by decide)).2.1.trans (by decide)⟩

/-! ## `--sam-RG` -/

/-- C18: the text given with `--sam-RG` does not reach the `@RG` data.  Line 943
declares a local `string arg` initialised from itself, which hides the option
argument: whatever that local holds, `parseOption` returns the same globals for
any two texts.  With the local empty, `--sam-RG ID:grp1` leaves `rgid` and
`rgs_optflag` empty and appends a lone tab to `rgs`. -/
theorem C18_sam_rg_text_ignored (ext : Ext) (a b : String) (s : Globals) :
    parseOption ext .ARG_SAM_RG a s = parseOption ext .ARG_SAM_RG b s
    ∧ (longOpt "sam-RG" "ID:grp1").next_option = .ARG_SAM_RG
    ∧ (parseOptions extV0 [longOpt "sam-RG" "ID:grp1"]
        (resetOptions extV0 globals0)).toOption.map
          (fun s => (s.rgid, s.rgs, s.rgs_optflag)) = some ("", "\t", "") := by
  refine ⟨rfl, by decide, by decide⟩

/-! ## The caches of the worker -/

theorem noCache_cfgFrom (opts : List GetoptResult) :
    ∀ c : Cfg, (cfgFrom c opts).msNoCache = noCacheFrom c.msNoCache opts := by
  induction opts with
  | nil => intro c; rfl
  | cons r rs ih =>
    intro c
    show (cfgFrom (cfgStep r.next_option c) rs).msNoCache = _
    rw [ih]
    show noCacheFrom _ rs = noCacheFrom _ rs
    congr 1
    cases r.next_option <;> rfl

theorem cfgStep_noCache (o : NextOption) (c : Cfg)
    (h : o ≠ .ARG_NO_CACHE ∧ o ≠ .ARG_USE_CACHE) :
    (cfgStep o c).msNoCache = c.msNoCache := by
  cases o <;> first | rfl | exact absurd rfl h.1 | exact absurd rfl h.2

theorem cfgStep_mb (o : NextOption) (c : Cfg) :
    (cfgStep o c).seedCacheLocalMB = c.seedCacheLocalMB
    ∧ (cfgStep o c).seedCacheCurrentMB = c.seedCacheCurrentMB := by
  cases o <;> exact ⟨rfl, rfl⟩

theorem cfgFrom_mb (opts : List GetoptResult) :
    ∀ c : Cfg, (cfgFrom c opts).seedCacheLocalMB = c.seedCacheLocalMB
      ∧ (cfgFrom c opts).seedCacheCurrentMB = c.seedCacheCurrentMB := by
  induction opts with
  | nil => intro c; exact ⟨rfl, rfl⟩
  | cons r rs ih =>
    intro c
    show (cfgFrom (cfgStep r.next_option c) rs).seedCacheLocalMB = _
      ∧ (cfgFrom (cfgStep r.next_option c) rs).seedCacheCurrentMB = _
    rw [(ih _).1, (ih _).2]
    exact cfgStep_mb _ _

theorem parseOptions_mb (ext : Ext) (opts : List GetoptResult) (g g' : Globals)
    (h : parseOptions ext opts (resetOptions ext g) = .ok g') :
    g'.seedCacheLocalMB = 32 ∧ g'.seedCacheCurrentMB = 16 := by
  obtain ⟨s1, s3, h1, h3, _, e1, e2⟩ := parseOptions_stages ext opts g g' h
  have k1 := getopt_cfg ext opts _ s1 h1
  have k2 := cfgFrom_mb opts (cfgOf (parseOptionsInit (resetOptions ext g)))
  have k3 := parseOptionsExtra_inv ext
    (fun t => (cfgOf t).seedCacheLocalMB = 32 ∧ (cfgOf t).seedCacheCurrentMB = 16)
    (fun _ => False)
    (by
      intro o a t t' _ ht hIt
      show (cfgOf t').seedCacheLocalMB = 32 ∧ (cfgOf t').seedCacheCurrentMB = 16
      rw [parseOption_cfg ext o a t t' ht, (cfgStep_mb o _).1, (cfgStep_mb o _).2]
      exact hIt)
    _ _ s3 h3 (fun _ _ hc => hc)
    (by
      show (cfgOf (parseOptionsPresets ext s1)).seedCacheLocalMB = 32
        ∧ (cfgOf (parseOptionsPresets ext s1)).seedCacheCurrentMB = 16
      rw [e1, k1, k2.1, k2.2]
      exact ⟨rfl, rfl⟩)
  have a1 : g'.seedCacheLocalMB = (cfgOf g').seedCacheLocalMB := rfl
  have a2 : g'.seedCacheCurrentMB = (cfgOf g').seedCacheCurrentMB := rfl
  rw [a1, a2, e2]
  exact k3

theorem parseOptions_noCache (ext : Ext) (opts : List GetoptResult) (g g' : Globals)
    (hx : ∀ n, ∀ e ∈ (ext.presetsApply n).2, e.1 ≠ .ARG_NO_CACHE ∧ e.1 ≠ .ARG_USE_CACHE)
    (h : parseOptions ext opts (resetOptions ext g) = .ok g') :
    g'.msNoCache = noCacheFrom true opts := by
  obtain ⟨s1, s3, h1, h3, hm, e1, e2⟩ := parseOptions_stages ext opts g g' h
  have k1 : (cfgOf s1).msNoCache = noCacheFrom true opts := by
    rw [getopt_cfg ext opts _ s1 h1, noCache_cfgFrom]
    rfl
  have a1 : g'.msNoCache = (cfgOf g').msNoCache := rfl
  rw [a1, e2, ← k1, ← e1]
  exact parseOptionsExtra_inv ext
    (fun t => (cfgOf t).msNoCache = (cfgOf (parseOptionsPresets ext s1)).msNoCache)
    (fun o => ¬ (o ≠ .ARG_NO_CACHE ∧ o ≠ .ARG_USE_CACHE))
    (by
      intro o a t t' hP ht hIt
      show (cfgOf t').msNoCache = _
      rw [parseOption_cfg ext o a t t' ht, cfgStep_noCache o _ (not_not.mp hP)]
      exact hIt)
    _ _ s3 h3
    (by
      intro e he
      obtain ⟨n, hn⟩ := hm e he
      exact not_not.mpr (hx n e hn))
    rfl

/-- C16 (as stated) fails for the default configuration: after `resetOptions`,
and after `parseOptions` on a command line without cache options, `msNoCache`
is true, so the worker builds only the current-read cache (16 MiB); the
thread-local cache is null and the pointer to the shared cache is null. -/
theorem C16_counterexample :
    workerCaches (resetOptions extV0 globals0)
      = { scCurrent := 16 * 2 ^ 20, scLocal := none, scShared := false }
    ∧ (parseOptions extV0 [] (resetOptions extV0 globals0)).toOption.map workerCaches
      = some { scCurrent := 16 * 2 ^ 20, scLocal := none, scShared := false } := by
  decide

/-- C16 (amended): the worker's cache interface always has a current-read cache;
it has a thread-local cache and a non-null pointer to the shared cache exactly
when `msNoCache` is false.  `resetOptions` sets `msNoCache` to true, and for
every command line that `parseOptions` accepts it is false exactly when the
last of `--no-cache`, `--cache` is `--cache`.  The presets are assumed not to add
cache options of their own. -/
theorem C16_cache_bundle (ext : Ext) (opts : List GetoptResult) (g g' : Globals)
    (hx : ∀ n, ∀ e ∈ (ext.presetsApply n).2, e.1 ≠ .ARG_NO_CACHE ∧ e.1 ≠ .ARG_USE_CACHE)
    (h : parseOptions ext opts (resetOptions ext g) = .ok g') :
    (resetOptions ext g).msNoCache = true
    ∧ g'.msNoCache = noCacheFrom true opts
    ∧ (workerCaches g').scCurrent = cacheBytes g'.seedCacheCurrentMB
    ∧ (workerCaches g').scLocal =
        (if noCacheFrom true opts then none else some (cacheBytes g'.seedCacheLocalMB))
    ∧ (workerCaches g').scShared = !noCacheFrom true opts := by
  have e := parseOptions_noCache ext opts g g' hx h
  refine ⟨rfl, e, rfl, ?_, ?_⟩
  · unfold workerCaches
    rw [e]
    cases noCacheFrom true opts <;> rfl
  · unfold workerCaches
    rw [e]
    cases noCacheFrom true opts <;> rfl

theorem C16_cache_bundle_witness :
    thrownOf (parseOptions extV0 [longOpt "cache" ""] (resetOptions extV0 globals0)) = none
    ∧ (workerCaches (globalsOf (parseOptions extV0 [longOpt "cache" ""]
        (resetOptions extV0 globals0)))).scShared = true :=
  have h : thrownOf (parseOptions extV0 [longOpt "cache" ""]
      (resetOptions extV0 globals0)) = none := by decide
  have c := C16_cache_bundle extV0 [longOpt "cache" ""] globals0 _
    (by
      intro n e he
      have : (extV0.presetsApply n).2 = [] := presetsV0_no_opts n
      rw [this] at he
      cases he)
    (ok_of_thrownOf_none _ h)
  ⟨h, c.2.2.2.2.trans (by decide)⟩

/-- C17: after `resetOptions` the local seed cache budget is 32 (MB), the
current-read cache budget is 16 (MB) and `maxhalf` is 15.  No option assigns the
two budgets, so for every command line that `parseOptions` accepts the worker
builds the current-read cache with exactly 16 * 2^20 bytes and the thread-local
cache, whenever it builds one (`msNoCache` false), with exactly 32 * 2^20 bytes;
the 32-bit products `mb * 1024 * 1024` stay below 2^32 and do not wrap. -/
theorem C17_default_budgets (ext : Ext) (opts : List GetoptResult) (g g' : Globals)
    (h : parseOptions ext opts (resetOptions ext g) = .ok g') :
    (resetOptions ext g).seedCacheLocalMB = 32
    ∧ (resetOptions ext g).seedCacheCurrentMB = 16
    ∧ (resetOptions ext g).maxhalf = 15
    ∧ (32 * 1024 * 1024 < 2 ^ 32 ∧ cacheBytes 32 = 32 * 2 ^ 20)
    ∧ (16 * 1024 * 1024 < 2 ^ 32 ∧ cacheBytes 16 = 16 * 2 ^ 20)
    ∧ (workerCaches (resetOptions ext g)).scCurrent = 16 * 2 ^ 20
    ∧ (workerCaches g').scCurrent = 16 * 2 ^ 20
    ∧ (∀ b, (workerCaches g').scLocal = some b → b = 32 * 2 ^ 20)
    ∧ (g'.msNoCache = false → (workerCaches g').scLocal = some (32 * 2 ^ 20)) := by
  obtain ⟨m1, m2⟩ := parseOptions_mb ext opts g g' h
  have c32 : cacheBytes 32 = 32 * 2 ^ 20 := by decide
  have c16 : cacheBytes 16 = 16 * 2 ^ 20 := by decide
  refine ⟨rfl, rfl, rfl, ⟨by decide, c32⟩, ⟨by decide, c16⟩, c16, ?_, ?_, ?_⟩
  · show cacheBytes g'.seedCacheCurrentMB = _
    rw [m2, c16]
  · intro b hb
    unfold workerCaches at hb
    simp only [m1, c32] at hb
    split at hb
    · injection hb with hb
      exact hb.symm
    · cases hb
  · intro hn
    unfold workerCaches
    simp only [m1, c32, hn]
    rfl

theorem C17_default_budgets_witness :
    thrownOf (parseOptions extV0 [longOpt "cache" ""] (resetOptions extV0 globals0)) = none
    ∧ (workerCaches (globalsOf (parseOptions extV0 [longOpt "cache" ""]
        (resetOptions extV0 globals0)))).scCurrent = 16 * 2 ^ 20
    ∧ (workerCaches (globalsOf (parseOptions extV0 [longOpt "cache" ""]
        (resetOptions extV0 globals0)))).scLocal = some (32 * 2 ^ 20) :=
  have h : thrownOf (parseOptions extV0 [longOpt "cache" ""]
      (resetOptions extV0 globals0)) = none := by decide
  have c := C17_default_budgets extV0 [longOpt "cache" ""] globals0 _
    (ok_of_thrownOf_none _ h)
  ⟨h, c.2.2.2.2.2.2.1, c.2.2.2.2.2.2.2.2 (by decide)⟩

/-! ## Budgets of the extension driver -/

theorem factor_unpaired (boost : ReportingParams → ℚ) (rp : ReportingParams) :
    (myPosfrac rp).factor boost = boost rp ∧ (myRowmult rp).factor boost = boost rp := by
  simp [myPosfrac, myRowmult, Budget.factor]

theorem factor_paired (boost : ReportingParams → ℚ) (rp : ReportingParams) :
    (myPosfracPair rp).factor boost = boost rp / 2
    ∧ (myRowmultPair rp).factor boost = boost rp / 2 := by
  simp [myPosfracPair, myRowmultPair, Budget.factor]
  ring

/-- C15 (as stated) fails for paired extension.  Under `-k 2` the policy asks
for 2 alignments and the boost factor is 2: the budgets of `extendSeeds` carry
the factor 2, but those of `extendSeedsPaired` are multiplied by 0.5 after the
boost and carry the factor 1, which is below 2. -/
theorem C15_counterexample :
    workerRp extV0 (globalsOf (parseOptions extV0 [shortOpt .ch_k "2"]
        (resetOptions extV0 globals0))) = ⟨2, 0, 0, false, true, true⟩
    ∧ requestedAlignments ⟨2, 0, 0, false, true, true⟩ = 2
    ∧ boostFactorV0 ⟨2, 0, 0, false, true, true⟩ = 2
    ∧ extendBudgets extV0 (globalsOf (parseOptions extV0 [shortOpt .ch_k "2"]
        (resetOptions extV0 globals0))) false
      = (myPosfrac ⟨2, 0, 0, false, true, true⟩, myRowmult ⟨2, 0, 0, false, true, true⟩)
    ∧ extendBudgets extV0 (globalsOf (parseOptions extV0 [shortOpt .ch_k "2"]
        (resetOptions extV0 globals0))) true
      = (myPosfracPair ⟨2, 0, 0, false, true, true⟩,
          myRowmultPair ⟨2, 0, 0, false, true, true⟩)
    ∧ (myPosfrac ⟨2, 0, 0, false, true, true⟩).factor boostFactorV0 = 2
    ∧ (myPosfracPair ⟨2, 0, 0, false, true, true⟩).factor boostFactorV0 = 1
    ∧ (myRowmultPair ⟨2, 0, 0, false, true, true⟩).factor boostFactorV0 = 1
    ∧ ¬ ((2 : ℚ)
        ≤ (myPosfracPair ⟨2, 0, 0, false, true, true⟩).factor boostFactorV0) := by
  have r : workerRp extV0 (globalsOf (parseOptions extV0 [shortOpt .ch_k "2"]
      (resetOptions extV0 globals0))) = ⟨2, 0, 0, false, true, true⟩ := by decide
  have b : boostFactorV0 ⟨2, 0, 0, false, true, true⟩ = 2 := by
    simp [boostFactorV0]
  refine ⟨r, by decide, b, ?_, ?_, ?_, ?_, ?_, ?_⟩
  · unfold extendBudgets
    rw [r]
    rfl
  · unfold extendBudgets
    rw [r]
    rfl
  · rw [(factor_unpaired _ _).1, b]
  · rw [(factor_paired _ _).1, b]
    norm_num
  · rw [(factor_paired _ _).2, b]
    norm_num
  · rw [(factor_paired _ _).1, b]
    norm_num

/-- C15 (amended): the budgets handed to the unpaired extension driver are the
copies of `posfrac` and `rowmult` after `boostThresholds` alone, so they equal
the configured budgets times the policy factor, which is at least the number N
of alignments asked for.  The budgets handed to the paired extension driver
are multiplied by 0.5 after the boost: they equal the configured budgets times
half the policy factor, which is at least N / 2. -/
theorem C15_budget_boost (ext : Ext) (g : Globals) (boost : ReportingParams → ℚ)
    (hb : (requestedAlignments (workerRp ext g) : ℚ) ≤ boost (workerRp ext g)) :
    extendBudgets ext g false = (myPosfrac (workerRp ext g), myRowmult (workerRp ext g))
    ∧ extendBudgets ext g true
        = (myPosfracPair (workerRp ext g), myRowmultPair (workerRp ext g))
    ∧ (extendBudgets ext g false).1.factor boost = boost (workerRp ext g)
    ∧ (extendBudgets ext g false).2.factor boost = boost (workerRp ext g)
    ∧ (requestedAlignments (workerRp ext g) : ℚ) ≤ (extendBudgets ext g false).1.factor boost
    ∧ (requestedAlignments (workerRp ext g) : ℚ) ≤ (extendBudgets ext g false).2.factor boost
    ∧ (extendBudgets ext g true).1.factor boost = boost (workerRp ext g) / 2
    ∧ (extendBudgets ext g true).2.factor boost = boost (workerRp ext g) / 2
    ∧ (requestedAlignments (workerRp ext g) : ℚ) / 2
        ≤ (extendBudgets ext g true).1.factor boost
    ∧ (requestedAlignments (workerRp ext g) : ℚ) / 2
        ≤ (extendBudgets ext g true).2.factor boost := by
  have u := factor_unpaired boost (workerRp ext g)
  have p := factor_paired boost (workerRp ext g)
  have e1 : extendBudgets ext g false
      = (myPosfrac (workerRp ext g), myRowmult (workerRp ext g)) := rfl
  have e2 : extendBudgets ext g true
      = (myPosfracPair (workerRp ext g), myRowmultPair (workerRp ext g)) := rfl
  have h2 : (requestedAlignments (workerRp ext g) : ℚ) / 2 ≤ boost (workerRp ext g) / 2 := by
    linarith
  rw [e1, e2]
  exact ⟨rfl, rfl, u.1, u.2, u.1 ▸ hb, u.2 ▸ hb, p.1, p.2, p.1 ▸ h2, p.2 ▸ h2⟩

theorem C15_budget_boost_witness :
    (requestedAlignments (workerRp extV0 (resetOptions extV0 globals0)) : ℚ)
        ≤ boostFactorV0 (workerRp extV0 (resetOptions extV0 globals0))
    ∧ (extendBudgets extV0 (resetOptions extV0 globals0) true).1.factor boostFactorV0
        = boostFactorV0 (workerRp extV0 (resetOptions extV0 globals0)) / 2 :=
  have hb : (requestedAlignments (workerRp extV0 (resetOptions extV0 globals0)) : ℚ)
      ≤ boostFactorV0 (workerRp extV0 (resetOptions extV0 globals0)) := by
    simp [requestedAlignments, boostFactorV0, workerRp, resetOptions]
  ⟨hb, (C15_budget_boost extV0 (resetOptions extV0 globals0) boostFactorV0 hb).2.2.2.2.2.2.1⟩

/-! ## The calls of one read -/

theorem mateCalls_congr (g : Globals) (o : ReadOracle) (rdlens : Arr2 Nat) (mate : Nat)
    (w1 w2 : WorkerState) (h : w1.filt = w2.filt) :
    mateCalls g o rdlens mate w1 = mateCalls g o rdlens mate w2 := by
  unfold mateCalls seedInterval
  rw [h]

theorem mateBody_calls (g : Globals) (o : ReadOracle) (rdlens : Arr2 Nat) (matei mate : Nat)
    (w : WorkerState) :
    ∃ evs, evs <+: mateCalls g o rdlens mate w
      ∧ (mateBody g o rdlens matei mate w).1.trace = w.trace ++ evs
      ∧ (w.filt.get mate = true → o.doneWithMate matei (mate == 0) = false → evs ≠ []) := by
  unfold mateBody
  split
  · rename_i hf
    refine ⟨[], List.nil_prefix, by simp [countFiltered], ?_⟩
    intro h1
    simp [h1] at hf
  · simp only []
    split
    · rename_i hd
      refine ⟨[], List.nil_prefix, by simp [countUnfiltered], ?_⟩
      intro _ h2
      simp [h2] at hd
    · unfold seedStage
      simp only []
      split
      · exact ⟨[.instantiateSeeds mate (seedInterval o rdlens mate w)
            (mateNofw g o.paired mate) (mateNorc g o.paired mate)],
          ⟨_, rfl⟩, rfl, fun _ _ => by simp⟩
      · split
        · split
          · exact ⟨[.instantiateSeeds mate (seedInterval o rdlens mate w)
                (mateNofw g o.paired mate) (mateNorc g o.paired mate), .searchAllSeeds mate],
              ⟨_, rfl⟩, by simp [WorkerState.log, countUnfiltered, seedInterval],
              fun _ _ => by simp⟩
          · refine ⟨mateCalls g o rdlens mate w, List.prefix_refl _, ?_, fun _ _ => by
              simp [mateCalls]⟩
            unfold extendStage mateCalls
            simp only []
            split <;> simp [WorkerState.log, countUnfiltered, seedInterval]
        · exact ⟨[.instantiateSeeds mate (seedInterval o rdlens mate w)
              (mateNofw g o.paired mate) (mateNorc g o.paired mate), .searchAllSeeds mate],
            ⟨_, rfl⟩, by simp [WorkerState.log, countUnfiltered, seedInterval],
            fun _ _ => by simp⟩

theorem mateLoop_calls (g : Globals) (o : ReadOracle) (rdlens matemap : Arr2 Nat)
    (w : WorkerState) :
    ∃ evs0 evs1, evs0 <+: mateCalls g o rdlens matemap.e0 w
      ∧ evs1 <+: mateCalls g o rdlens matemap.e1 w
      ∧ (mateLoop g o rdlens matemap w).trace = w.trace ++ (evs0 ++ evs1) := by
  obtain ⟨evs0, p0, t0, _⟩ := mateBody_calls g o rdlens 0 matemap.e0 w
  unfold mateLoop
  simp only []
  split
  · exact ⟨evs0, [], p0, List.nil_prefix, by rw [t0, List.append_nil]⟩
  · obtain ⟨evs1, p1, t1, _⟩ :=
      mateBody_calls g o rdlens 1 matemap.e1 (mateBody g o rdlens 0 matemap.e0 w).1
    rw [mateCalls_congr g o rdlens matemap.e1 _ w
      (mateBody_frame g o rdlens 0 matemap.e0 w).filt] at p1
    exact ⟨evs0, evs1, p0, p1, by rw [t1, t0, List.append_assoc]⟩

theorem alignRead_calls (g : Globals) (o : ReadOracle) (w : WorkerState) :
    ∃ pre evs0 evs1 fin,
      (alignRead g o w).trace = w.trace ++ (pre ++ (evs0 ++ (evs1 ++ [fin])))
      ∧ (∀ e ∈ pre, ∀ m, Event.seedWorkFor m e = false)
      ∧ (∀ m, Event.seedWorkFor m fin = false)
      ∧ evs0 <+: mateCalls g o (rdlensOf o) (matemapOf o).e0 (alignRead g o w)
      ∧ evs1 <+: mateCalls g o (rdlensOf o) (matemapOf o).e1 (alignRead g o w) := by
  by_cases h : o.skipStages = -1
  · refine ⟨[.nextRead o.patid], [], [],
      .finishRead false w.exhaustive w.nfilt w.scfilt w.lenfilt w.qcfilt, ?_, ?_,
      fun _ => rfl, List.nil_prefix, List.nil_prefix⟩
    · unfold alignRead
      simp [h, finishRead, countRead, countSameRead, WorkerState.log]
    · intro e he m
      simp only [List.mem_singleton] at he
      subst he
      rfl
  · obtain ⟨fevs, ft, fq⟩ :=
      (filterRead_spec g o (rdlensOf o) ((countRead o w).log (.nextRead o.patid))).2.2.trace
    obtain ⟨evs0, evs1, p0, p1, t⟩ := mateLoop_calls g o (rdlensOf o) (matemapOf o)
      (enterMateLoop g o ((countRead o w).log (.nextRead o.patid)))
    have hf : (alignRead g o w).filt
        = (enterMateLoop g o ((countRead o w).log (.nextRead o.patid))).filt :=
      (alignRead_lenfilt g o w h).2
    rw [← mateCalls_congr g o (rdlensOf o) _ _ _ hf] at p0 p1
    have te : (enterMateLoop g o ((countRead o w).log (.nextRead o.patid))).trace
        = w.trace ++ ([.nextRead o.patid] ++ fevs) := by
      show (filterRead g o (rdlensOf o) ((countRead o w).log (.nextRead o.patid))).trace = _
      rw [ft]
      simp [WorkerState.log, countRead]
    refine ⟨[.nextRead o.patid] ++ fevs, evs0, evs1,
      .finishRead true
        (mateLoop g o (rdlensOf o) (matemapOf o)
          (enterMateLoop g o ((countRead o w).log (.nextRead o.patid)))).exhaustive
        (mateLoop g o (rdlensOf o) (matemapOf o)
          (enterMateLoop g o ((countRead o w).log (.nextRead o.patid)))).nfilt
        (mateLoop g o (rdlensOf o) (matemapOf o)
          (enterMateLoop g o ((countRead o w).log (.nextRead o.patid)))).scfilt
        (mateLoop g o (rdlensOf o) (matemapOf o)
          (enterMateLoop g o ((countRead o w).log (.nextRead o.patid)))).lenfilt
        (mateLoop g o (rdlensOf o) (matemapOf o)
          (enterMateLoop g o ((countRead o w).log (.nextRead o.patid)))).qcfilt,
      ?_, ?_, ?_, p0, p1⟩
    · rw [alignRead_eq g o w h]
      show (mateLoop g o (rdlensOf o) (matemapOf o) _).trace ++ [_] = _
      rw [t, te]
      simp only [List.append_assoc]
    · intro e he m
      rcases List.mem_append.mp he with he | he
      · simp only [List.mem_singleton] at he
        subst he
        rfl
      · exact isFilterWork_not_seedWork m e (fq e he)
    · intro m
      rfl

theorem matemapOf_le (o : ReadOracle) : (matemapOf o).e0 ≤ 1 ∧ (matemapOf o).e1 ≤ 1 := by
  rcases matemapOf_cases o with h | ⟨_, h⟩ <;> rw [h] <;> exact ⟨by decide, by decide⟩

/-- Every call that a read adds to the trace is not a seed or extension call,
or is one of the calls `mateCalls` of a mate slot 0 or 1. -/
theorem alignRead_events (g : Globals) (o : ReadOracle) (w : WorkerState) :
    Extends (fun e => (∀ m, Event.seedWorkFor m e = false)
        ∨ ∃ m, m ≤ 1 ∧ e ∈ mateCalls g o (rdlensOf o) m (alignRead g o w))
      w (alignRead g o w) := by
  obtain ⟨pre, evs0, evs1, fin, t, hp, hfin, p0, p1⟩ := alignRead_calls g o w
  refine ⟨_, t, ?_⟩
  intro e he
  rcases List.mem_append.mp he with he | he
  · exact Or.inl (hp e he)
  · rcases List.mem_append.mp he with he | he
    · exact Or.inr ⟨_, (matemapOf_le o).1, p0.subset he⟩
    · rcases List.mem_append.mp he with he | he
      · exact Or.inr ⟨_, (matemapOf_le o).2, p1.subset he⟩
      · simp only [List.mem_singleton] at he
        subst he
        exact Or.inl hfin

/-! ## Seed interval and strand flags -/

theorem seedInterval_spec (o : ReadOracle) (rdlens : Arr2 Nat) (mate : Nat) (w : WorkerState)
    (hlen : rdlens.e0 + rdlens.e1 < 2 ^ 64) :
    seedInterval o rdlens mate w
      = max 1 (o.msIval (if w.filt.get (mate ^^^ 1) = true then rdlens.e0 + rdlens.e1
          else rdlens.get mate)) := by
  unfold seedInterval
  have hu : u64 (rdlens.e0 + rdlens.e1) = rdlens.e0 + rdlens.e1 := Nat.mod_eq_of_lt hlen
  rw [hu]
  simp only []
  have k : ∀ x : Int, (if x < 1 then 1 else x) = max 1 x := by
    intro x
    rw [max_def]
    split <;> split <;> omega
  rw [k]
  split <;> rfl

theorem orientFlags_eq (g : Globals) (paired : Bool) (m : Nat) (hm : m ≤ 1) :
    (mateNofw g paired m, mateNorc g paired m) = orientFlags g paired m := by
  have h01 : m = 0 ∨ m = 1 := by omega
  unfold mateNofw mateNorc orientFlags
  rcases h01 with rfl | rfl <;> cases paired <;> cases g.gMate1fw <;> cases g.gMate2fw <;> simp

theorem not_seedWork_inst (m : Nat) (i : Int) (a b : Bool) :
    ¬ (∀ k, Event.seedWorkFor k (.instantiateSeeds m i a b) = false) := by
  intro h
  have := h m
  simp [Event.seedWorkFor] at this

theorem not_seedWork_extPaired (m : Nat) (f : Bool) (i : Int) (a b : Bool) :
    ¬ (∀ k, Event.seedWorkFor k (.extendSeedsPaired m f i a b) = false) := by
  intro h
  have := h m
  simp [Event.seedWorkFor] at this

theorem mem_mateCalls_inst (g : Globals) (o : ReadOracle) (rdlens : Arr2 Nat) (mate : Nat)
    (w : WorkerState) (m : Nat) (i : Int) (a b : Bool)
    (h : Event.instantiateSeeds m i a b ∈ mateCalls g o rdlens mate w) :
    m = mate ∧ i = seedInterval o rdlens mate w
      ∧ a = mateNofw g o.paired mate ∧ b = mateNorc g o.paired mate := by
  unfold mateCalls at h
  simp only [List.mem_cons, List.mem_singleton, List.not_mem_nil, or_false] at h
  rcases h with h | h | h
  · injection h with h1 h2 h3 h4
    exact ⟨h1, h2, h3, h4⟩
  · cases h
  · split at h <;> cases h

theorem mem_mateCalls_extPaired (g : Globals) (o : ReadOracle) (rdlens : Arr2 Nat)
    (mate : Nat) (w : WorkerState) (m : Nat) (f : Bool) (i : Int) (a b : Bool)
    (h : Event.extendSeedsPaired m f i a b ∈ mateCalls g o rdlens mate w) :
    m = mate ∧ a = mateNofw g o.paired mate ∧ b = mateNorc g o.paired mate := by
  unfold mateCalls at h
  simp only [List.mem_cons, List.mem_singleton, List.not_mem_nil, or_false] at h
  rcases h with h | h | h
  · cases h
  · cases h
  · split at h
    · injection h with h1 h2 h3 h4 h5
      exact ⟨h1, h4, h5⟩
    · cases h

theorem prefix_head {α : Type} (a : α) (l evs : List α) (h : evs <+: a :: l)
    (hne : evs ≠ []) : ∃ r, evs = a :: r := by
  cases evs with
  | nil => exact absurd rfl hne
  | cons x xs =>
    obtain ⟨t, ht⟩ := h
    injection ht with h1 _
    exact ⟨xs, by rw [h1]⟩

/-- C12: every seed instantiation call that a read makes gets an interval of at
least 1, equal to `max(1, msIval(L))`, where L is the sum of the two lengths
`rdlens[0] + rdlens[1]` when the other mate passed its filters
(`filt[mate ^ 1]`) and the length of the mate itself otherwise; and a mate that
passed its filters and is not yet done is seeded with that interval.  The
lengths are `size_t` values whose sum is assumed not to wrap. -/
theorem C12_seed_interval (g : Globals) (o : ReadOracle) (w : WorkerState)
    (hlen : (rdlensOf o).e0 + (rdlensOf o).e1 < 2 ^ 64) :
    Extends (fun e => ∀ m i a b, e = Event.instantiateSeeds m i a b →
        1 ≤ i ∧ i = max 1 (o.msIval
          (if (alignRead g o w).filt.get (m ^^^ 1) = true
            then (rdlensOf o).e0 + (rdlensOf o).e1 else (rdlensOf o).get m)))
      w (alignRead g o w)
    ∧ (∀ (matei mate : Nat) (w1 : WorkerState), w1.filt.get mate = true →
        o.doneWithMate matei (mate == 0) = false →
        ∃ evs, (mateBody g o (rdlensOf o) matei mate w1).1.trace = w1.trace ++
          Event.instantiateSeeds mate
            (max 1 (o.msIval
              (if w1.filt.get (mate ^^^ 1) = true
                then (rdlensOf o).e0 + (rdlensOf o).e1 else (rdlensOf o).get mate)))
            (mateNofw g o.paired mate) (mateNorc g o.paired mate) :: evs) := by
  constructor
  · refine (alignRead_events g o w).mono ?_
    intro e he m i a b hi
    subst hi
    rcases he with he | ⟨m', _, he⟩
    · exact absurd he (not_seedWork_inst m i a b)
    · obtain ⟨h1, h2, _, _⟩ := mem_mateCalls_inst g o _ m' _ m i a b he
      subst h1
      rw [h2, seedInterval_spec o _ m _ hlen]
      exact ⟨le_max_left _ _, rfl⟩
  · intro matei mate w1 hf hd
    obtain ⟨evs, p, t, hne⟩ := mateBody_calls g o (rdlensOf o) matei mate w1
    obtain ⟨r, hr⟩ := prefix_head _ _ evs p (hne hf hd)
    refine ⟨r, ?_⟩
    rw [t, hr, seedInterval_spec o _ mate _ hlen]

theorem C12_seed_interval_witness :
    (rdlensOf (oracleV0 true 30 40 0 false)).e0 + (rdlensOf (oracleV0 true 30 40 0 false)).e1
      < 2 ^ 64
    ∧ Extends (fun e => ∀ m i a b, e = Event.instantiateSeeds m i a b →
        1 ≤ i ∧ i = max 1 ((oracleV0 true 30 40 0 false).msIval
          (if (alignRead (resetOptions extV0 globals0) (oracleV0 true 30 40 0 false)
                (WorkerState.init OuterLoopMetrics.reset)).filt.get (m ^^^ 1) = true
            then (rdlensOf (oracleV0 true 30 40 0 false)).e0
              + (rdlensOf (oracleV0 true 30 40 0 false)).e1
            else (rdlensOf (oracleV0 true 30 40 0 false)).get m)))
      (WorkerState.init OuterLoopMetrics.reset)
      (alignRead (resetOptions extV0 globals0) (oracleV0 true 30 40 0 false)
        (WorkerState.init OuterLoopMetrics.reset)) :=
  ⟨by decide,
    (C12_seed_interval (resetOptions extV0 globals0) (oracleV0 true 30 40 0 false)
      (WorkerState.init OuterLoopMetrics.reset) (by decide)).1⟩

/-- C13: the flags `(nofw, norc)` of every seed instantiation call and of every
paired extension call that a read makes are `(gNofw, gNorc)` for an unpaired
read and for a mate that aligns forward (`gMate1fw` for mate 1, `gMate2fw` for
mate 2), and `(gNorc, gNofw)` for a mate that aligns as reverse complement.
After `--nofw` with the default `--fr`, mate 1 of a pair gets `(true, false)`:
only its reverse complement is searched; mate 2 gets `(false, true)`: only its
forward version is searched; the calls of such a pair carry these flags. -/
theorem C13_orientation_flags (g : Globals) (o : ReadOracle) (w : WorkerState) :
    Extends (fun e =>
        (∀ m i a b, e = Event.instantiateSeeds m i a b → (a, b) = orientFlags g o.paired m)
        ∧ (∀ m f i a b, e = Event.extendSeedsPaired m f i a b →
            (a, b) = orientFlags g o.paired m))
      w (alignRead g o w)
    ∧ (parseOptions extV0 [longOpt "nofw" ""] (resetOptions extV0 globals0)).toOption.map
        (fun g1 => ([g1.gMate1fw, g1.gMate2fw, g1.gNofw, g1.gNorc],
          [orientFlags g1 true 0, orientFlags g1 true 1, orientFlags g1 false 0]))
      = some ([true, false, true, false], [(true, false), (false, true), (true, false)])
    ∧ (alignRead (globalsOf (parseOptions extV0 [longOpt "nofw" ""]
          (resetOptions extV0 globals0))) (oracleV0 true 30 40 0 false)
        (WorkerState.init OuterLoopMetrics.reset)).trace
      = [.nextRead 0, .nFilterPair, .scoreFilter 0, .scoreFilter 1,
         .instantiateSeeds 0 10 true false, .searchAllSeeds 0,
         .extendSeedsPaired 0 false 10 true false,
         .instantiateSeeds 1 10 false true, .searchAllSeeds 1,
         .extendSeedsPaired 1 false 10 false true,
         .finishRead true ⟨true, true⟩ ⟨true, true⟩ ⟨true, true⟩ ⟨true, true⟩
           ⟨true, true⟩] := by
  refine ⟨?_, by decide, by decide⟩
  refine (alignRead_events g o w).mono ?_
  intro e he
  constructor
  · intro m i a b hi
    subst hi
    rcases he with he | ⟨m', hm', he⟩
    · exact absurd he (not_seedWork_inst m i a b)
    · obtain ⟨h1, _, h3, h4⟩ := mem_mateCalls_inst g o _ m' _ m i a b he
      subst h1
      rw [h3, h4]
      exact orientFlags_eq g o.paired m hm'
  · intro m f i a b hi
    subst hi
    rcases he with he | ⟨m', hm', he⟩
    · exact absurd he (not_seedWork_extPaired m f i a b)
    · obtain ⟨h1, h3, h4⟩ := mem_mateCalls_extPaired g o _ m' _ m f i a b he
      subst h1
      rw [h3, h4]
      exact orientFlags_eq g o.paired m hm'

/-! ## Order of the calls of one read -/

theorem extendAfterSearch_append (A B : List Event) (hB : ∀ p, extendAfterSearch p B = true) :
    ∀ prev, extendAfterSearch prev A = true → extendAfterSearch prev (A ++ B) = true := by
  induction A with
  | nil => intro prev _; exact hB prev
  | cons e rest ih =>
    intro prev h
    simp only [extendAfterSearch, Bool.and_eq_true] at h
    show extendAfterSearch prev (e :: (rest ++ B)) = true
    simp only [extendAfterSearch, Bool.and_eq_true]
    exact ⟨h.1, ih _ h.2⟩

theorem extendMate_none (e : Event) (h : ∀ m, Event.seedWorkFor m e = false) :
    e.extendMate = none := by
  cases e <;> first
    | rfl
    | (rename_i mate _ _ _ _; have := h mate; simp [Event.seedWorkFor] at this)
    | (rename_i mate _; have := h mate; simp [Event.seedWorkFor] at this)

theorem extendAfterSearch_none (A : List Event) (h : ∀ e ∈ A, e.extendMate = none) :
    ∀ prev, extendAfterSearch prev A = true := by
  induction A with
  | nil => intro prev; rfl
  | cons e rest ih =>
    intro prev
    simp only [extendAfterSearch, Bool.and_eq_true]
    refine ⟨?_, ih (fun x hx => h x (List.mem_cons_of_mem _ hx)) _⟩
    rw [h e (List.mem_cons_self _ _)]

theorem extendAfterSearch_mateCalls (g : Globals) (o : ReadOracle) (rdlens : Arr2 Nat)
    (mate : Nat) (w : WorkerState) (evs : List Event)
    (h : evs <+: mateCalls g o rdlens mate w) :
    ∀ prev, extendAfterSearch prev evs = true := by
  intro prev
  unfold mateCalls at h
  rcases List.prefix_cons_iff.mp h with rfl | ⟨t1, rfl, h1⟩
  · rfl
  · rcases List.prefix_cons_iff.mp h1 with rfl | ⟨t2, rfl, h2⟩
    · rfl
    · rcases List.prefix_cons_iff.mp h2 with rfl | ⟨t3, rfl, h3⟩
      · rfl
      · have : t3 = [] := List.prefix_nil.mp h3
        subst this
        split <;> simp [extendAfterSearch, Event.extendMate]

/-- C20 (as stated) fails: for a pair whose mates both pass the filters, the
worker instantiates and searches the seeds of mate 1 and calls the extension
driver for mate 1 before it instantiates or searches the seeds of mate 2. -/
theorem C20_counterexample :
    (alignRead (resetOptions extV0 globals0) (oracleV0 true 30 40 0 false)
        (WorkerState.init OuterLoopMetrics.reset)).trace
      = [.nextRead 0, .nFilterPair, .scoreFilter 0, .scoreFilter 1,
         .instantiateSeeds 0 10 false false, .searchAllSeeds 0,
         .extendSeedsPaired 0 false 10 false false,
         .instantiateSeeds 1 10 false false, .searchAllSeeds 1,
         .extendSeedsPaired 1 false 10 false false,
         .finishRead true ⟨true, true⟩ ⟨true, true⟩ ⟨true, true⟩ ⟨true, true⟩
           ⟨true, true⟩]
    ∧ extendAfterBothSearches []
        (alignRead (resetOptions extV0 globals0) (oracleV0 true 30 40 0 false)
          (WorkerState.init OuterLoopMetrics.reset)).trace = false := by
  decide

theorem prefix_mateCalls_other (g : Globals) (o : ReadOracle) (rdlens : Arr2 Nat)
    (mate m : Nat) (w : WorkerState) (evs : List Event)
    (h : evs <+: mateCalls g o rdlens mate w) (hm : m ≠ mate) :
    ∀ e ∈ evs, Event.seedWorkFor m e = false := by
  intro e he
  have hmem := h.subset he
  unfold mateCalls at hmem
  simp only [List.mem_cons, List.mem_singleton, List.not_mem_nil, or_false] at hmem
  rcases hmem with rfl | rfl | rfl
  · simp [Event.seedWorkFor, Ne.symm hm]
  · simp [Event.seedWorkFor, Ne.symm hm]
  · split <;> simp [Event.seedWorkFor, Ne.symm hm]

/-- C20 (amended): the seed and extension calls of a read or pair are made mate
by mate.  The calls that the read adds to the trace are: calls that are no seed
or extension call; then an initial part of the sequence `instantiateSeeds`,
`searchAllSeeds`, extension call for the mate visited first; then an initial
part of that sequence for the other mate; then `finishRead`.  So every seed or
extension call for the mate visited first comes before every such call for the
other mate, and every extension call (`extendSeeds`, `extendSeedsPaired`) for a
mate comes immediately after the seed search call (`searchAllSeeds`) for that
same mate; the seed search of the other mate need not have happened. -/
theorem C20_extend_after_own_search (g : Globals) (o : ReadOracle) (w : WorkerState) :
    ∃ pre evs0 evs1 fin,
      (alignRead g o w).trace = w.trace ++ (pre ++ (evs0 ++ (evs1 ++ [fin])))
      ∧ (∀ e ∈ pre, ∀ m, Event.seedWorkFor m e = false)
      ∧ (∀ m, Event.seedWorkFor m fin = false)
      ∧ evs0 <+: mateCalls g o (rdlensOf o) (matemapOf o).e0 (alignRead g o w)
      ∧ evs1 <+: mateCalls g o (rdlensOf o) (matemapOf o).e1 (alignRead g o w)
      ∧ (matemapOf o).e0 ≠ (matemapOf o).e1
      ∧ (∀ e ∈ pre ++ evs0, Event.seedWorkFor (matemapOf o).e1 e = false)
      ∧ (∀ e ∈ evs1 ++ [fin], Event.seedWorkFor (matemapOf o).e0 e = false)
      ∧ (∀ prev, extendAfterSearch prev (pre ++ (evs0 ++ (evs1 ++ [fin]))) = true) := by
  obtain ⟨pre, evs0, evs1, fin, t, hp, hfin, p0, p1⟩ := alignRead_calls g o w
  have hne : (matemapOf o).e0 ≠ (matemapOf o).e1 := by
    rcases matemapOf_cases o with h | ⟨_, h⟩ <;> rw [h] <;> decide
  refine ⟨pre, evs0, evs1, fin, t, hp, hfin, p0, p1, hne, ?_, ?_, ?_⟩
  · intro e he
    rcases List.mem_append.mp he with he | he
    · exact hp e he _
    · exact prefix_mateCalls_other g o _ _ _ _ evs0 p0 (Ne.symm hne) e he
  · intro e he
    rcases List.mem_append.mp he with he | he
    · exact prefix_mateCalls_other g o _ _ _ _ evs1 p1 hne e he
    · simp only [List.mem_singleton] at he
      subst he
      exact hfin _
  · intro prev
    apply extendAfterSearch_append pre _ _ prev
      (extendAfterSearch_none pre (fun e he => extendMate_none e (hp e he)) prev)
    intro p
    apply extendAfterSearch_append evs0 _ _ p (extendAfterSearch_mateCalls g o _ _ _ evs0 p0 p)
    intro p
    apply extendAfterSearch_append evs1 _ _ p (extendAfterSearch_mateCalls g o _ _ _ evs1 p1 p)
    intro p
    exact extendAfterSearch_none [fin]
      (fun e he => by
        simp only [List.mem_singleton] at he
        subst he
        exact extendMate_none _ hfin) p

/-! ## Order of the mates -/

/-- C22: `finishReport` does not fold the reporting group into the job totals.
It has no `rpm.merge(rpmu, false)`: whatever the groups hold, `rpm` keeps its
previous value while `rpmu` is reset, so the reporting counts since the last
update are lost.  The other nine totals do become the previous value merged
with the group since the last update, and all ten groups since the last update
are reset.  With totals 5 and groups 3 in one-counter groups, `rpm` stays 5
where the other totals become 8. -/
theorem C22_finishReport_drops_rpm {SD WL SW RP SSE : Type}
    (ops : MetricsOps SD WL SW RP SSE) (m : PerfMetrics SD WL SW RP SSE) :
    (m.finishReport ops).rpm = m.rpm
    ∧ (m.finishReport ops).rpmu = ops.rpReset
    ∧ ((m.finishReport ops).olm = m.olm.merge m.olmu
      ∧ (m.finishReport ops).sdm = ops.sdMerge m.sdm m.sdmu
      ∧ (m.finishReport ops).wlm = ops.wlMerge m.wlm m.wlmu
      ∧ (m.finishReport ops).swmSeed = ops.swMerge m.swmSeed m.swmuSeed
      ∧ (m.finishReport ops).swmMate = ops.swMerge m.swmMate m.swmuMate
      ∧ (m.finishReport ops).dpSse8Seed = ops.sseMerge m.dpSse8Seed m.dpSse8uSeed
      ∧ (m.finishReport ops).dpSse8Mate = ops.sseMerge m.dpSse8Mate m.dpSse8uMate
      ∧ (m.finishReport ops).dpSse16Seed = ops.sseMerge m.dpSse16Seed m.dpSse16uSeed
      ∧ (m.finishReport ops).dpSse16Mate = ops.sseMerge m.dpSse16Mate m.dpSse16uMate)
    ∧ ((m.finishReport ops).olmu = OuterLoopMetrics.reset
      ∧ (m.finishReport ops).sdmu = ops.sdReset
      ∧ (m.finishReport ops).wlmu = ops.wlReset
      ∧ (m.finishReport ops).swmuSeed = ops.swReset
      ∧ (m.finishReport ops).swmuMate = ops.swReset
      ∧ (m.finishReport ops).dpSse8uSeed = ops.sseReset
      ∧ (m.finishReport ops).dpSse8uMate = ops.sseReset
      ∧ (m.finishReport ops).dpSse16uSeed = ops.sseReset
      ∧ (m.finishReport ops).dpSse16uMate = ops.sseReset)
    ∧ (((perfV0 5 3).finishReport counterOps).rpm = 5
      ∧ ((perfV0 5 3).finishReport counterOps).rpmu = 0
      ∧ ((perfV0 5 3).finishReport counterOps).sdm = 8
      ∧ ((perfV0 5 3).finishReport counterOps).olm = ⟨8, 8, 8, 8, 8, 8, 8, 8⟩) := by
  refine ⟨rfl, rfl, ⟨rfl, rfl, rfl, rfl, rfl, rfl, rfl, rfl, rfl⟩,
    ⟨rfl, rfl, rfl, rfl, rfl, rfl, rfl, rfl, rfl⟩, by decide⟩

/-! ## State across two calls of `bowtie` -/

/-- C23: `bowtie` does not reset `argstr`.  `resetOptions` leaves `argstr` as it
is and the loop of lines 3092-3095 appends to it, so in a second call with the
same argument vector the command-line string that reaches the driver, and from
there the SAM header, is the string of the first call followed by the
arguments again. -/
theorem C23_argstr_not_reset (ext : Ext) (g : Globals) :
    (resetOptions ext g).argstr = g.argstr
    ∧ (bowtie extV0 ⟨["bowtie2-align", "-x", "idx", "reads.fq"], [shortOpt .ch_x "idx"],
        ["reads.fq"]⟩ globals0).1 = some 0
    ∧ (bowtie extV0 ⟨["bowtie2-align", "-x", "idx", "reads.fq"], [shortOpt .ch_x "idx"],
        ["reads.fq"]⟩ globals0).2.argstr = "bowtie2-align -x idx reads.fq"
    ∧ (bowtie extV0 ⟨["bowtie2-align", "-x", "idx", "reads.fq"], [shortOpt .ch_x "idx"],
        ["reads.fq"]⟩
        (bowtie extV0 ⟨["bowtie2-align", "-x", "idx", "reads.fq"], [shortOpt .ch_x "idx"],
          ["reads.fq"]⟩ globals0).2).1 = some 0
    ∧ (bowtie extV0 ⟨["bowtie2-align", "-x", "idx", "reads.fq"], [shortOpt .ch_x "idx"],
        ["reads.fq"]⟩
        (bowtie extV0 ⟨["bowtie2-align", "-x", "idx", "reads.fq"], [shortOpt .ch_x "idx"],
          ["reads.fq"]⟩ globals0).2).2.argstr
      = "bowtie2-align -x idx reads.fqbowtie2-align -x idx reads.fq" := by
  refine ⟨rfl, by decide, by decide, by decide, by decide⟩

/-! ## Arity check of `--score-min` -/

theorem thrownOf_bind_ok (x : Res) (f : Globals → Res) (hx : thrownOf x = none)
    (hf : ∀ s, thrownOf (f s) = none) : thrownOf (x >>= f) = none := by
  cases x with
  | ok a => exact hf a
  | error e => simp [thrownOf] at hx

theorem polAdd_thrown (args : List String) (i : Nat) (sep : String) (s : Globals) :
    thrownOf (polAdd args i sep s) = (if i < args.length then none else some .oob) := by
  unfold polAdd elemAt
  by_cases h : i < args.length
  · rw [if_pos h, List.getElem?_eq_getElem h]
    rfl
  · rw [if_neg h, List.getElem?_eq_none (by omega)]
    rfl

theorem polAddIf_thrown (args : List String) (i : Nat) (sep : String) (s : Globals) :
    thrownOf (polAddIf args i sep s) = none := by
  unfold polAddIf
  split
  · rename_i h
    rw [polAdd_thrown, if_pos h]
  · rfl

/-- C24: `--score-min` does not check its number of arguments.  The test of line
1086 joins `> 3` and `== 0` by `&&` and is never true: the case never throws 1.
An argument that tokenizes into no field makes the case index `args[0]`, which
is missing; an argument with more than 3 fields is accepted and its first three
fields are used.  The `-i` case, whose test joins the two by `||`, throws 1 on
both.  With comma-split tokens `--score-min 1,2,3,4` returns and appends
`;MIN=1,2,3` to the policy string. -/
theorem C24_score_min_arity (ext : Ext) (a : String) (s : Globals) :
    thrownOf (parseOption ext .ARG_SCORE_MIN a s) ≠ some (.int 1)
    ∧ ((ext.tokenize a ",").length = 0 →
        thrownOf (parseOption ext .ARG_SCORE_MIN a s) = some .oob)
    ∧ ((ext.tokenize a ",").length > 3 →
        thrownOf (parseOption ext .ARG_SCORE_MIN a s) = none)
    ∧ ((ext.tokenize a ",").length = 0 ∨ (ext.tokenize a ",").length > 3 →
        thrownOf (parseOption ext .ch_i a s) = some (.int 1))
    ∧ (parseOption extV0 .ARG_SCORE_MIN "1,2,3,4" globals0).toOption.map (fun t => t.polstr)
        = some ";MIN=1,2,3"
    ∧ thrownOf (parseOption extV0 .ch_i "1,2,3,4" globals0) = some (.int 1) := by
  have hne : ¬ ((ext.tokenize a ",").length > 3 ∧ (ext.tokenize a ",").length = 0) := by
    omega
  have e : parseOption ext .ARG_SCORE_MIN a s =
      (polAdd (ext.tokenize a ",") 0 "MIN=" { s with polstr := s.polstr ++ ";" }
        >>= fun s => polAddIf (ext.tokenize a ",") 1 "," s
        >>= fun s => polAddIf (ext.tokenize a ",") 2 "," s) := by
    rw [parseOption_score_min, if_neg hne]
  have h0 : (ext.tokenize a ",").length = 0 →
      thrownOf (parseOption ext .ARG_SCORE_MIN a s) = some .oob := by
    intro hl
    rw [e]
    have hn : (ext.tokenize a ",") = [] := List.length_eq_zero.mp hl
    rw [hn]
    rfl
  have h1 : 0 < (ext.tokenize a ",").length →
      thrownOf (parseOption ext .ARG_SCORE_MIN a s) = none := by
    intro hl
    rw [e]
    apply thrownOf_bind_ok
    · rw [polAdd_thrown, if_pos hl]
    · intro t
      apply thrownOf_bind_ok
      · exact polAddIf_thrown _ _ _ _
      · intro t2
        exact polAddIf_thrown _ _ _ _
  refine ⟨?_, h0, fun hl => h1 (by omega), ?_, by decide, by decide⟩
  · by_cases hl : (ext.tokenize a ",").length = 0
    · rw [h0 hl]
      decide
    · rw [h1 (by omega)]
      decide
  · intro hl
    rw [parseOption_ch_i, if_pos (by omega)]
    rfl

/-! ## The stages of `parseOptions`, with the policy -/

theorem parseOptions_split (ext : Ext) (opts : List GetoptResult) (g g' : Globals)
    (h : parseOptions ext opts g = .ok g') :
    ∃ s p, parseOptionsPre ext opts g = .ok s
      ∧ ext.parseString s.polstr s.localAlign s.noisyHpolymer s.ignoreQuals (policyOf s) = .ok p
      ∧ parseOptionsChecks (setPolicy s p) = .ok g' := by
  unfold parseOptions at h
  obtain ⟨s, hs, h⟩ := bind_ok _ _ _ h
  obtain ⟨p, hp, h⟩ := bind_ok _ _ _ h
  exact ⟨s, p, hs, liftAt_ok _ _ _ hp, h⟩

theorem parseOptionsPre_split (ext : Ext) (opts : List GetoptResult) (g s : Globals)
    (h : parseOptionsPre ext opts (resetOptions ext g) = .ok s) :
    ∃ s1 s3, parseOptionsGetopt ext opts (parseOptionsInit (resetOptions ext g)) = .ok s1
      ∧ parseOptionsExtra ext (parseOptionsPresets ext s1).extra_opts.length
          (parseOptionsPresets ext s1) = .ok s3
      ∧ (∀ e ∈ (parseOptionsPresets ext s1).extra_opts, ∃ n, e ∈ (ext.presetsApply n).2)
      ∧ s = parseOptionsStrip s3 := by
  unfold parseOptionsPre at h
  obtain ⟨s1, h1, h⟩ := bind_ok _ _ _ h
  have hi := parseOptionsInit_fields (resetOptions ext g)
  obtain ⟨_, _, _, e4, _⟩ := getopt_presets ext opts _ s1 h1
  have hnil : s1.extra_opts = [] := by rw [e4, hi.2.2.1]; rfl
  rw [hnil, List.drop_nil, parseOptionsEOF_nil] at h
  obtain ⟨s2, h2, h⟩ := bind_ok _ _ _ h
  simp only [Except.ok.injEq] at h2
  subst h2
  obtain ⟨s3, h3, h⟩ := bind_ok _ _ _ h
  simp only [pure, Except.pure, Except.ok.injEq] at h
  refine ⟨s1, s3, h1, h3, ?_, h.symm⟩
  intro e he
  rw [parseOptionsPresets_eq] at he
  simp only [hnil, List.nil_append] at he
  exact mem_presetsOpts _ _ _ he

theorem parseOptionsChecks_ok (s s' : Globals) (h : parseOptionsChecks s = .ok s') :
    s' = adjustSeedMms (adjustGapBarrier (adjustMm (adjustQUpto (parseOptionsMode s)))) := by
  unfold parseOptionsChecks at h
  simp only [] at h
  split at h
  · exact absurd h (throwAt_ne_ok _ _ _)
  · injection h with h
    exact h.symm

/-! ## The seed-mismatch clamp -/

/-- C26: when `parseOptions` returns, with `p` the policy that `parseString`
left, the final `multiseedLen` is `p.multiseedLen`, and the final `multiseedMms`
is `p.multiseedLen - 1` when `p.multiseedMms >= p.multiseedLen` and
`p.multiseedMms` itself when it is smaller; in both cases it is strictly less
than the final `multiseedLen`. -/
theorem C26_seed_mms_clamp (ext : Ext) (opts : List GetoptResult) (g g' : Globals)
    (h : parseOptions ext opts g = .ok g') :
    ∃ s p, parseOptionsPre ext opts g = .ok s
      ∧ ext.parseString s.polstr s.localAlign s.noisyHpolymer s.ignoreQuals (policyOf s) = .ok p
      ∧ g'.multiseedLen = p.multiseedLen
      ∧ (p.multiseedMms ≥ p.multiseedLen → g'.multiseedMms = p.multiseedLen - 1)
      ∧ (p.multiseedMms < p.multiseedLen → g'.multiseedMms = p.multiseedMms)
      ∧ g'.multiseedMms < g'.multiseedLen := by
  obtain ⟨s, p, hs, hp, hc⟩ := parseOptions_split ext opts g g' h
  have hg := parseOptionsChecks_ok _ _ hc
  have e1 : (adjustGapBarrier (adjustMm (adjustQUpto
      (parseOptionsMode (setPolicy s p))))).multiseedMms = p.multiseedMms := by
    rw [(adjustGapBarrier_frame _).2.2.1, (adjustMm_frame _).2.2.1,
      (adjustQUpto_frame _).2.2.1, (parseOptionsMode_frame _).2.2.1]
    rfl
  have e2 : (adjustGapBarrier (adjustMm (adjustQUpto
      (parseOptionsMode (setPolicy s p))))).multiseedLen = p.multiseedLen := by
    rw [(adjustGapBarrier_frame _).2.2.2.1, (adjustMm_frame _).2.2.2.1,
      (adjustQUpto_frame _).2.2.2.1, (parseOptionsMode_frame _).2.2.2.1]
    rfl
  have a1 : g'.multiseedLen = p.multiseedLen := by
    rw [hg, (adjustSeedMms_seed _).1, e2]
  have a2 : g'.multiseedMms =
      (if p.multiseedMms ≥ p.multiseedLen then p.multiseedLen - 1 else p.multiseedMms) := by
    rw [hg, (adjustSeedMms_seed _).2, e1, e2]
  refine ⟨s, p, hs, hp, a1, ?_, ?_, ?_⟩
  · intro hm
    rw [a2, if_pos hm]
  · intro hm
    rw [a2, if_neg (by omega)]
  · rw [a1, a2]
    split <;> omega

theorem C26_seed_mms_clamp_witness :
    thrownOf (parseOptions extV0 [shortOpt .ch_N "2", shortOpt .ch_L "1"]
      (resetOptions extV0 globals0)) = none
    ∧ (globalsOf (parseOptions extV0 [shortOpt .ch_N "2", shortOpt .ch_L "1"]
        (resetOptions extV0 globals0))).multiseedMms
      < (globalsOf (parseOptions extV0 [shortOpt .ch_N "2", shortOpt .ch_L "1"]
        (resetOptions extV0 globals0))).multiseedLen :=
  have h : thrownOf (parseOptions extV0 [shortOpt .ch_N "2", shortOpt .ch_L "1"]
      (resetOptions extV0 globals0)) = none := by decide
  have c := C26_seed_mms_clamp extV0 [shortOpt .ch_N "2", shortOpt .ch_L "1"]
    (resetOptions extV0 globals0) _ (ok_of_thrownOf_none _ h)
  ⟨h, by
    obtain ⟨_, _, _, _, _, _, _, hlt⟩ := c
    exact hlt⟩

/-! ## Resolution of `-k`, `-a` and `-M` -/

theorem parseOption_ch_a (ext : Ext) (a : String) (s : Globals) :
    parseOption ext .ch_a a s =
      .ok { s with msample := false, allHits := true, mhits := 0, saw_a := true } := rfl

theorem parseOption_ch_k (ext : Ext) (a : String) (s : Globals) :
    parseOption ext .ch_k a s =
      (liftAt { s with msample := false } (parseInt3 1 "-k arg must be at least 1" a)
        >>= fun v => pure { s with msample := false, khits := toU32 v, mhits := 0,
                                   saw_k := true }) := rfl

theorem parseOption_ch_k_ok (ext : Ext) (a : String) (s s' : Globals)
    (h : parseOption ext .ch_k a s = .ok s') :
    s'.khits = (strtol a).l.toNat ∧ 1 ≤ (strtol a).l.toNat ∧ s'.saw_k = true := by
  rw [parseOption_ch_k] at h
  obtain ⟨v, hv, h⟩ := bind_ok _ _ _ h
  obtain ⟨rfl, h0, h1⟩ := parseInt3_ok _ _ _ _ (by decide) (liftAt_ok _ _ _ hv)
  simp only [pure, Except.pure, Except.ok.injEq] at h
  subst h
  refine ⟨toU32_of_nonneg _ (by omega) h1, by omega, rfl⟩

theorem parseOption_report (ext : Ext) (r : GetoptResult) (s s' : Globals)
    (h : parseOption ext r.next_option r.optarg s = .ok s') :
    s'.allHits = (s.allHits || decide (r.next_option = .ch_a))
    ∧ s'.saw_a = (s.saw_a || decide (r.next_option = .ch_a))
    ∧ s'.saw_k = (s.saw_k || decide (r.next_option = .ch_k))
    ∧ s'.khits = (if r.next_option = .ch_k then (strtol r.optarg).l.toNat else s.khits)
    ∧ (1 ≤ s.khits → 1 ≤ s'.khits) := by
  have hf := parseOption_frame _ _ _ _ _ h
  by_cases ha : r.next_option = .ch_a
  · have hk : r.next_option ≠ .ch_k := by rw [ha]; decide
    rw [ha, parseOption_ch_a] at h
    injection h with h
    subst h
    simp [ha]
  · by_cases hk : r.next_option = .ch_k
    · rw [hk] at h
      obtain ⟨k1, k2, k3⟩ := parseOption_ch_k_ok _ _ _ _ h
      rw [hf.allHits ha, hf.saw_a ha, k1, k3]
      simp [ha, hk, k2]
    · rw [hf.allHits ha, hf.saw_a ha, hf.saw_k hk, hf.khits hk]
      simp [ha, hk]

theorem storeFlag_report (s : Globals) (st : Option (FlagVar × Int)) :
    (storeFlag s st).allHits = s.allHits ∧ (storeFlag s st).saw_a = s.saw_a
    ∧ (storeFlag s st).saw_k = s.saw_k ∧ (storeFlag s st).khits = s.khits := by
  rcases st with _ | ⟨f, v⟩
  · simp [storeFlag]
  · cases f <;> simp [storeFlag]

theorem getopt_report (ext : Ext) (opts : List GetoptResult) :
    ∀ (s s' : Globals), parseOptionsGetopt ext opts s = .ok s' →
      s'.allHits = (s.allHits || aGiven opts)
      ∧ s'.saw_a = (s.saw_a || aGiven opts)
      ∧ s'.saw_k = (s.saw_k || kGiven opts)
      ∧ s'.khits = kFrom s.khits opts
      ∧ (1 ≤ s.khits → 1 ≤ s'.khits) := by
  induction opts with
  | nil =>
    intro s s' h
    simp only [parseOptionsGetopt, Except.ok.injEq] at h
    subst h
    simp [aGiven, kGiven, kFrom]
  | cons r rs ih =>
    intro s s' h
    simp only [parseOptionsGetopt] at h
    obtain ⟨s1, h1, h⟩ := bind_ok _ _ _ h
    obtain ⟨a1, a2, a3, a4, a5⟩ := parseOption_report ext r _ s1 h1
    obtain ⟨b1, b2, b3, b4⟩ := storeFlag_report s r.stored
    obtain ⟨e1, e2, e3, e4, e5⟩ := ih s1 s' h
    rw [b1] at a1
    rw [b2] at a2
    rw [b3] at a3
    rw [b4] at a4 a5
    refine ⟨?_, ?_, ?_, ?_, fun hk => e5 (a5 hk)⟩
    · rw [e1, a1]
      simp [aGiven, Bool.or_assoc]
    · rw [e2, a2]
      simp [aGiven, Bool.or_assoc]
    · rw [e3, a3]
      simp [kGiven, Bool.or_assoc]
    · rw [e4, a4]
      rfl

theorem parseOptionsMode_report (s : Globals) :
    (parseOptionsMode s).msample = !(s.saw_a || s.saw_k)
    ∧ (parseOptionsMode s).mhits = (if (s.saw_a || s.saw_k) = true then 0 else s.mhits) := by
  unfold parseOptionsMode
  simp only []
  cases s.saw_a <;> cases s.saw_k <;> cases s.localAlign <;> simp

theorem parseOptionsChecks_report (s g' : Globals) (h : parseOptionsChecks s = .ok g') :
    g'.allHits = s.allHits ∧ g'.khits = s.khits
    ∧ g'.msample = !(s.saw_a || s.saw_k)
    ∧ g'.mhits = (if (s.saw_a || s.saw_k) = true then 0 else s.mhits) := by
  rw [parseOptionsChecks_ok _ _ h]
  have m1 := parseOptionsMode_frame s
  have m2 := parseOptionsMode_report s
  have q := adjustQUpto_frame (parseOptionsMode s)
  have mm := adjustMm_frame (adjustQUpto (parseOptionsMode s))
  have gb := adjustGapBarrier_frame (adjustMm (adjustQUpto (parseOptionsMode s)))
  have sm := adjustSeedMms_frame
    (adjustGapBarrier (adjustMm (adjustQUpto (parseOptionsMode s))))
  refine ⟨?_, ?_, ?_, ?_⟩
  · rw [sm.2.2.1, gb.2.2.2.2.1, mm.2.2.2.2.1, q.2.2.2.2.1, m1.2.2.2.2.1]
  · rw [sm.2.2.2.1, gb.2.2.2.2.2.1, mm.2.2.2.2.2.1, q.2.2.2.2.2.1, m1.2.2.2.2.2]
  · rw [sm.2.2.2.2.2, gb.2.2.2.2.2.2.2, mm.2.2.2.2.2.2.2, q.2.2.2.2.2.2.2, m2.1]
  · rw [sm.2.2.2.2.1, gb.2.2.2.2.2.2.1, mm.2.2.2.2.2.2.1, q.2.2.2.2.2.2.1, m2.2]

/-- The reporting globals when `parseOptions` returns on reset globals. -/
theorem parseOptions_report (ext : Ext) (opts : List GetoptResult) (g g' : Globals)
    (hx : ∀ n, ∀ e ∈ (ext.presetsApply n).2, e.1 ≠ .ch_a ∧ e.1 ≠ .ch_k)
    (h : parseOptions ext opts (resetOptions ext g) = .ok g') :
    ∃ s p, parseOptionsPre ext opts (resetOptions ext g) = .ok s
      ∧ ext.parseString s.polstr s.localAlign s.noisyHpolymer s.ignoreQuals (policyOf s) = .ok p
      ∧ g'.allHits = aGiven opts
      ∧ g'.khits = kFrom 1 opts ∧ 1 ≤ kFrom 1 opts
      ∧ g'.msample = !(aGiven opts || kGiven opts)
      ∧ g'.mhits = (if (aGiven opts || kGiven opts) = true then 0 else p.mhits) := by
  obtain ⟨s, p, hs, hp, hc⟩ := parseOptions_split ext opts _ g' h
  obtain ⟨s1, s3, h1, h3, hm, rfl⟩ := parseOptionsPre_split ext opts g s hs
  obtain ⟨e1, e2, e3, e4, e5⟩ := getopt_report ext opts _ s1 h1
  have i1 : (parseOptionsInit (resetOptions ext g)).allHits = false := rfl
  have i2 : (parseOptionsInit (resetOptions ext g)).saw_a = false := rfl
  have i3 : (parseOptionsInit (resetOptions ext g)).saw_k = false := rfl
  have i4 : (parseOptionsInit (resetOptions ext g)).khits = 1 := rfl
  rw [i1, Bool.false_or] at e1
  rw [i2, Bool.false_or] at e2
  rw [i3, Bool.false_or] at e3
  rw [i4] at e4 e5
  have hI := parseOptionsExtra_inv ext
    (fun t => t.allHits = s1.allHits ∧ t.saw_a = s1.saw_a ∧ t.saw_k = s1.saw_k
      ∧ t.khits = s1.khits)
    (fun o => o = .ch_a ∨ o = .ch_k)
    (by
      intro o a t t' hP ht hIt
      have hf := parseOption_frame _ _ _ _ _ ht
      rw [hf.allHits (fun hc => hP (Or.inl hc)), hf.saw_a (fun hc => hP (Or.inl hc)),
        hf.saw_k (fun hc => hP (Or.inr hc)), hf.khits (fun hc => hP (Or.inr hc))]
      exact hIt)
    _ _ s3 h3
    (by
      intro e he hc
      obtain ⟨n, hn⟩ := hm e he
      rcases hc with hc | hc
      · exact (hx n e hn).1 hc
      · exact (hx n e hn).2 hc)
    (by rw [parseOptionsPresets_eq]; exact ⟨rfl, rfl, rfl, rfl⟩)
  obtain ⟨c1, c2, c3, c4⟩ := parseOptionsChecks_report _ g' hc
  have k1 : (setPolicy (parseOptionsStrip s3) p).allHits = s3.allHits := rfl
  have k2 : (setPolicy (parseOptionsStrip s3) p).khits = s3.khits := rfl
  have k3 : (setPolicy (parseOptionsStrip s3) p).saw_a = s3.saw_a := rfl
  have k4 : (setPolicy (parseOptionsStrip s3) p).saw_k = s3.saw_k := rfl
  have k5 : (setPolicy (parseOptionsStrip s3) p).mhits = p.mhits := rfl
  rw [k3, k4, hI.2.1, hI.2.2.1, e2, e3] at c3 c4
  rw [k5] at c4
  rw [k1, hI.1, e1] at c1
  rw [k2, hI.2.2.2, e4] at c2
  exact ⟨_, p, hs, hp, c1, c2, by rw [← e4]; exact e5 (by decide), c3, c4⟩

/-- C25: after `parseOptions` the reporting parameters that the worker builds
depend only on whether `-a` and `-k` occur among the options, not on where
`-M` stands.  With `-a` anywhere the hit limit is the maximum `THitInt`; without
`-a` and with `-k` it is the K of the last `-k` (at least 1); in both cases
`mhits = 0` and `msample = false`.  With neither, `msample = true`, the hit
limit is 1 and `mhits` is the value that `parseString` produced from the policy
string.  The presets are assumed not to add `-a` or `-k` options. -/
theorem C25_reporting_resolution (ext : Ext) (opts : List GetoptResult) (g g' : Globals)
    (hx : ∀ n, ∀ e ∈ (ext.presetsApply n).2, e.1 ≠ .ch_a ∧ e.1 ≠ .ch_k)
    (h : parseOptions ext opts (resetOptions ext g) = .ok g') :
    (aGiven opts = true →
      (workerRp ext g').khits = ext.THitInt_max
      ∧ (workerRp ext g').mhits = 0 ∧ (workerRp ext g').msample = false)
    ∧ (aGiven opts = false → kGiven opts = true →
      (workerRp ext g').khits = kFrom 1 opts ∧ 1 ≤ kFrom 1 opts
      ∧ (workerRp ext g').mhits = 0 ∧ (workerRp ext g').msample = false)
    ∧ (aGiven opts = false → kGiven opts = false →
      (workerRp ext g').khits = 1 ∧ (workerRp ext g').msample = true
      ∧ ∃ s p, parseOptionsPre ext opts (resetOptions ext g) = .ok s
          ∧ ext.parseString s.polstr s.localAlign s.noisyHpolymer s.ignoreQuals (policyOf s)
              = .ok p
          ∧ (workerRp ext g').mhits = p.mhits) := by
  obtain ⟨s, p, hs, hp, c1, c2, c2b, c3, c4⟩ := parseOptions_report ext opts g g' hx h
  have r1 : (workerRp ext g').khits = (if g'.allHits then ext.THitInt_max else g'.khits) := rfl
  have r2 : (workerRp ext g').mhits = g'.mhits := rfl
  have r3 : (workerRp ext g').msample = g'.msample := rfl
  rw [r1, r2, r3, c1, c2, c3, c4]
  refine ⟨?_, ?_, ?_⟩
  · intro ha
    simp [ha]
  · intro ha hk
    simp [ha, hk, c2b]
  · intro ha hk
    refine ⟨?_, by simp [ha, hk], s, p, hs, hp, by simp [ha, hk]⟩
    have : ∀ l : List GetoptResult, ∀ i, kGiven l = false → kFrom i l = i := by
      intro l
      induction l with
      | nil => intro i _; rfl
      | cons r rs ih =>
        intro i hl
        simp only [kGiven, List.any_cons, Bool.or_eq_false_iff, decide_eq_false_iff_not] at hl
        show kFrom _ rs = i
        rw [if_neg hl.1]
        exact ih i hl.2
    simp [ha, this opts 1 hk]

theorem C25_reporting_resolution_witness :
    thrownOf (parseOptions extV0 [shortOpt .ch_k "3", shortOpt .ch_M "5"]
      (resetOptions extV0 globals0)) = none
    ∧ (workerRp extV0 (globalsOf (parseOptions extV0 [shortOpt .ch_k "3", shortOpt .ch_M "5"]
        (resetOptions extV0 globals0)))).khits = 3
    ∧ (workerRp extV0 (globalsOf (parseOptions extV0 [shortOpt .ch_k "3", shortOpt .ch_M "5"]
        (resetOptions extV0 globals0)))).msample = false :=
  have h : thrownOf (parseOptions extV0 [shortOpt .ch_k "3", shortOpt .ch_M "5"]
      (resetOptions extV0 globals0)) = none := by decide
  have c := C25_reporting_resolution extV0 [shortOpt .ch_k "3", shortOpt .ch_M "5"]
    globals0 _
    (by
      intro n e he
      have : (extV0.presetsApply n).2 = [] := presetsV0_no_opts n
      rw [this] at he
      cases he)
    (ok_of_thrownOf_none _ h)
  ⟨h, (c.2.1 (by decide) (by decide)).1.trans (by decide),
    (c.2.1 (by decide) (by decide)).2.2.2⟩

/-! ## The periodic merge of the worker's counters -/

theorem mergesIn_append (a b : List Event) : mergesIn (a ++ b) = mergesIn a + mergesIn b := by
  simp [mergesIn]

theorem mergesIn_zero (l : List Event) (h : ∀ e ∈ l, e ≠ .mergeMetrics) : mergesIn l = 0 := by
  unfold mergesIn
  rw [List.length_eq_zero, List.filter_eq_nil_iff]
  intro e he
  simp [h e he]

theorem mateBody_mergei (g : Globals) (o : ReadOracle) (rdlens : Arr2 Nat) (matei mate : Nat)
    (w : WorkerState) : (mateBody g o rdlens matei mate w).1.mergei = w.mergei := by
  unfold mateBody
  split
  · rfl
  · simp only []
    split
    · rfl
    · unfold seedStage
      simp only []
      split
      · rfl
      · split
        · split
          · rfl
          · unfold extendStage
            simp only []
            split <;> rfl
        · rfl

theorem mateLoop_mergei (g : Globals) (o : ReadOracle) (rdlens matemap : Arr2 Nat)
    (w : WorkerState) : (mateLoop g o rdlens matemap w).mergei = w.mergei := by
  unfold mateLoop
  simp only []
  split
  · exact mateBody_mergei g o rdlens 0 matemap.e0 w
  · rw [mateBody_mergei, mateBody_mergei]

theorem alignRead_mergei (g : Globals) (o : ReadOracle) (w : WorkerState) :
    (alignRead g o w).mergei = w.mergei := by
  by_cases h : o.skipStages = -1
  · unfold alignRead
    simp only [h, if_true]
    rfl
  · rw [alignRead_eq g o w h]
    show (mateLoop g o (rdlensOf o) (matemapOf o) _).mergei = _
    rw [mateLoop_mergei]
    show (filterRead g o (rdlensOf o) ((countRead o w).log (.nextRead o.patid))).mergei = _
    rw [(filterRead_spec g o (rdlensOf o) _).2.2.mergei]
    rfl

theorem mem_mateCalls_ne_merge (g : Globals) (o : ReadOracle) (rdlens : Arr2 Nat)
    (mate : Nat) (w : WorkerState) (e : Event) (h : e ∈ mateCalls g o rdlens mate w) :
    e ≠ .mergeMetrics := by
  unfold mateCalls at h
  simp only [List.mem_cons, List.mem_singleton, List.not_mem_nil, or_false] at h
  rcases h with h | h | h
  · rw [h]
    intro hc
    cases hc
  · rw [h]
    intro hc
    cases hc
  · rw [h]
    split <;> (intro hc; cases hc)

theorem alignRead_merges (g : Globals) (o : ReadOracle) (w : WorkerState) :
    mergesIn (alignRead g o w).trace = mergesIn w.trace := by
  have key : ∃ evs, (alignRead g o w).trace = w.trace ++ evs
      ∧ ∀ e ∈ evs, e ≠ .mergeMetrics := by
    by_cases h : o.skipStages = -1
    · refine ⟨[.nextRead o.patid,
        .finishRead false w.exhaustive w.nfilt w.scfilt w.lenfilt w.qcfilt], ?_, ?_⟩
      · unfold alignRead
        simp [h, finishRead, countRead, countSameRead, WorkerState.log]
      · intro e he
        simp only [List.mem_cons, List.mem_singleton, List.not_mem_nil, or_false] at he
        rcases he with rfl | rfl <;> (intro hc; cases hc)
    · obtain ⟨fevs, ft, fq⟩ :=
        (filterRead_spec g o (rdlensOf o) ((countRead o w).log (.nextRead o.patid))).2.2.trace
      obtain ⟨evs0, evs1, p0, p1, t⟩ := mateLoop_calls g o (rdlensOf o) (matemapOf o)
        (enterMateLoop g o ((countRead o w).log (.nextRead o.patid)))
      have te : (enterMateLoop g o ((countRead o w).log (.nextRead o.patid))).trace
          = w.trace ++ ([.nextRead o.patid] ++ fevs) := by
        show (filterRead g o (rdlensOf o) ((countRead o w).log (.nextRead o.patid))).trace = _
        rw [ft]
        simp [WorkerState.log, countRead]
      rw [alignRead_eq g o w h]
      refine ⟨[.nextRead o.patid] ++ fevs ++ (evs0 ++ evs1) ++
        [.finishRead true
          (mateLoop g o (rdlensOf o) (matemapOf o)
            (enterMateLoop g o ((countRead o w).log (.nextRead o.patid)))).exhaustive
          (mateLoop g o (rdlensOf o) (matemapOf o)
            (enterMateLoop g o ((countRead o w).log (.nextRead o.patid)))).nfilt
          (mateLoop g o (rdlensOf o) (matemapOf o)
            (enterMateLoop g o ((countRead o w).log (.nextRead o.patid)))).scfilt
          (mateLoop g o (rdlensOf o) (matemapOf o)
            (enterMateLoop g o ((countRead o w).log (.nextRead o.patid)))).lenfilt
          (mateLoop g o (rdlensOf o) (matemapOf o)
            (enterMateLoop g o ((countRead o w).log (.nextRead o.patid)))).qcfilt], ?_, ?_⟩
      · show (mateLoop g o (rdlensOf o) (matemapOf o) _).trace ++ [_] = _
        rw [t, te]
        simp only [List.append_assoc]
      · intro e he
        simp only [List.mem_append, List.mem_singleton] at he
        rcases he with ((he | he) | (he | he)) | he
        · rw [he]
          intro hc
          cases hc
        · intro hc
          rw [hc] at he
          have := fq _ he
          simp [Event.isFilterWork] at this
        · exact mem_mateCalls_ne_merge _ _ _ _ _ e (p0.subset he)
        · exact mem_mateCalls_ne_merge _ _ _ _ _ e (p1.subset he)
        · rw [he]
          intro hc
          cases hc
  obtain ⟨evs, t, hq⟩ := key
  rw [t, mergesIn_append, mergesIn_zero evs hq, Nat.add_zero]

theorem MERGE_METRICS_merges (w : WorkerState) :
    mergesIn (MERGE_METRICS w).trace = mergesIn w.trace + 1 := by
  show mergesIn (w.trace ++ [.mergeMetrics]) = _
  rw [mergesIn_append]
  rfl

theorem mergeStep_off (g : Globals) (a : WorkerArgs) (o : ReadOracle) (w : WorkerState)
    (h : mergeEnabled g a = false) : mergeStep g a o w = w := by
  unfold mergeStep
  have : ¬ (g.metricsIval > 0 ∧ (a.metricsOfb = true ∨ g.metricsStderr = true)) := by
    unfold mergeEnabled at h
    simp only [Bool.and_eq_false_iff, decide_eq_false_iff_not, Bool.or_eq_false_iff] at h
    intro hc
    rcases h with h | h
    · exact h hc.1
    · rcases hc.2 with hc | hc
      · rw [h.1] at hc
        cases hc
      · rw [h.2] at hc
        cases hc
  rw [if_neg this]

theorem mergeStep_on (g : Globals) (a : WorkerArgs) (o : ReadOracle) (w : WorkerState)
    (h : mergeEnabled g a = true) :
    (w.mergei + 1 = 16 →
      mergesIn (mergeStep g a o w).trace = mergesIn w.trace + 1
      ∧ (mergeStep g a o w).mergei = 0
      ∧ (mergeStep g a o w).olm = OuterLoopMetrics.reset
      ∧ (mergeStep g a o w).olmu
          = (if a.tid = 0 ∧ o.timeElapsed = true then OuterLoopMetrics.reset
             else w.olmu.merge w.olm)
      ∧ (mergeStep g a o w).olmJob
          = (if a.tid = 0 ∧ o.timeElapsed = true then w.olmJob.merge (w.olmu.merge w.olm)
             else w.olmJob)
      ∧ (mergeStep g a o w).trace
          = w.trace ++ (if a.tid = 0 ∧ o.timeElapsed = true
              then [.mergeMetrics, .reportInterval] else [.mergeMetrics]))
    ∧ (w.mergei + 1 ≠ 16 → mergeStep g a o w = { w with mergei := w.mergei + 1 }) := by
  have hc : g.metricsIval > 0 ∧ (a.metricsOfb = true ∨ g.metricsStderr = true) := by
    unfold mergeEnabled at h
    simp only [Bool.and_eq_true, decide_eq_true_eq, Bool.or_eq_true] at h
    exact h
  unfold mergeStep
  rw [if_pos hc]
  simp only []
  constructor
  · intro h16
    rw [if_pos h16]
    by_cases hrep : a.tid = 0 ∧ o.timeElapsed = true
    · rw [if_pos hrep, if_pos hrep, if_pos hrep, if_pos hrep]
      refine ⟨?_, rfl, rfl, rfl, rfl, ?_⟩
      · show mergesIn ((w.trace ++ [.mergeMetrics]) ++ [.reportInterval]) = _
        rw [mergesIn_append, mergesIn_append]
        rfl
      · show (w.trace ++ [.mergeMetrics]) ++ [.reportInterval] = _
        rw [List.append_assoc]
        rfl
    · rw [if_neg hrep, if_neg hrep, if_neg hrep, if_neg hrep]
      refine ⟨?_, rfl, rfl, rfl, rfl, rfl⟩
      show mergesIn (w.trace ++ [.mergeMetrics]) = _
      rw [mergesIn_append]
      rfl
  · intro h16
    rw [if_neg h16]

theorem workerLoop_merges (g : Globals) (a : WorkerArgs) (rs : List ReadOracle) :
    ∀ w : WorkerState, (∀ o ∈ rs, o.success = true ∧ inWindow g o.patid = true) →
      0 ≤ w.mergei → w.mergei < 16 →
      mergesIn (workerLoop g a rs w).trace
        = mergesIn w.trace
          + (if mergeEnabled g a = true then (w.mergei.toNat + rs.length) / 16 else 0) + 1 := by
  induction rs with
  | nil =>
    intro w _ h0 h1
    show mergesIn (MERGE_METRICS w).trace = _
    rw [MERGE_METRICS_merges]
    split
    · simp only [List.length_nil]
      omega
    · rfl
  | cons o rest ih =>
    intro w hr h0 h1
    have ho := hr o (List.mem_cons_self _ _)
    have hrest : ∀ x ∈ rest, x.success = true ∧ inWindow g x.patid = true :=
      fun x hx => hr x (List.mem_cons_of_mem _ hx)
    have e : workerLoop g a (o :: rest) w
        = workerLoop g a rest (alignRead g o (mergeStep g a o w)) := by
      simp [workerLoop, ho.1, ho.2]
    rw [e]
    cases hen : mergeEnabled g a
    · rw [mergeStep_off g a o w hen]
      have := ih (alignRead g o w) hrest (by rw [alignRead_mergei]; exact h0)
        (by rw [alignRead_mergei]; exact h1)
      rw [this, alignRead_merges, hen]
      rfl
    · obtain ⟨s16, sne⟩ := mergeStep_on g a o w hen
      by_cases h16 : w.mergei + 1 = 16
      · obtain ⟨m1, m2, _⟩ := s16 h16
        have := ih (alignRead g o (mergeStep g a o w)) hrest
          (by rw [alignRead_mergei, m2]) (by rw [alignRead_mergei, m2]; decide)
        rw [this, alignRead_merges, alignRead_mergei, m1, m2, hen]
        simp only [if_true, List.length_cons]
        have : w.mergei.toNat = 15 := by omega
        rw [this]
        show _ + (0 + rest.length) / 16 + 1 = _
        omega
      · have es := sne h16
        have := ih (alignRead g o (mergeStep g a o w)) hrest
          (by rw [alignRead_mergei, es]; show 0 ≤ w.mergei + 1; omega)
          (by rw [alignRead_mergei, es]; show w.mergei + 1 < 16; omega)
        rw [this, alignRead_merges, alignRead_mergei, es, hen]
        simp only [if_true, List.length_cons]
        show mergesIn w.trace + ((w.mergei + 1).toNat + rest.length) / 16 + 1 = _
        have : (w.mergei + 1).toNat = w.mergei.toNat + 1 := by omega
        rw [this]
        omega

set_option maxRecDepth 20000 in
/-- C21 (as stated) fails for the default configuration: after `resetOptions`
no metrics file and no `--metrics-stderr` is configured, the condition of
lines 2303-2304 is false, and a worker that aligns 16 reads merges its counters
once, at the end of its loop, with all 16 reads in that one merge.  With
`metricsStderr` set the same worker merges twice. -/
theorem C21_counterexample :
    mergeEnabled (resetOptions extV0 globals0) ⟨0, false⟩ = false
    ∧ mergesIn (multiseedSearchWorker (resetOptions extV0 globals0) ⟨0, false⟩
        (List.replicate 16 (oracleV0 false 30 0 0 false)) OuterLoopMetrics.reset).trace = 1
    ∧ (multiseedSearchWorker (resetOptions extV0 globals0) ⟨0, false⟩
        (List.replicate 16 (oracleV0 false 30 0 0 false)) OuterLoopMetrics.reset).olmu.reads
      = 16
    ∧ mergesIn (multiseedSearchWorker { resetOptions extV0 globals0 with metricsStderr := true }
        ⟨0, false⟩ (List.replicate 16 (oracleV0 false 30 0 0 false))
        OuterLoopMetrics.reset).trace = 2 := by
  decide

/-- C21 (amended): the periodic merge is conditional.  When `metricsIval > 0` and a
metrics file or `--metrics-stderr` is configured, a worker that aligns every
read it is delivered executes `MERGE_METRICS` once for every 16 reads it aligns
(`n / 16` times for `n` reads) and once more when its loop ends; on the 16th
count the counters are merged into the accumulator, the worker's own counters
are zeroed and the count restarts; on thread 0, when the reporting interval has
elapsed, `reportInterval` is then called, whose `finishReport` adds the
accumulator to the job total and zeroes the accumulator.  Otherwise no read is
counted and the only merge is the one at the end of the loop.  After
`resetOptions` the condition holds exactly when a metrics file is open. -/
theorem C21_periodic_merge (ext : Ext) (g0 g : Globals) (a : WorkerArgs)
    (rs : List ReadOracle) (olmu : OuterLoopMetrics)
    (hr : ∀ o ∈ rs, o.success = true ∧ inWindow g o.patid = true) :
    mergesIn (multiseedSearchWorker g a rs olmu).trace
      = (if mergeEnabled g a = true then rs.length / 16 else 0) + 1
    ∧ (mergeEnabled g a = false → ∀ o w, mergeStep g a o w = w)
    ∧ (mergeEnabled g a = true → ∀ o w, w.mergei + 1 = 16 →
        mergesIn (mergeStep g a o w).trace = mergesIn w.trace + 1
        ∧ (mergeStep g a o w).mergei = 0
        ∧ (mergeStep g a o w).olm = OuterLoopMetrics.reset
        ∧ (mergeStep g a o w).olmu
            = (if a.tid = 0 ∧ o.timeElapsed = true then OuterLoopMetrics.reset
               else w.olmu.merge w.olm)
        ∧ (mergeStep g a o w).olmJob
            = (if a.tid = 0 ∧ o.timeElapsed = true then w.olmJob.merge (w.olmu.merge w.olm)
               else w.olmJob)
        ∧ (mergeStep g a o w).trace
            = w.trace ++ (if a.tid = 0 ∧ o.timeElapsed = true
                then [.mergeMetrics, .reportInterval] else [.mergeMetrics]))
    ∧ (mergeEnabled g a = true → ∀ o w, w.mergei + 1 ≠ 16 →
        mergeStep g a o w = { w with mergei := w.mergei + 1 })
    ∧ mergeEnabled (resetOptions ext g0) a = a.metricsOfb := by
  refine ⟨?_, fun h o w => mergeStep_off g a o w h,
    fun h o w => (mergeStep_on g a o w h).1, fun h o w => (mergeStep_on g a o w h).2, ?_⟩
  · unfold multiseedSearchWorker
    rw [workerLoop_merges g a rs (WorkerState.init olmu) hr (le_refl (0 : Int))
      (show (0 : Int) < 16 by decide)]
    have e0 : mergesIn (WorkerState.init olmu).trace = 0 := rfl
    have e1 : (WorkerState.init olmu).mergei.toNat = 0 := rfl
    rw [e0, e1]
    simp
  · unfold mergeEnabled
    have e1 : (resetOptions ext g0).metricsIval = 1 := rfl
    have e2 : (resetOptions ext g0).metricsStderr = false := rfl
    rw [e1, e2]
    simp

theorem C21_periodic_merge_witness :
    (∀ o ∈ List.replicate 16 (oracleV0 false 30 0 0 false),
        o.success = true
        ∧ inWindow { resetOptions extV0 globals0 with metricsStderr := true } o.patid = true)
    ∧ mergesIn (multiseedSearchWorker { resetOptions extV0 globals0 with metricsStderr := true }
        ⟨0, false⟩ (List.replicate 16 (oracleV0 false 30 0 0 false))
        OuterLoopMetrics.reset).trace = 2 :=
  have hr : ∀ o ∈ List.replicate 16 (oracleV0 false 30 0 0 false),
      o.success = true
      ∧ inWindow { resetOptions extV0 globals0 with metricsStderr := true } o.patid = true := by
    intro o ho
    rw [List.eq_of_mem_replicate ho]
    exact ⟨rfl, by decide⟩
  ⟨hr, (C21_periodic_merge extV0 globals0
      { resetOptions extV0 globals0 with metricsStderr := true } ⟨0, false⟩
      (List.replicate 16 (oracleV0 false 30 0 0 false)) OuterLoopMetrics.reset hr).1.trans
    (by decide)⟩

end Bt2Search
